import Mathlib

/-!
Verification of the pyVoIP SIP core (pyVoIP/SIP.py) against its
natural-language specification.

The development shallowly embeds the Python source: Python strings become
Lean strings, Python exceptions become an explicit error type threaded
through `Except`, Python dicts become insertion-ordered association lists,
and the mutable `SIPClient` object becomes an explicit state record.
External collaborators (the `hashlib` digests, `random`, `uuid`, the
`netaddr` validators, sockets and logging) are modelled as parameters or
as streams of pre-drawn values, exactly as the specification designates
them external.  The `debug` logging helper is modelled as a no-op.

Python semantics notes used throughout:
  - `str.split(sep)` splits at every non-overlapping occurrence of `sep`,
    scanning left to right; `"".split(sep) = [""]`.  `pySplitL` below
    implements this on `List Char`.
  - unpacking a list of length other than 2 into `a, b = ...` raises
    `ValueError`; out-of-range indexing raises `IndexError`; a missing
    dict key raises `KeyError`; subscripting a non-subscriptable value
    raises `TypeError`.
-/

/-- Python exception kinds raised by the embedded code.  `sipParse` carries
the exception message because `SIPClient.recv` inspects it for the
substring "SIP Version". -/
inductive PyErr where
  | sipParse (msg : String)
  | valueError
  | indexError
  | keyError
  | typeError
  | timeoutError
  | invalidAccountInfo
  | wouldBlock
  | outOfFuel
  deriving DecidableEq

abbrev Chars := List Char

/-- CRLF as a character list. -/
def crlfL : Chars := ['\r', '\n']

/-- The CRLFCRLF header/body separator as a character list. -/
def blankL : Chars := ['\r', '\n', '\r', '\n']

/-- Helper for `pySplitL`: prepend a character to the first fragment. -/
def consHead (a : Char) : List Chars → List Chars
  | [] => [[a]]
  | h :: t => (a :: h) :: t

/-- Prepend a whole chunk to the first fragment of a split result. -/
def consFold (l : Chars) (r : List Chars) : List Chars :=
  match r with
  | [] => [l]
  | h :: t => (l ++ h) :: t

/-- Core of the Python `str.split(sep)` embedding.  The first `Nat`
argument counts separator characters still to be skipped after a match;
the recursion is structural in the subject list so that the kernel can
evaluate it. -/
def pySplitCore (sep : Chars) : Nat → Chars → List Chars
  | 0, [] => [[]]
  | 0, a :: as =>
    if sep.isPrefixOf (a :: as) && !sep.isEmpty then
      [] :: pySplitCore sep (sep.length - 1) as
    else
      consHead a (pySplitCore sep 0 as)
  | _ + 1, [] => [[]]
  | n + 1, _ :: as => pySplitCore sep n as

/-- Python `str.split(sep)` on character lists: split at every
non-overlapping occurrence of `sep`, scanning left to right.  (Python
raises on an empty separator; the embedding never uses one.) -/
def pySplitL (sep s : Chars) : List Chars := pySplitCore sep 0 s

/-- Python `str.split(sep)` on strings. -/
def pySplit (s sep : String) : List String :=
  (pySplitL sep.data s.data).map String.mk

/-- Rejoin fragments with the separator; inverse of `pySplitL`. -/
def joinSep (sep : Chars) : List Chars → Chars
  | [] => []
  | [x] => x
  | x :: y :: t => x ++ sep ++ joinSep sep (y :: t)

/-- Python `sub in s` substring test on character lists. -/
def containsSub (sub : Chars) : Chars → Bool
  | [] => sub.isEmpty
  | a :: as => sub.isPrefixOf (a :: as) || containsSub sub as

/-- Python `sub in s` on strings. -/
def pyContains (s sub : String) : Bool :=
  containsSub sub.data s.data

/-- Core of the Python `str.replace(old, new)` embedding, with the same
skip-counter technique as `pySplitCore`. -/
def pyReplaceCore (old new : Chars) : Nat → Chars → Chars
  | 0, [] => []
  | 0, a :: as =>
    if old.isPrefixOf (a :: as) && !old.isEmpty then
      new ++ pyReplaceCore old new (old.length - 1) as
    else
      a :: pyReplaceCore old new 0 as
  | _ + 1, [] => []
  | n + 1, _ :: as => pyReplaceCore old new n as

/-- Python `str.replace(old, new)` on strings (all occurrences, scanning
left to right; the embedding never uses an empty `old`). -/
def pyReplace (s old new : String) : String :=
  String.mk (pyReplaceCore old.data new.data 0 s.data)

/-- Python `str.strip(chars)`: drop characters of the set from both ends. -/
def pyStripL (cs : Chars) (l : Chars) : Chars :=
  ((l.dropWhile (fun c => cs.contains c)).reverse.dropWhile
    (fun c => cs.contains c)).reverse

/-- Python `str.strip(chars)` on strings. -/
def pyStrip (s : String) (cs : List Char) : String :=
  String.mk (pyStripL cs s.data)

/-- Python whitespace characters recognised by no-argument `str.strip()`. -/
def pyWs : Chars := [' ', '\t', '\n', '\r', '\x0b', '\x0c']

/-- Python no-argument `str.strip()`. -/
def pyStripWs (s : String) : String :=
  String.mk (pyStripL pyWs s.data)

/-- Value of a decimal digit character, if it is one. -/
def digitVal? (c : Char) : Option Nat :=
  if '0' ≤ c ∧ c ≤ '9' then some (c.toNat - '0'.toNat) else none

/-- Interpret a nonempty list of decimal digits. -/
def digitsVal? : Chars → Option Nat
  | [] => none
  | l => l.foldl (fun acc c => match acc, digitVal? c with
      | some n, some d => some (10 * n + d)
      | _, _ => none) (some 0)

/-- Python `int(str)`: optional surrounding whitespace, optional sign,
then decimal digits (the embedding ignores the underscore-separator
tolerance of Python 3.6+, which the source never relies on). -/
def pyInt? (s : String) : Option Int :=
  match pyStripL pyWs s.data with
  | '-' :: ds => (digitsVal? ds).map (fun n => -(n : Int))
  | '+' :: ds => (digitsVal? ds).map (fun n => (n : Int))
  | ds => (digitsVal? ds).map (fun n => (n : Int))

/-- Lookup in an insertion-ordered association list (Python dict read). -/
def pyLookup (m : List (String × α)) (k : String) : Option α :=
  (m.find? (fun p => p.1 == k)).map (fun p => p.2)

/-- Python dict assignment: overwrite in place if the key exists,
otherwise append. -/
def pyDictSet (m : List (String × α)) (k : String) (v : α) :
    List (String × α) :=
  match m with
  | [] => [(k, v)]
  | (k0, v0) :: t =>
    if k0 == k then (k0, v) :: t else (k0, v0) :: pyDictSet t k v

/-- Python dict read that raises `KeyError` when the key is missing. -/
def pyDictGet (m : List (String × α)) (k : String) : Except PyErr α :=
  match pyLookup m k with
  | some v => .ok v
  | none => .error .keyError

/-- Characters allowed in a header line for the symbolic parsing lemmas:
neither CR nor LF occurs. -/
def okChars (l : Chars) : Prop := ∀ c ∈ l, c ≠ '\r' ∧ c ≠ '\n'

/-- A well-formed serialised line: nonempty and free of CR and LF. -/
def lineOK (l : Chars) : Prop := l ≠ [] ∧ okChars l

theorem okChars_append {a b : Chars} :
    okChars (a ++ b) ↔ okChars a ∧ okChars b := by
  constructor
  · intro h
    exact ⟨fun c hc => h c (List.mem_append_left _ hc),
           fun c hc => h c (List.mem_append_right _ hc)⟩
  · rintro ⟨ha, hb⟩ c hc
    rcases List.mem_append.mp hc with h | h
    · exact ha c h
    · exact hb c h

theorem okChars_nil : okChars [] := by
  intro c hc
  simp at hc

theorem pySplitCore_skip (sep : Chars) :
    ∀ (n : Nat) (s : Chars), pySplitCore sep n s = pySplitL sep (s.drop n) := by
  intro n
  induction n with
  | zero => intro s; simp [pySplitL]
  | succ n ih =>
    intro s
    cases s with
    | nil => simp [pySplitCore, pySplitL]
    | cons a as => simpa [pySplitCore] using ih as

theorem pySplitL_nil (sep : Chars) : pySplitL sep [] = [[]] := rfl

theorem pySplitL_cons (sep : Chars) (a : Char) (as : Chars) :
    pySplitL sep (a :: as) =
      if sep.isPrefixOf (a :: as) && !sep.isEmpty then
        [] :: pySplitL sep (as.drop (sep.length - 1))
      else
        consHead a (pySplitL sep as) := by
  show pySplitCore sep 0 (a :: as) = _
  rw [pySplitCore]
  rw [pySplitCore_skip]
  rfl

theorem pySplitL_ne_nil (sep s : Chars) : pySplitL sep s ≠ [] := by
  induction s with
  | nil => simp [pySplitL_nil]
  | cons a as ih =>
    rw [pySplitL_cons]
    split
    · simp
    · unfold consHead
      cases pySplitL sep as <;> simp

theorem consFold_cons (a : Char) (l : Chars) (r : List Chars) :
    consFold (a :: l) r = consHead a (consFold l r) := by
  cases r <;> rfl

theorem consFold_nil {r : List Chars} (h : r ≠ []) : consFold [] r = r := by
  cases r with
  | nil => exact absurd rfl h
  | cons h t => simp [consFold]

theorem isPrefixOf_append_self (p t : Chars) :
    p.isPrefixOf (p ++ t) = true := by
  induction p with
  | nil => exact List.isPrefixOf_nil_left
  | cons c cs ih => simp [List.isPrefixOf, ih]

theorem eq_append_drop_of_isPrefixOf :
    ∀ (p s : Chars), p.isPrefixOf s = true → s = p ++ s.drop p.length := by
  intro p
  induction p with
  | nil => intro s _; simp
  | cons c cs ih =>
    intro s hp
    cases s with
    | nil => simp [List.isPrefixOf] at hp
    | cons a as =>
      simp only [List.isPrefixOf, Bool.and_eq_true, beq_iff_eq] at hp
      obtain ⟨rfl, h2⟩ := hp
      simpa using ih as h2

theorem isPrefixOf_append_or :
    ∀ (p l f : Chars), p.isPrefixOf (l ++ f) = true →
      p.isPrefixOf l = true ∨ l.isPrefixOf p = true := by
  intro p
  induction p with
  | nil => intro l f _; left; exact List.isPrefixOf_nil_left
  | cons c cs ih =>
    intro l f hp
    cases l with
    | nil => right; exact List.isPrefixOf_nil_left
    | cons a as =>
      simp only [List.cons_append, List.isPrefixOf, Bool.and_eq_true,
        beq_iff_eq] at hp ⊢
      obtain ⟨rfl, h2⟩ := hp
      rcases ih as f h2 with h | h
      · left; exact ⟨rfl, h⟩
      · right; exact ⟨rfl, h⟩

theorem pySplitL_cons_ne {c a : Char} (cs as : Chars) (h : a ≠ c) :
    pySplitL (c :: cs) (a :: as) = consHead a (pySplitL (c :: cs) as) := by
  have hp : (c :: cs).isPrefixOf (a :: as) = false := by
    simp [List.isPrefixOf]
    intro he
    exact absurd he.symm h
  rw [pySplitL_cons, hp]
  simp

theorem pySplitL_sep_append (c : Char) (cs t : Chars) :
    pySplitL (c :: cs) ((c :: cs) ++ t) = [] :: pySplitL (c :: cs) t := by
  have hp : (c :: cs).isPrefixOf ((c :: cs) ++ t) = true :=
    isPrefixOf_append_self _ _
  rw [List.cons_append, pySplitL_cons]
  rw [show (c :: (cs ++ t)) = (c :: cs) ++ t from rfl, hp]
  simp [List.drop_left]

theorem pySplitL_chunk (c : Char) (cs : Chars) :
    ∀ (l : Chars), c ∉ l → ∀ t,
      pySplitL (c :: cs) (l ++ t) = consFold l (pySplitL (c :: cs) t) := by
  intro l
  induction l with
  | nil =>
    intro _ t
    simp [consFold_nil (pySplitL_ne_nil _ _)]
  | cons a l' ih =>
    intro hmem t
    have ha : a ≠ c := by
      intro he
      exact hmem (by simp [he])
    have hl' : c ∉ l' := fun hc => hmem (List.mem_cons_of_mem _ hc)
    simp only [List.cons_append]
    rw [pySplitL_cons_ne _ _ ha, ih hl' t, consFold_cons]

theorem blank_eq_cons : blankL = '\r' :: ['\n', '\r', '\n'] := rfl

theorem crlf_eq_cons : crlfL = '\r' :: ['\n'] := rfl

theorem pySplitL_chunk_blank (l : Chars) (hl : '\r' ∉ l) (t : Chars) :
    pySplitL blankL (l ++ t) = consFold l (pySplitL blankL t) := by
  rw [blank_eq_cons]
  exact pySplitL_chunk _ _ l hl t

theorem pySplitL_chunk_crlf (l : Chars) (hl : '\r' ∉ l) (t : Chars) :
    pySplitL crlfL (l ++ t) = consFold l (pySplitL crlfL t) := by
  rw [crlf_eq_cons]
  exact pySplitL_chunk _ _ l hl t

theorem blankL_sep_append (t : Chars) :
    pySplitL blankL (blankL ++ t) = [] :: pySplitL blankL t := by
  rw [blank_eq_cons]
  exact pySplitL_sep_append _ _ _

theorem crlfL_sep_append (t : Chars) :
    pySplitL crlfL (crlfL ++ t) = [] :: pySplitL crlfL t := by
  rw [crlf_eq_cons]
  exact pySplitL_sep_append _ _ _

theorem joinSep_consHead (sep : Chars) {r : List Chars} (a : Char)
    (h : r ≠ []) : joinSep sep (consHead a r) = a :: joinSep sep r := by
  cases r with
  | nil => exact absurd rfl h
  | cons x t =>
    cases t with
    | nil => rfl
    | cons y t' => simp [consHead, joinSep]

theorem joinSep_cons_cons (sep : Chars) (x : Chars) {r : List Chars}
    (h : r ≠ []) : joinSep sep (x :: r) = x ++ sep ++ joinSep sep r := by
  cases r with
  | nil => exact absurd rfl h
  | cons y t => rfl

theorem joinSep_pySplitL (c : Char) (cs : Chars) :
    ∀ (n : Nat) (s : Chars), s.length ≤ n →
      joinSep (c :: cs) (pySplitL (c :: cs) s) = s := by
  intro n
  induction n with
  | zero =>
    intro s hs
    have : s = [] := List.length_eq_zero.mp (Nat.le_zero.mp hs)
    subst this
    rfl
  | succ n ih =>
    intro s hs
    cases s with
    | nil => rfl
    | cons a as =>
      by_cases hp : (c :: cs).isPrefixOf (a :: as) = true
      · have hdec := eq_append_drop_of_isPrefixOf _ _ hp
        rw [pySplitL_cons, hp]
        simp only [List.isEmpty_cons, Bool.not_false, Bool.and_true,
          if_pos, List.length_cons, Nat.add_sub_cancel]
        rw [joinSep_cons_cons _ _ (pySplitL_ne_nil _ _)]
        have hlen : ((as.drop cs.length)).length ≤ n := by
          have := List.length_drop cs.length as
          simp at hs
          omega
        rw [ih _ hlen]
        conv_rhs => rw [hdec]
        simp [List.drop]
      · have hp' : ((c :: cs).isPrefixOf (a :: as) && !(c :: cs).isEmpty)
            = false := by
          simp only [Bool.and_eq_false_iff]
          left
          exact Bool.eq_false_iff.mpr hp
        rw [pySplitL_cons, hp']
        simp only [Bool.false_eq_true, if_neg, not_false_iff]
        rw [joinSep_consHead _ _ (pySplitL_ne_nil _ _)]
        have hlen : as.length ≤ n := by simp at hs; omega
        rw [ih _ hlen]

theorem joinSep_pySplitL_blank (s : Chars) :
    joinSep blankL (pySplitL blankL s) = s := by
  rw [blank_eq_cons]
  exact joinSep_pySplitL _ _ s.length s le_rfl

theorem blankL_step {x : Char} (xs : Chars) (hx : x ≠ '\r') :
    pySplitL blankL ('\r' :: '\n' :: x :: xs)
      = consFold crlfL (pySplitL blankL (x :: xs)) := by
  have h1 : (blankL.isPrefixOf ('\r' :: '\n' :: x :: xs) && !blankL.isEmpty)
      = false := by
    simp [blankL, List.isPrefixOf]
    intro he
    exact absurd he.symm hx
  have h2 : ('\n' : Char) ≠ '\r' := by decide
  rw [pySplitL_cons, h1]
  simp only [Bool.false_eq_true, if_neg, not_false_iff]
  rw [show pySplitL blankL ('\n' :: x :: xs)
      = consHead '\n' (pySplitL blankL (x :: xs)) from by
    rw [blank_eq_cons]; exact pySplitL_cons_ne _ _ h2]
  rw [crlf_eq_cons, consFold_cons, consFold_cons,
    consFold_nil (pySplitL_ne_nil _ _)]

theorem joinSep_head_ne (x : Char) (l' : Chars) (t : List Chars) :
    ∃ rest, joinSep crlfL ((x :: l') :: t) = x :: rest := by
  cases t with
  | nil => exact ⟨l', rfl⟩
  | cons y t' => exact ⟨l' ++ crlfL ++ joinSep crlfL (y :: t'), rfl⟩

theorem pySplitL_blank_header :
    ∀ (ls : List Chars), ls ≠ [] → (∀ l ∈ ls, lineOK l) → ∀ (b : Chars),
      pySplitL blankL (joinSep crlfL ls ++ blankL ++ b)
        = joinSep crlfL ls :: pySplitL blankL b := by
  intro ls
  induction ls with
  | nil => intro h; exact absurd rfl h
  | cons l ls' ih =>
    intro _ hok b
    have hlOK : lineOK l := hok l (List.mem_cons_self _ _)
    have hlr : '\r' ∉ l := by
      intro hc
      exact (hlOK.2 '\r' hc).1 rfl
    cases ls' with
    | nil =>
      simp only [joinSep]
      rw [List.append_assoc, pySplitL_chunk_blank l hlr,
        blankL_sep_append]
      simp [consFold]
    | cons l2 t =>
      have hl2OK : lineOK l2 := hok l2 (by simp)
      obtain ⟨x, xs, hx⟩ : ∃ x xs, l2 = x :: xs := by
        cases l2 with
        | nil => exact absurd rfl hl2OK.1
        | cons x xs => exact ⟨x, xs, rfl⟩
      have hxr : x ≠ '\r' := by
        refine (hl2OK.2 x ?_).1
        simp [hx]
      rw [joinSep_cons_cons _ _ (by simp)]
      have ihe := ih (by simp) (fun u hu => hok u (List.mem_cons_of_mem _ hu)) b
      obtain ⟨rest, hrest⟩ := joinSep_head_ne x xs t
      rw [hx] at ihe ⊢
      rw [hrest] at ihe ⊢
      rw [show l ++ crlfL ++ (x :: rest) ++ blankL ++ b
          = l ++ ('\r' :: '\n' :: x :: (rest ++ (blankL ++ b))) from by
        simp [crlf_eq_cons]]
      rw [pySplitL_chunk_blank l hlr]
      rw [blankL_step _ hxr]
      have ihe' : pySplitL blankL (x :: (rest ++ (blankL ++ b)))
          = (x :: rest) :: pySplitL blankL b := by
        simpa [List.append_assoc] using ihe
      rw [ihe']
      simp [consFold, crlf_eq_cons]

theorem pySplitL_crlf_join :
    ∀ (ls : List Chars), ls ≠ [] → (∀ l ∈ ls, okChars l) →
      pySplitL crlfL (joinSep crlfL ls) = ls := by
  intro ls
  induction ls with
  | nil => intro h; exact absurd rfl h
  | cons l ls' ih =>
    intro _ hok
    have hlr : '\r' ∉ l := by
      intro hc
      exact (hok l (List.mem_cons_self _ _) '\r' hc).1 rfl
    cases ls' with
    | nil =>
      show pySplitL crlfL l = [l]
      have := pySplitL_chunk_crlf l hlr []
      simp only [List.append_nil] at this
      rw [this]
      simp [pySplitL_nil, consFold]
    | cons l2 t =>
      rw [joinSep_cons_cons _ _ (by simp), List.append_assoc,
        pySplitL_chunk_crlf l hlr, crlfL_sep_append]
      rw [show pySplitL crlfL (joinSep crlfL (l2 :: t)) = l2 :: t from
        ih (by simp) (fun a ha => hok a (List.mem_cons_of_mem _ ha))]
      simp [consFold]

/-- pyVoIP.SIPCompatibleMethods from pyVoIP/__init__.py. -/
def SIPCompatibleMethods : List String :=
  ["INVITE", "ACK", "BYE", "CANCEL", "NOTIFY"]

/-- pyVoIP.SIPCompatibleVersions from pyVoIP/__init__.py. -/
def SIPCompatibleVersions : List String := ["SIP/2.0"]

/-- pyVoIP.__version__, the join of version_info (1, 6, 3). -/
def pyVoIPVersion : String := "1.6.3"

/-- Status codes enumerated by the SIPStatus enum; `SIPStatus(n)` raises
`ValueError` for any other integer. -/
def sipStatusCodes : List Int :=
  [100, 180, 181, 182, 183, 199, 200, 202, 204, 300, 301, 302, 305, 380,
   400, 401, 402, 403, 404, 405, 406, 407, 408, 409, 410, 411, 412, 413,
   414, 415, 416, 417, 420, 421, 422, 423, 424, 428, 429, 430, 433, 436,
   437, 438, 439, 440, 469, 470, 480, 481, 482, 483, 484, 485, 486, 487,
   488, 489, 491, 493, 494, 500, 501, 502, 503, 504, 505, 513, 555, 580,
   600, 603, 604, 606, 607, 608]

/-- A via-entry port: `split_address` returns either the Python integer
5060 default or the textual port taken from the header. -/
inductive PortV where
  | int (n : Nat)
  | str (s : String)
  deriving DecidableEq

/-- Rendering of a port inside a Python f-string. -/
def PortV.render : PortV → String
  | .int n => Nat.repr n
  | .str s => s

/-- An ASCII single quote, written via its code point to keep string
literals quote-free. -/
def pySq : String := String.singleton (Char.ofNat 39)

/-- Values stored in the per-Via Python dict: the parsed address pair,
parameter strings, or Python `None` for valueless parameters. -/
inductive ViaVal where
  | vaddr (host : String) (port : PortV)
  | vstr (s : String)
  | vnone
  deriving DecidableEq

/-- Rendering of a via dict value inside a Python f-string. -/
def ViaVal.render : ViaVal → String
  | .vaddr h p => "(" ++ pySq ++ h ++ pySq ++ ", "
      ++ (match p with
          | .int n => Nat.repr n
          | .str s => pySq ++ s ++ pySq) ++ ")"
  | .vstr s => s
  | .vnone => "None"

/-- Python subscript `v[i]` on a via dict value: tuple component for the
address pair, single character for a string, `TypeError` for `None`.  The
result is returned in its f-string rendering, which is how the source
consumes it. -/
def ViaVal.index (v : ViaVal) (i : Nat) : Except PyErr String :=
  match v with
  | .vaddr h p =>
    if i = 0 then .ok h
    else if i = 1 then .ok p.render
    else .error .indexError
  | .vstr s =>
    match s.data.get? i with
    | some c => .ok (String.singleton c)
    | none => .error .indexError
  | .vnone => .error .typeError

/-- The Python dict built for one Via header value. -/
abbrev ViaDict := List (String × ViaVal)

/-- Index of the first occurrence of a character, if any. -/
def idxOfChar? (c : Char) : Chars → Option Nat
  | [] => none
  | a :: as => if a = c then some 0 else (idxOfChar? c as).map (· + 1)

/-- SIPMessage.split_address: split a via host[:port] token.  The Python
code returns a 2-tuple, a 2-or-more element list, or a pair of empty
strings; the caller unpacks into two variables, so a list of length
other than two raises `ValueError` (folded into this embedding). -/
def split_address (address : String) : Except PyErr (String × PortV) :=
  let l := address.data
  if (l.take 2).contains '[' = false then
    -- IPv4 path: address.find("[", 0, 2) == -1
    if l.contains ':' = false then
      .ok (address, .int 5060)
    else
      match pySplit address ":" with
      | [ip, port] => .ok (ip, .str port)
      | _ => .error .valueError
  else
    match idxOfChar? ']' l with
    | none => .ok ("", .str "")
    | some i =>
      if (l.drop i).contains ':' = false then
        .ok (address, .int 5060)
      else
        -- new_ip, port = address.rsplit(':', 1)
        match idxOfChar? ':' l.reverse with
        | none => .error .valueError
        | some j =>
          let port := String.mk (l.reverse.take j).reverse
          let new_ip := String.mk (l.reverse.drop (j + 1)).reverse
          .ok (pyStrip new_ip ['[', ']'], .str port)

/-- re.split(" |;", d): split at every space or semicolon. -/
def splitAnyOf (seps : List Char) : Chars → List Chars
  | [] => [[]]
  | a :: as =>
    if seps.contains a then [] :: splitAnyOf seps as
    else consHead a (splitAnyOf seps as)

/-- Parsing of a single Via header value inside SIPMessage.parse_header:
first token is the transport, second the address, the remaining tokens
become dict entries (`k=v` or a bare key mapped to Python `None`). -/
def parse_via_elem (d : String) : Except PyErr ViaDict := do
  let info := (splitAnyOf [' ', ';'] d.data).map String.mk
  let t ← match info.head? with
    | some x => pure x
    | none => Except.error .indexError
  let addr ← match info.get? 1 with
    | some x => pure x
    | none => Except.error .indexError
  let (ip, port) ← split_address addr
  let start : ViaDict := [("type", .vstr t), ("address", .vaddr ip port)]
  let es := (info.drop 2).foldl (fun acc x =>
    if pyContains x "=" then
      let k := (pySplit x "=").headD ""
      let v := (pySplit x "=").getD 1 ""
      pyDictSet acc k (.vstr v)
    else
      pyDictSet acc x .vnone) start
  pure es

/-- re.split("<?sip:", raw): at each position a match consumes "<sip:" or
"sip:", splitting the string there.  Structural skip-counter recursion as
in `pySplitCore`. -/
def splitSipCore : Nat → Chars → List Chars
  | 0, [] => [[]]
  | 0, a :: as =>
    if ("<sip:".data).isPrefixOf (a :: as) then [] :: splitSipCore 4 as
    else if ("sip:".data).isPrefixOf (a :: as) then [] :: splitSipCore 3 as
    else consHead a (splitSipCore 0 as)
  | _ + 1, [] => [[]]
  | n + 1, _ :: as => splitSipCore n as

/-- Parsed From/To header: the fields of the dict built by
SIPMessage.parse_header. -/
structure AddrH where
  raw : String
  tag : String
  address : String
  number : Option String
  caller : String
  host : String
  deriving DecidableEq

/-- SIPMessage.parse_header, From/To branch. -/
def parse_addr (data : String) : Except PyErr AddrH := do
  let info := pySplit data ";tag="
  let tag := if 2 ≤ info.length then info.getD 1 "" else ""
  let raw := info.headD ""
  let contact := (splitSipCore 0 raw.data).map String.mk
  let c0 := pyStrip (pyStrip (contact.headD "") ['"']) [Char.ofNat 39]
  let c1 ← match contact.get? 1 with
    | some x => pure x
    | none => Except.error .indexError
  let address := pyStrip c1 ['>']
  let atParts := pySplit address "@"
  let (number, host) :=
    if atParts.length = 2 then
      (some (atParts.headD ""), atParts.getD 1 "")
    else
      (none, address)
  pure { raw := raw, tag := tag, address := address, number := number,
         caller := c0, host := host }

/-- SIPMessage.parse_header, WWW-Authenticate/Authorization branch. -/
def parse_auth (data : String) : List (String × String) :=
  let d := pyReplace data "Digest" ""
  let info := pySplit d ", "
  info.foldl (fun acc x =>
    let xs := pyStripWs x
    let k := (pySplit xs "=").headD ""
    let v := pyStrip ((pySplit xs "=").getD 1 "") ['"']
    pyDictSet acc k v) []

/-- A raw header value before per-header parsing: the Via key holds the
accumulated list of value strings, every other key a single string. -/
inductive RawV where
  | one (s : String)
  | many (xs : List String)
  deriving DecidableEq

/-- Parsed header values as stored in SIPMessage.headers. -/
inductive HVal where
  | via (es : List ViaDict)
  | addr (a : AddrH)
  | cseq (check method : String)
  | strlist (xs : List String)
  | intv (n : Int)
  | auth (kvs : List (String × String))
  | str (s : String)
  deriving DecidableEq

/-- SIPMessage.parse_header: dispatch on the header name.  The
`WWW-Authenticate`/`Authorization` value raises `IndexError` inside the
source when an element has no `=`; `parse_auth` mirrors the successful
shape and `parse_auth_ok` below guards the error case. -/
def parse_auth_ok (data : String) : Bool :=
  let d := pyReplace data "Digest" ""
  (pySplit d ", ").all (fun x => 2 ≤ (pySplit (pyStripWs x) "=").length)

/-- SIPMessage.parse_header. -/
def parse_header (hname : String) (rv : RawV) : Except PyErr HVal :=
  if hname = "Via" then
    match rv with
    | .many xs => do
      let es ← xs.foldlM (fun acc d => do
        let e ← parse_via_elem d
        pure (acc ++ [e])) ([] : List ViaDict)
      pure (.via es)
    | .one _ => .error .typeError
  else
    match rv with
    | .many _ => .error .typeError
    | .one data =>
      if hname = "From" ∨ hname = "To" then
        (parse_addr data).map .addr
      else if hname = "CSeq" then do
        let parts := pySplit data " "
        let check := parts.headD ""
        let mth ← match parts.get? 1 with
          | some x => pure x
          | none => Except.error .indexError
        pure (.cseq check mth)
      else if hname = "Allow" ∨ hname = "Supported" then
        .ok (.strlist (pySplit data ", "))
      else if hname = "Content-Length" then
        match pyInt? data with
        | some n => .ok (.intv n)
        | none => .error .valueError
      else if hname = "WWW-Authenticate" ∨ hname = "Authorization" then
        if parse_auth_ok data then .ok (.auth (parse_auth data))
        else .error .indexError
      else
        .ok (.str data)

/-- Append a Via value string to the accumulated list in the raw map. -/
def viaAppend (m : List (String × RawV)) (v : String) :
    List (String × RawV) :=
  m.map (fun p =>
    if p.1 = "Via" then
      (p.1, match p.2 with
            | .many xs => .many (xs ++ [v])
            | o => o)
    else p)

/-- Membership of a key in an association list. -/
def hasKey (m : List (String × α)) (k : String) : Bool :=
  m.any (fun p => p.1 == k)

/-- SIPMessage.parse_raw_header: build the raw header dict.  The dict is
seeded with `Via` mapped to an empty list; every `Via` line appends its
value, and any other name is inserted only on its first occurrence.  The
value `i[1]` of a line is only demanded in the branches that use it,
exactly as in the source. -/
def parse_raw_header (headers_raw : List String) :
    Except PyErr (List (String × RawV)) :=
  headers_raw.foldlM (fun acc line => do
    let i := pySplit line ": "
    let i0 := i.headD ""
    let acc1 ←
      if i0 = "Via" then
        match i.get? 1 with
        | some v => pure (viaAppend acc v)
        | none => Except.error .indexError
      else
        pure acc
    if hasKey acc1 i0 then
      pure acc1
    else
      match i.get? 1 with
      | some v => pure (acc1 ++ [(i0, RawV.one v)])
      | none => Except.error .indexError)
    [("Via", RawV.many [])]

/-- The `for key, val in headers.items(): handle(key, val)` phase of
parse_raw_header: run parse_header on every raw entry, building the typed
header dict (seeded like `self.headers = {'Via': []}`) and the cached
authentication map. -/
def processHeaders (raw : List (String × RawV)) :
    Except PyErr (List (String × HVal) × List (String × String)) :=
  raw.foldlM (fun (st : List (String × HVal) × List (String × String))
      (p : String × RawV) => do
    let v ← parse_header p.1 p.2
    let typed := pyDictSet st.1 p.1 v
    let auth :=
      if p.1 = "WWW-Authenticate" ∨ p.1 = "Authorization" then
        match v with
        | .auth kvs => kvs
        | _ => st.2
      else st.2
    pure (typed, auth))
    ([("Via", HVal.via [])], [])

/-- The type of a parsed message. -/
inductive SIPMessageType where
  | message
  | response
  deriving DecidableEq

/-- A parsed SIPMessage.  `status` is the integer SIPStatus value and
stays at the constructor default 491 for requests; `body` is `none` when
the body section is empty (`self.body` stays `{}`), and otherwise the
result of the body-parsing callback. -/
structure SIPMsg (β : Type) where
  mtype : SIPMessageType
  status : Int
  version : String
  method : Option String
  headers : List (String × HVal)
  authentication : List (String × String)
  body : Option β
  raw : String

/-- SIPMessage.parse_sip_response.  `bodyEval` abstracts
SIPMessage.parse_raw_body on a nonempty body: the source deduplicates the
body lines through an unordered Python set, so the nonempty case is not a
function of the input and is kept as a parameter of the development. -/
def parse_sip_response
    (bodyEval : String → List (String × HVal) → Except PyErr β)
    (data : String) : Except PyErr (SIPMsg β) := do
  let parts := pySplit data "\r\n\r\n"
  let (headers, body) ← match parts with
    | [h, b] => pure (h, b)
    | _ => Except.error PyErr.valueError
  let headers_raw := pySplit headers "\r\n"
  let heading := headers_raw.headD ""
  let rest := headers_raw.tail
  let version := (pySplit heading " ").headD ""
  if version ∈ SIPCompatibleVersions then
    let statusTok ← match (pySplit heading " ").get? 1 with
      | some t => pure t
      | none => Except.error PyErr.indexError
    let n ← match pyInt? statusTok with
      | some n => pure n
      | none => Except.error PyErr.valueError
    let status ← if n ∈ sipStatusCodes then pure n
      else Except.error PyErr.valueError
    let raw ← parse_raw_header rest
    let (typed, auth) ← processHeaders raw
    let bodyv ← if 0 < body.length then
        (bodyEval body typed).map some
      else pure none
    pure { mtype := .response, status := status, version := version,
           method := none, headers := typed, authentication := auth,
           body := bodyv, raw := data }
  else
    Except.error (.sipParse ("SIP Version " ++ version ++ " not compatible."))

/-- SIPMessage.parse_sip_message (the request path). -/
def parse_sip_message
    (bodyEval : String → List (String × HVal) → Except PyErr β)
    (data : String) : Except PyErr (SIPMsg β) := do
  let parts := pySplit data "\r\n\r\n"
  let (headers, body) ← match parts with
    | [h, b] => pure (h, b)
    | _ => Except.error PyErr.valueError
  let headers_raw := pySplit headers "\r\n"
  let heading := headers_raw.headD ""
  let rest := headers_raw.tail
  let version ← match (pySplit heading " ").get? 2 with
    | some v => pure v
    | none => Except.error PyErr.indexError
  if version ∈ SIPCompatibleVersions then
    let mth := (pySplit heading " ").headD ""
    let raw ← parse_raw_header rest
    let (typed, auth) ← processHeaders raw
    let bodyv ← if 0 < body.length then
        (bodyEval body typed).map some
      else pure none
    pure { mtype := .message, status := 491, version := version,
           method := some mth, headers := typed, authentication := auth,
           body := bodyv, raw := data }
  else
    Except.error (.sipParse ("SIP Version " ++ version ++ " not compatible."))

/-- SIPMessage.parse, the constructor entry point.  The source's
`try: headers, body = data.split CRLFCRLF except ValueError: headers =
parts[0]` is visible here only through the use of `parts[0]`: the later
re-split inside parse_sip_response/parse_sip_message re-raises the
`ValueError` that the guard only postponed. -/
def SIPMessage_parse
    (bodyEval : String → List (String × HVal) → Except PyErr β)
    (data : String) : Except PyErr (SIPMsg β) :=
  let parts := pySplit data "\r\n\r\n"
  let headers := parts.headD ""
  let headers_raw := pySplit headers "\r\n"
  let heading := headers_raw.headD ""
  let check := (pySplit heading " ").headD ""
  if check ∈ SIPCompatibleVersions then
    parse_sip_response bodyEval data
  else if check ∈ SIPCompatibleMethods then
    parse_sip_message bodyEval data
  else
    .error (.sipParse ("Unable to decipher SIP request: " ++ heading))

deriving instance DecidableEq for Except

deriving instance DecidableEq for SIPMsg

/-- The Counter class of SIP.py.  Python integers are unbounded, so the
value is an `Int`. -/
structure Counter where
  x : Int
  deriving DecidableEq

/-- Counter.count: return the value and increment. -/
def Counter.count (c : Counter) : Int × Counter := (c.x, { x := c.x + 1 })

/-- Counter.next, an alias of count. -/
def Counter.next (c : Counter) : Int × Counter := c.count

/-- Counter.current. -/
def Counter.current (c : Counter) : Int := c.x

/-- Python truthiness of a via dict value (used by get_my_ip and
get_my_port): None and the empty string are falsy. -/
def ViaVal.truthy : ViaVal → Bool
  | .vstr s => !s.isEmpty
  | .vnone => false
  | .vaddr _ _ => true

/-- The mutable state of a SIPClient.  Sockets, threads and the actual
callback function are external; `callCallback` records only whether a
callback is configured.  `tagCands` is the stream of tag candidates that
random.randint plus the md5 hexdigest prefix would produce, and
`branchSeeds`/`branchIdx` the stream of uuid4 hex strings - both external
sources of randomness, pre-drawn.  The source calls `self.genTag()` and
`self.genInvite(...)`, which this fork renamed to `gen_tag`/`gen_invite`
without updating the call sites; the embedding reads those calls as the
snake_case definitions, the only ones the repository contains. -/
structure Client where
  NSD : Bool
  use_keep_alive : Bool
  server : String
  port : Nat
  myIP : String
  my_public_ip : Option ViaVal
  proxy : Option String
  username : String
  password : String
  callCallback : Bool
  tags : List String
  tagLibrary : List (String × String)
  myPort : Nat
  my_public_port : Option ViaVal
  default_expires : Nat
  register_timeout : Nat
  inviteCounter : Counter
  registerCounter : Counter
  subscribeCounter : Counter
  byeCounter : Counter
  callID : Counter
  sessID : Counter
  urnUUID : String
  registerThread : Bool
  tagCands : List String
  branchSeeds : Nat → String
  branchIdx : Nat

/-- SIPClient.get_my_ip, rendered as the f-strings consume it: the
public value when truthy, otherwise the configured local IP. -/
def Client.get_my_ip (c : Client) : String :=
  match c.my_public_ip with
  | some v => if v.truthy then v.render else c.myIP
  | none => c.myIP

/-- SIPClient.get_my_port, rendered as the f-strings consume it. -/
def Client.get_my_port (c : Client) : String :=
  match c.my_public_port with
  | some v => if v.truthy then v.render else Nat.repr c.myPort
  | none => Nat.repr c.myPort

/-- Search loop of SIPClient.gen_tag over the pre-drawn candidate
stream: Python loops until a candidate is not in self.tags, so the model
reports an artificial `outOfFuel` only when the finite pre-drawn stream
is exhausted. -/
def gen_tag_core (tags : List String) : List String →
    Except PyErr (String × List String)
  | [] => .error .outOfFuel
  | t :: rest =>
    if tags.contains t then gen_tag_core tags rest else .ok (t, rest)

/-- SIPClient.gen_tag: first fresh candidate, recorded in self.tags. -/
def gen_tag (c : Client) : Except PyErr (String × Client) :=
  (gen_tag_core c.tags c.tagCands).map (fun p =>
    (p.1, { c with tags := c.tags ++ [p.1], tagCands := p.2 }))

/-- SIPClient.gen_branch: the RFC 3261 magic cookie plus 25 hex chars of
a fresh uuid4 (length defaults to 32; the slice keeps length - 7). -/
def gen_branch (c : Client) : String × Client :=
  ("z9hG4bK" ++ String.mk ((c.branchSeeds c.branchIdx).data.take (32 - 7)),
   { c with branchIdx := c.branchIdx + 1 })

/-- SIPClient.gen_call_id: sha256 hexdigest prefix of the counter value,
at the configured local address.  `sha256hex` abstracts the external
hashlib sha256 hexdigest. -/
def gen_call_id (sha256hex : String → String) (c : Client) :
    String × Client :=
  let p := c.callID.next
  let hhash := sha256hex (toString p.1)
  (String.mk (hhash.data.take 32) ++ "@" ++ c.myIP ++ ":" ++ Nat.repr c.myPort,
   { c with callID := p.2 })

/-- SIPClient.gen_last_call_id: same rendering at counter value
`current - 1`. -/
def gen_last_call_id (sha256hex : String → String) (c : Client) : String :=
  let hhash := sha256hex (toString (c.callID.current - 1))
  String.mk (hhash.data.take 32) ++ "@" ++ c.myIP ++ ":" ++ Nat.repr c.myPort

/-- Python repr of a string, single-quoted (escaping elided; only used
for renderings no claim touches). -/
def pyReprStr (s : String) : String := pySq ++ s ++ pySq

/-- Python repr of a via dict value. -/
def ViaVal.reprPy : ViaVal → String
  | .vaddr h p => "(" ++ pyReprStr h ++ ", "
      ++ (match p with
          | .int n => Nat.repr n
          | .str s => pyReprStr s) ++ ")"
  | .vstr s => pyReprStr s
  | .vnone => "None"

/-- Python repr of a str-to-str dict. -/
def dictReprStr (kvs : List (String × String)) : String :=
  "\x7b" ++ String.intercalate ", "
    (kvs.map (fun p => pyReprStr p.1 ++ ": " ++ pyReprStr p.2)) ++ "\x7d"

/-- Rendering of a header value inside an f-string (`str()` of the
stored Python object).  Inbound flows render only the `str` case; the
other cases spell out the Python reprs of the stored dicts and lists. -/
def HVal.render : HVal → String
  | .str s => s
  | .intv n => toString n
  | .cseq c m => "\x7b" ++ pyReprStr "check" ++ ": " ++ pyReprStr c ++ ", "
      ++ pyReprStr "method" ++ ": " ++ pyReprStr m ++ "\x7d"
  | .strlist xs => "[" ++ String.intercalate ", " (xs.map pyReprStr) ++ "]"
  | .auth kvs => dictReprStr kvs
  | .addr a => "\x7b" ++ pyReprStr "raw" ++ ": " ++ pyReprStr a.raw ++ ", "
      ++ pyReprStr "tag" ++ ": " ++ pyReprStr a.tag ++ ", "
      ++ pyReprStr "address" ++ ": " ++ pyReprStr a.address ++ ", "
      ++ pyReprStr "number" ++ ": "
      ++ (match a.number with
          | some s => pyReprStr s
          | none => "None") ++ ", "
      ++ pyReprStr "caller" ++ ": " ++ pyReprStr a.caller ++ ", "
      ++ pyReprStr "host" ++ ": " ++ pyReprStr a.host ++ "\x7d"
  | .via es => "[" ++ String.intercalate ", "
      (es.map (fun e => "\x7b" ++ String.intercalate ", "
        (e.map (fun p => pyReprStr p.1 ++ ": " ++ p.2.reprPy)) ++ "\x7d"))
      ++ "]"

/-- Python subscript `headers[k]` on the message header dict. -/
def SIPMsg.hget (m : SIPMsg β) (k : String) : Except PyErr HVal :=
  pyDictGet m.headers k

/-- Python subscript `v[k]` on a parsed header value: field of the
From/To dict, of the CSeq dict, or of the authentication dict;
`TypeError` on the non-dict values. -/
def HVal.item (v : HVal) (k : String) : Except PyErr String :=
  match v with
  | .addr a =>
    if k = "raw" then .ok a.raw
    else if k = "tag" then .ok a.tag
    else if k = "address" then .ok a.address
    else if k = "number" then
      .ok (match a.number with | some s => s | none => "None")
    else if k = "caller" then .ok a.caller
    else if k = "host" then .ok a.host
    else .error .keyError
  | .cseq c m2 =>
    if k = "check" then .ok c
    else if k = "method" then .ok m2
    else .error .keyError
  | .auth kvs => pyDictGet kvs k
  | _ => .error .typeError

/-- One line of SIPClient._gen_response_via_header for one via dict. -/
def gen_response_via_entry (v6 : String → Bool) (h_via : ViaDict) :
    Except PyErr String := do
  let addrv ← pyDictGet h_via "address"
  let address0 ← addrv.index 0
  let address := if v6 address0 then "[" ++ address0 ++ "]" else address0
  let port ← addrv.index 1
  let base := "Via: SIP/2.0/UDP " ++ address ++ ":" ++ port
  let b1 := match pyLookup h_via "branch" with
    | some bv => base ++ ";branch=" ++ bv.render
    | none => base
  let b2 := match pyLookup h_via "rport" with
    | some rv => match rv with
      | .vnone => b1 ++ ";rport"
      | _ => b1 ++ ";rport=" ++ rv.render
    | none => b1
  let b3 := match pyLookup h_via "received" with
    | some rv => b2 ++ ";received=" ++ rv.render
    | none => b2
  pure (b3 ++ "\r\n")

/-- SIPClient._gen_response_via_header: one serialised line per parsed
Via entry, in order.  `v6` abstracts the external netaddr.valid_ipv6. -/
def gen_response_via_header (v6 : String → Bool) (request : SIPMsg β) :
    Except PyErr String := do
  let hv ← request.hget "Via"
  match hv with
  | .via es => es.foldlM (fun acc e => do
      let l ← gen_response_via_entry v6 e
      pure (acc ++ l)) ""
  | _ => .error .typeError

/-- SIPClient.gen_sip_version_not_supported. -/
def gen_sip_version_not_supported (v6 : String → Bool) (c : Client)
    (request : SIPMsg β) : Except PyErr (String × Client) := do
  let via ← gen_response_via_header v6 request
  let fromH ← request.hget "From"
  let fromRaw ← fromH.item "raw"
  let fromTag ← fromH.item "tag"
  let toH ← request.hget "To"
  let toRaw ← toH.item "raw"
  let tc ← gen_tag c
  let callId ← request.hget "Call-ID"
  let cseqH ← request.hget "CSeq"
  let check ← cseqH.item "check"
  let mth ← cseqH.item "method"
  let contact ← request.hget "Contact"
  pure ("SIP/2.0 505 SIP Version Not Supported" ++ "\r\n"
    ++ via
    ++ "From: " ++ fromRaw ++ ";tag=" ++ fromTag ++ "\r\n"
    ++ "To: " ++ toRaw ++ ";tag=" ++ tc.1 ++ "\r\n"
    ++ "Call-ID: " ++ callId.render ++ "\r\n"
    ++ "CSeq: " ++ check ++ " " ++ mth ++ "\r\n"
    ++ "Contact: " ++ contact.render ++ "\r\n"
    ++ "User-Agent: pyVoIP " ++ pyVoIPVersion ++ "\r\n"
    ++ "Warning: 399 GS \"Unable to accept call\"" ++ "\r\n"
    ++ "Allow: " ++ String.intercalate ", " SIPCompatibleMethods ++ "\r\n"
    ++ "Content-Length: 0" ++ "\r\n" ++ "\r\n", tc.2)

/-- SIPClient.gen_busy. -/
def gen_busy (v6 : String → Bool) (c : Client) (request : SIPMsg β) :
    Except PyErr (String × Client) := do
  let via ← gen_response_via_header v6 request
  let fromH ← request.hget "From"
  let fromRaw ← fromH.item "raw"
  let fromTag ← fromH.item "tag"
  let toH ← request.hget "To"
  let toRaw ← toH.item "raw"
  let tc ← gen_tag c
  let callId ← request.hget "Call-ID"
  let cseqH ← request.hget "CSeq"
  let check ← cseqH.item "check"
  let mth ← cseqH.item "method"
  let contact ← request.hget "Contact"
  pure ("SIP/2.0 486 Busy Here" ++ "\r\n"
    ++ via
    ++ "From: " ++ fromRaw ++ ";tag=" ++ fromTag ++ "\r\n"
    ++ "To: " ++ toRaw ++ ";tag=" ++ tc.1 ++ "\r\n"
    ++ "Call-ID: " ++ callId.render ++ "\r\n"
    ++ "CSeq: " ++ check ++ " " ++ mth ++ "\r\n"
    ++ "Contact: " ++ contact.render ++ "\r\n"
    ++ "User-Agent: pyVoIP " ++ pyVoIPVersion ++ "\r\n"
    ++ "Warning: 399 GS \"Unable to accept call\"" ++ "\r\n"
    ++ "Allow: " ++ String.intercalate ", " SIPCompatibleMethods ++ "\r\n"
    ++ "Content-Length: 0" ++ "\r\n" ++ "\r\n", tc.2)

/-- SIPClient.gen_ok. -/
def gen_ok (v6 : String → Bool) (c : Client) (request : SIPMsg β) :
    Except PyErr (String × Client) := do
  let via ← gen_response_via_header v6 request
  let fromH ← request.hget "From"
  let fromRaw ← fromH.item "raw"
  let fromTag ← fromH.item "tag"
  let toH ← request.hget "To"
  let toRaw ← toH.item "raw"
  let tc ← gen_tag c
  let callId ← request.hget "Call-ID"
  let cseqH ← request.hget "CSeq"
  let check ← cseqH.item "check"
  let mth ← cseqH.item "method"
  pure ("SIP/2.0 200 OK" ++ "\r\n"
    ++ via
    ++ "From: " ++ fromRaw ++ ";tag=" ++ fromTag ++ "\r\n"
    ++ "To: " ++ toRaw ++ ";tag=" ++ tc.1 ++ "\r\n"
    ++ "Call-ID: " ++ callId.render ++ "\r\n"
    ++ "CSeq: " ++ check ++ " " ++ mth ++ "\r\n"
    ++ "User-Agent: pyVoIP " ++ pyVoIPVersion ++ "\r\n"
    ++ "Allow: " ++ String.intercalate ", " SIPCompatibleMethods ++ "\r\n"
    ++ "Content-Length: 0" ++ "\r\n" ++ "\r\n", tc.2)

/-- SIPClient.gen_notify: the 200 OK reply to a NOTIFY, echoing the
Event header with the CSeq number incremented, and recording the
keep-alive flag when the event is keep-alive. -/
def gen_notify (v6 : String → Bool) (c : Client) (request : SIPMsg β) :
    Except PyErr (String × Client) := do
  let via ← gen_response_via_header v6 request
  let toH ← request.hget "To"
  let toRaw ← toH.item "raw"
  let toTag ← toH.item "tag"
  let fromH ← request.hget "From"
  let fromRaw ← fromH.item "raw"
  let fromTag ← fromH.item "tag"
  let callId ← request.hget "Call-ID"
  let cseqH ← request.hget "CSeq"
  let check ← cseqH.item "check"
  let mth ← cseqH.item "method"
  let n ← match pyInt? check with
    | some n => pure n
    | none => Except.error PyErr.valueError
  let ev ← request.hget "Event"
  let resp := "SIP/2.0 200 OK" ++ "\r\n"
    ++ via
    ++ "To: " ++ toRaw ++ ";tag=" ++ toTag ++ "\r\n"
    ++ "From: " ++ fromRaw ++ ";tag=" ++ fromTag ++ "\r\n"
    ++ "Call-ID: " ++ callId.render ++ "\r\n"
    ++ "CSeq: " ++ toString (n + 1) ++ " " ++ mth ++ "\r\n"
    ++ "Event: " ++ ev.render ++ "\r\n"
    ++ "Content-Length: 0" ++ "\r\n" ++ "\r\n"
  let c2 := if ev = HVal.str "keep-alive" then
      { c with use_keep_alive := true }
    else c
  pure (resp, c2)

/-- SIPClient.check_for_new_register, the refresh-timer action: skip the
re-REGISTER entirely when keep-alive NOTIFYs maintain the
registration. -/
inductive RefreshAct where
  | skip
  | reRegister
  deriving DecidableEq

/-- SIPClient.check_for_new_register. -/
def check_for_new_register (c : Client) : RefreshAct :=
  if c.use_keep_alive then .skip else .reRegister

/-- SIPClient.gen_first_response: the initial (unauthenticated) REGISTER,
with Expires 0 when deregistering. -/
def gen_first_response (sha256hex : String → String) (c : Client)
    (deregister : Bool) : Except PyErr (String × Client) := do
  let bp := gen_branch c
  let c := bp.2
  let regTag ← pyDictGet c.tagLibrary "register"
  let cp := gen_call_id sha256hex c
  let c := cp.2
  let np := c.registerCounter.next
  let c := { c with registerCounter := np.2 }
  pure ("REGISTER sip:" ++ c.server ++ " SIP/2.0" ++ "\r\n"
    ++ "Via: SIP/2.0/UDP " ++ c.myIP ++ ":" ++ Nat.repr c.myPort ++ ";"
      ++ "branch=" ++ bp.1 ++ ";rport" ++ "\r\n"
    ++ "From: \"" ++ c.username ++ "\" "
      ++ "<sip:" ++ c.username ++ "@" ++ c.server ++ ">;tag=" ++ regTag ++ "\r\n"
    ++ "To: \"" ++ c.username ++ "\" "
      ++ "<sip:" ++ c.username ++ "@" ++ c.server ++ ">" ++ "\r\n"
    ++ "Call-ID: " ++ cp.1 ++ "\r\n"
    ++ "CSeq: " ++ toString np.1 ++ " REGISTER" ++ "\r\n"
    ++ "Contact: "
      ++ "<sip:" ++ c.get_my_ip ++ ":" ++ c.get_my_port ++ ";"
      ++ "transport=UDP>;+sip.instance="
      ++ "\"<urn:uuid:" ++ c.urnUUID ++ ">\"" ++ "\r\n"
    ++ "Allow: " ++ String.intercalate ", " SIPCompatibleMethods ++ "\r\n"
    ++ "Max-Forwards: 70" ++ "\r\n"
    ++ "Allow-Events: org.3gpp.nwinitdereg" ++ "\r\n"
    ++ "User-Agent: pyVoIP " ++ pyVoIPVersion ++ "\r\n"
    ++ "Expires: "
      ++ Nat.repr (if !deregister then c.default_expires else 0) ++ "\r\n"
    ++ "Content-Length: 0"
    ++ "\r\n" ++ "\r\n", c)

/-- SIPClient.gen_authorization: the MD5 digest response.  `md5`
abstracts the external hashlib md5 hexdigest; the source returns the hex
digest utf8-encoded, modelled as the text itself. -/
def gen_authorization (md5 : String → String) (c : Client)
    (request : SIPMsg β) : Except PyErr String := do
  let realm ← pyDictGet request.authentication "realm"
  let HA1 := md5 (c.username ++ ":" ++ realm ++ ":" ++ c.password)
  let cseqH ← request.hget "CSeq"
  let mth ← cseqH.item "method"
  let HA2 := md5 ("" ++ mth ++ ":sip:" ++ c.server ++ ";transport=UDP")
  let nonce ← pyDictGet request.authentication "nonce"
  pure (md5 (HA1 ++ ":" ++ nonce ++ ":" ++ HA2))

/-- SIPClient.gen_register: the authenticated REGISTER sent after a 401
challenge. -/
def gen_register (md5 sha256hex : String → String) (c : Client)
    (request : SIPMsg β) (deregister : Bool) :
    Except PyErr (String × Client) := do
  let response ← gen_authorization md5 c request
  let nonce ← pyDictGet request.authentication "nonce"
  let realm ← pyDictGet request.authentication "realm"
  let bp := gen_branch c
  let c := bp.2
  let regTag ← pyDictGet c.tagLibrary "register"
  let cp := gen_call_id sha256hex c
  let c := cp.2
  let np := c.registerCounter.next
  let c := { c with registerCounter := np.2 }
  pure ("REGISTER sip:" ++ c.server ++ " SIP/2.0" ++ "\r\n"
    ++ "Via: SIP/2.0/UDP " ++ c.myIP ++ ":" ++ Nat.repr c.myPort
      ++ ";branch=" ++ bp.1 ++ ";rport" ++ "\r\n"
    ++ "From: \"" ++ c.username ++ "\" "
      ++ "<sip:" ++ c.username ++ "@" ++ c.server ++ ">;tag=" ++ regTag ++ "\r\n"
    ++ "To: \"" ++ c.username ++ "\" "
      ++ "<sip:" ++ c.username ++ "@" ++ c.server ++ ">" ++ "\r\n"
    ++ "Call-ID: " ++ cp.1 ++ "\r\n"
    ++ "CSeq: " ++ toString np.1 ++ " REGISTER" ++ "\r\n"
    ++ "Contact: "
      ++ "<sip:" ++ c.username ++ "@" ++ c.get_my_ip ++ ":" ++ c.get_my_port
      ++ ";transport=UDP>;+sip.instance="
      ++ "\"<urn:uuid:" ++ c.urnUUID ++ ">\"" ++ "\r\n"
    ++ "Allow: " ++ String.intercalate ", " SIPCompatibleMethods ++ "\r\n"
    ++ "Max-Forwards: 70" ++ "\r\n"
    ++ "Allow-Events: org.3gpp.nwinitdereg" ++ "\r\n"
    ++ "User-Agent: pyVoIP " ++ pyVoIPVersion ++ "\r\n"
    ++ "Expires: "
      ++ Nat.repr (if !deregister then c.default_expires else 0) ++ "\r\n"
    ++ "Authorization: Digest username=\"" ++ c.username ++ "\","
      ++ "realm=\"" ++ realm ++ "\",nonce=\"" ++ nonce ++ "\","
      ++ "uri=\"sip:" ++ c.server ++ ";transport=UDP\","
      ++ "response=\"" ++ response ++ "\",algorithm=MD5" ++ "\r\n"
    ++ "Content-Length: 0"
    ++ "\r\n" ++ "\r\n", c)

/-- SIPClient.gen_subscribe.  The source appends the Accept and
Content-Length texts without a CRLF between them, so they fuse into one
header line. -/
def gen_subscribe (c : Client) (response : SIPMsg β) :
    Except PyErr (String × Client) := do
  let bp := gen_branch c
  let c := bp.2
  let tc ← gen_tag c
  let c := tc.2
  let callId ← response.hget "Call-ID"
  let np := c.subscribeCounter.next
  let c := { c with subscribeCounter := np.2 }
  pure ("SUBSCRIBE sip:" ++ c.username ++ "@" ++ c.server ++ " SIP/2.0" ++ "\r\n"
    ++ "Via: SIP/2.0/UDP " ++ c.myIP ++ ":" ++ Nat.repr c.myPort ++ ";"
      ++ "branch=" ++ bp.1 ++ ";rport" ++ "\r\n"
    ++ "From: \"" ++ c.username ++ "\" "
      ++ "<sip:" ++ c.username ++ "@" ++ c.server ++ ">;tag=" ++ tc.1 ++ "\r\n"
    ++ "To: <sip:" ++ c.username ++ "@" ++ c.server ++ ">" ++ "\r\n"
    ++ "Call-ID: " ++ callId.render ++ "\r\n"
    ++ "CSeq: " ++ toString np.1 ++ " SUBSCRIBE" ++ "\r\n"
    ++ "Contact: "
      ++ "<sip:" ++ c.username ++ "@" ++ c.get_my_ip ++ ":" ++ c.get_my_port
      ++ ";" ++ "transport=UDP>;+sip.instance="
      ++ "\"<urn:uuid:" ++ c.urnUUID ++ ">\"" ++ "\r\n"
    ++ "Max-Forwards: 70" ++ "\r\n"
    ++ "User-Agent: pyVoIP " ++ pyVoIPVersion ++ "\r\n"
    ++ "Expires: " ++ Nat.repr (c.default_expires * 2) ++ "\r\n"
    ++ "Event: message-summary" ++ "\r\n"
    ++ "Accept: application/simple-message-summary"
    ++ "Content-Length: 0"
    ++ "\r\n" ++ "\r\n", c)

/-- A codec entry of the media map passed to gen_invite: `name` is the
str() of the RTP.PayloadType and `rate` its rendered rate. -/
structure Codec where
  name : String
  rate : String
  deriving DecidableEq

/-- The `ms` media map of gen_invite: dict port -> dict payload -> codec,
keys in their f-string renderings. -/
abbrev MsMap := List (String × List (String × Codec))

/-- The SDP body built at the top of SIPClient.gen_invite.  Note the
source emits all `m=` fragments with a single CRLF after the last one,
and `o=` carries get_my_port in the address slot, faithfully kept. -/
def invite_body (c : Client) (sess_id : String) (ms : MsMap)
    (sendtype : String) : Except PyErr String := do
  let sid ← match pyInt? sess_id with
    | some n => pure n
    | none => Except.error PyErr.valueError
  let mLines := ms.foldl (fun acc p =>
      acc ++ "m=audio " ++ p.1 ++ " RTP/AVP"
        ++ p.2.foldl (fun a q => a ++ " " ++ q.1) "") ""
  let aLines := ms.foldl (fun acc p =>
      acc ++ p.2.foldl (fun a q =>
        a ++ "a=rtpmap:" ++ q.1 ++ " " ++ q.2.name ++ "/" ++ q.2.rate ++ "\r\n"
          ++ (if q.2.name = "telephone-event" then
                "a=fmtp:" ++ q.1 ++ " 0-15" ++ "\r\n"
              else "")) "") ""
  pure ("v=0" ++ "\r\n"
    ++ "o=pyVoIP " ++ sess_id ++ " " ++ toString (sid + 2)
      ++ " IN IP4 " ++ c.get_my_port ++ "\r\n"
    ++ "s=pyVoIP " ++ pyVoIPVersion ++ "\r\n"
    ++ "c=IN IP4 " ++ c.get_my_ip ++ "\r\n"
    ++ "t=0 0" ++ "\r\n"
    ++ mLines ++ "\r\n"
    ++ aLines
    ++ "a=ptime:20" ++ "\r\n"
    ++ "a=maxptime:150" ++ "\r\n"
    ++ "a=" ++ sendtype ++ "\r\n")

/-- SIPClient.gen_invite. -/
def gen_invite (c : Client) (number sess_id : String) (ms : MsMap)
    (sendtype branch call_id : String) : Except PyErr (String × Client) := do
  let body ← invite_body c sess_id ms sendtype
  let tc ← gen_tag c
  let c := tc.2
  let c := { c with tagLibrary := pyDictSet c.tagLibrary call_id tc.1 }
  let np := c.inviteCounter.next
  let c := { c with inviteCounter := np.2 }
  pure ("INVITE sip:" ++ number ++ "@" ++ c.server ++ " SIP/2.0" ++ "\r\n"
    ++ "Via: SIP/2.0/UDP " ++ c.myIP ++ ":" ++ Nat.repr c.myPort
      ++ ";branch=" ++ branch ++ "\r\n"
    ++ "Max-Forwards: 70" ++ "\r\n"
    ++ "Contact: "
      ++ "<sip:" ++ c.username ++ "@" ++ c.get_my_ip ++ ":" ++ c.get_my_port
      ++ ">" ++ "\r\n"
    ++ "To: <sip:" ++ number ++ "@" ++ c.server ++ ">" ++ "\r\n"
    ++ "From: <sip:" ++ c.username ++ "@" ++ c.myIP ++ ">;tag=" ++ tc.1 ++ "\r\n"
    ++ "Call-ID: " ++ call_id ++ "\r\n"
    ++ "CSeq: " ++ toString np.1 ++ " INVITE" ++ "\r\n"
    ++ "Allow: " ++ String.intercalate ", " SIPCompatibleMethods ++ "\r\n"
    ++ "Content-Type: application/sdp" ++ "\r\n"
    ++ "User-Agent: pyVoIP " ++ pyVoIPVersion ++ "\r\n"
    ++ "Content-Length: " ++ toString body.length ++ "\r\n" ++ "\r\n"
    ++ body, c)

/-- SIPClient.gen_ack. -/
def gen_ack (v6 : String → Bool) (c : Client) (request : SIPMsg β) :
    Except PyErr (String × Client) := do
  let callId ← request.hget "Call-ID"
  let tag ← pyDictGet c.tagLibrary callId.render
  let toH ← request.hget "To"
  let toRaw ← toH.item "raw"
  let t := pyStrip (pyStrip toRaw ['<']) ['>']
  let via ← gen_response_via_header v6 request
  let tc ← gen_tag c
  let c := tc.2
  let fromH ← request.hget "From"
  let fromRaw ← fromH.item "raw"
  let cseqH ← request.hget "CSeq"
  let check ← cseqH.item "check"
  pure ("ACK " ++ t ++ " SIP/2.0" ++ "\r\n"
    ++ via
    ++ "Max-Forwards: 70" ++ "\r\n"
    ++ "To: " ++ toRaw ++ ";tag=" ++ tc.1 ++ "\r\n"
    ++ "From: " ++ fromRaw ++ ";tag=" ++ tag ++ "\r\n"
    ++ "Call-ID: " ++ callId.render ++ "\r\n"
    ++ "CSeq: " ++ check ++ " ACK" ++ "\r\n"
    ++ "User-Agent: pyVoIP " ++ pyVoIPVersion ++ "\r\n"
    ++ "Content-Length: 0" ++ "\r\n" ++ "\r\n", c)

/-- SIPClient.gen_bye. -/
def gen_bye (v6 : String → Bool) (c : Client) (request : SIPMsg β) :
    Except PyErr (String × Client) := do
  let callId ← request.hget "Call-ID"
  let tag ← pyDictGet c.tagLibrary callId.render
  let contact ← request.hget "Contact"
  let cv := pyStrip (pyStrip contact.render ['<']) ['>']
  let via ← gen_response_via_header v6 request
  let fromH ← request.hget "From"
  let fromRaw ← fromH.item "raw"
  let fromTag ← fromH.item "tag"
  let toH ← request.hget "To"
  let toRaw ← toH.item "raw"
  let toTag ← toH.item "tag"
  let fromToPart :=
    if fromTag = tag then
      "From: " ++ fromRaw ++ ";tag=" ++ tag ++ "\r\n"
      ++ "To: "
      ++ (if toTag ≠ "" then toRaw ++ ";tag=" ++ toTag else toRaw) ++ "\r\n"
    else
      "To: " ++ fromRaw ++ ";tag=" ++ fromTag ++ "\r\n"
      ++ "From: " ++ toRaw ++ ";tag=" ++ tag ++ "\r\n"
  let cseqH ← request.hget "CSeq"
  let check ← cseqH.item "check"
  let n ← match pyInt? check with
    | some n => pure n
    | none => Except.error PyErr.valueError
  pure ("BYE " ++ cv ++ " SIP/2.0" ++ "\r\n"
    ++ via
    ++ fromToPart
    ++ "Call-ID: " ++ callId.render ++ "\r\n"
    ++ "CSeq: " ++ toString (n + 1) ++ " BYE" ++ "\r\n"
    ++ "Contact: "
      ++ "<sip:" ++ c.username ++ "@" ++ c.get_my_ip ++ ":" ++ c.get_my_port
      ++ ">" ++ "\r\n"
    ++ "User-Agent: pyVoIP " ++ pyVoIPVersion ++ "\r\n"
    ++ "Allow: " ++ String.intercalate ", " SIPCompatibleMethods ++ "\r\n"
    ++ "Content-Length: 0" ++ "\r\n" ++ "\r\n", c)

/-- Observable effects of the inbound dispatch: a datagram sent on the
socket, the application callback invoked, or a logged TODO. -/
inductive Act where
  | sent (msg : String)
  | calledCallback
  | loggedTodo
  deriving DecidableEq

/-- SIPClient.parse_message: route one parsed inbound message.  For a
response, 200/404/503 go to the callback when configured, 100/180 are
ignored, anything else is only logged.  For requests: INVITE without a
callback is answered 486 and dropped, INVITE with a callback goes to the
callback; BYE/CANCEL/NOTIFY call the callback unconditionally (a missing
callback raises TypeError, the source's
`self.callCallback(message)  # type: ignore`) and are answered; ACK is
ignored; unknown methods are logged.  The BYE branch sends the reply in
both arms of its try/except, so the effect is a single send. -/
def parse_message (v6 : String → Bool) (c : Client) (message : SIPMsg β) :
    Except PyErr (Client × List Act) :=
  if message.mtype ≠ SIPMessageType.message then
    if message.status = 200 then
      .ok (c, if c.callCallback then [.calledCallback] else [])
    else if message.status = 404 then
      .ok (c, if c.callCallback then [.calledCallback] else [])
    else if message.status = 503 then
      .ok (c, if c.callCallback then [.calledCallback] else [])
    else if message.status = 100 ∨ message.status = 180 then
      .ok (c, [])
    else
      .ok (c, [.loggedTodo])
  else
    match message.method with
    | some "INVITE" =>
      if !c.callCallback then do
        let rc ← gen_busy v6 c message
        pure (rc.2, [.sent rc.1])
      else
        .ok (c, [.calledCallback])
    | some "BYE" =>
      if !c.callCallback then .error .typeError
      else do
        let rc ← gen_ok v6 c message
        pure (rc.2, [.calledCallback, .sent rc.1])
    | some "ACK" => .ok (c, [])
    | some "CANCEL" =>
      if !c.callCallback then .error .typeError
      else do
        let rc ← gen_ok v6 c message
        pure (rc.2, [.calledCallback, .sent rc.1])
    | some "NOTIFY" =>
      if !c.callCallback then .error .typeError
      else do
        let rc ← gen_notify v6 c message
        pure (rc.2, [.calledCallback, .sent rc.1])
    | _ => .ok (c, [.loggedTodo])

/-- The keep-alive padding datagram that the receive loop ignores. -/
def nulKeepAlive : String := "\x00\x00\x00\x00"

/-- Outcome of one body iteration of SIPClient.recv for a received
datagram. -/
inductive RecvStep where
  | skippedNul
  | handled (c : Client) (acts : List Act)
  | innerLogged (e : PyErr)

/-- One iteration of the receive loop in SIPClient.recv, for a datagram
that arrived.  The construction `SIPMessage(raw)` and the dispatch
`parse_message` sit inside the inner `try ... except Exception`, which
catches every exception they raise - including every `SIPParseError` -
and only logs it.  The outer handlers (`BlockingIOError`, the
`SIPParseError` arm that would send a 505 via
gen_sip_version_not_supported, and the debug-mode re-raise) surround only
the socket read itself, so no parse failure ever reaches them: the 505
arm is unreachable from a parse error and sends nothing. -/
def recv_iteration (v6 : String → Bool)
    (bodyEval : String → List (String × HVal) → Except PyErr β)
    (c : Client) (raw : String) : RecvStep :=
  if raw = nulKeepAlive then .skippedNul
  else
    match SIPMessage_parse bodyEval raw with
    | .ok m =>
      match parse_message v6 c m with
      | .ok p => .handled p.1 p.2
      | .error e => .innerLogged e
    | .error e => .innerLogged e

/-- Messages sent on the socket during one receive-loop iteration. -/
def RecvStep.sentMessages : RecvStep → List String
  | .handled _ acts => acts.filterMap (fun a =>
      match a with
      | .sent s => some s
      | _ => none)
  | _ => []

/-- Whether the iteration ended in the inner log-and-drop handler. -/
def RecvStep.isInnerLogged : RecvStep → Bool
  | .innerLogged _ => true
  | _ => false

/-- Network events seen by a synchronous exchange: a datagram or the
expiry of the select timeout. -/
inductive NetEv where
  | timeout
  | dgram (raw : String)
  deriving DecidableEq

/-- Result of a synchronous operation: the Python return value or raised
exception, the final state of recvLock, the final client state, the
unconsumed events and the messages sent. -/
structure OpOut (α : Type) where
  res : Except PyErr α
  lock : Bool
  c : Client
  evs : List NetEv
  sent : List String

/-- A select-guarded receive: `ready = select(...); if ready[0]: recv`
consumes the next event; a timeout event (or silence) leaves nothing to
read. -/
def takeEv : List NetEv → Option String × List NetEv
  | [] => (none, [])
  | .timeout :: r => (none, r)
  | .dgram d :: r => (some d, r)

/-- A bare blocking `self.s.recv(8192)`: with no datagram the Python call
would block forever, reported as the artificial `wouldBlock` error. -/
def blockingRecv : List NetEv → Except PyErr (String × List NetEv)
  | .dgram d :: r => .ok (d, r)
  | _ => .error .wouldBlock

/-- The `received`/`rport` learning step of SIPClient.register: when the
first Via entry of the reply carries both parameters, they become the
public address. -/
def registerViaLearn (c : Client) (response : SIPMsg β) : Client :=
  match pyLookup response.headers "Via" with
  | some (.via (v0 :: _)) =>
    if hasKey v0 "received" && hasKey v0 "rport" then
      { c with my_public_ip := pyLookup v0 "received",
               my_public_port := pyLookup v0 "rport" }
    else c
  | _ => c

/-- The sent datagrams recorded in a parse_message action list. -/
def actsSent (acts : List Act) : List String :=
  acts.filterMap (fun a =>
    match a with
    | .sent s => some s
    | _ => none)

/-- The shared tail of SIPClient.register after the status cascade:
500 releases the lock, sleeps and retries from scratch; any other status
outside 400/401/407 is fed to parse_message (still under the lock); then
the lock is released and the result is OK-dependent. -/
def register_tail (md5 sha256hex : String → String) (v6 : String → Bool)
    (bodyEval : String → List (String × HVal) → Except PyErr β)
    (registerRec : Client → List NetEv → List String → OpOut Bool)
    (c : Client) (response : SIPMsg β) (evs : List NetEv)
    (sent : List String) : OpOut Bool :=
  if response.status = 400 then
    -- _handle_bad_request only logs; fall through to the release
    { res := .error .invalidAccountInfo, lock := false, c := c,
      evs := evs, sent := sent }
  else if response.status = 401 then
    { res := .error .invalidAccountInfo, lock := false, c := c,
      evs := evs, sent := sent }
  else if response.status = 407 then
    { res := .error .invalidAccountInfo, lock := false, c := c,
      evs := evs, sent := sent }
  else if response.status = 500 then
    -- release, sleep 5, return self.register()
    registerRec c evs sent
  else
    match parse_message v6 c response with
    | .error e =>
      { res := .error e, lock := true, c := c, evs := evs, sent := sent }
    | .ok (c2, acts) =>
      if response.status = 200 then
        let c3 := if c2.NSD then { c2 with registerThread := true } else c2
        { res := .ok true, lock := false, c := c3, evs := evs,
          sent := sent ++ actsSent acts }
      else
        { res := .error .invalidAccountInfo, lock := false, c := c2,
          evs := evs, sent := sent ++ actsSent acts }

/-- SIPClient.register.  The lock is acquired up front; every `raise`
before the final `self.recvLock.release()` leaves it held, which the
claim theorems inspect.  The fuel bounds the 500-retry recursion. -/
def register (md5 sha256hex : String → String) (v6 : String → Bool)
    (bodyEval : String → List (String × HVal) → Except PyErr β) :
    Nat → Client → List NetEv → List String → OpOut Bool
  | 0, c, evs, sent =>
    { res := .error .outOfFuel, lock := true, c := c, evs := evs,
      sent := sent }
  | fuel + 1, c0, evs, sent =>
    -- self.recvLock.acquire(): all paths below hold the lock until an
    -- explicit release
    match gen_first_response sha256hex c0 false with
    | .error e =>
      { res := .error e, lock := true, c := c0, evs := evs, sent := sent }
    | .ok (firstRequest, c) =>
      let sent := sent ++ [firstRequest]
      match takeEv evs with
      | (none, evs) =>
        -- raise TimeoutError: the lock is NOT released on this path
        { res := .error .timeoutError, lock := true, c := c, evs := evs,
          sent := sent }
      | (some resp, evs) =>
        match SIPMessage_parse bodyEval resp with
        | .error e =>
          { res := .error e, lock := true, c := c, evs := evs,
            sent := sent }
        | .ok response =>
          let c := registerViaLearn c response
          -- 100 Trying: blocking recv of the next reply
          let afterTrying :
              Except PyErr (SIPMsg _ × List NetEv) :=
            if response.status = 100 then
              match blockingRecv evs with
              | .error e => .error e
              | .ok (r2, evs2) =>
                match SIPMessage_parse bodyEval r2 with
                | .error e => .error e
                | .ok resp2 => .ok (resp2, evs2)
            else .ok (response, evs)
          match afterTrying with
          | .error e =>
            { res := .error e, lock := true, c := c, evs := evs,
              sent := sent }
          | .ok (response, evs) =>
            -- 400: _handle_bad_request only logs
            if response.status = 401 then
              match gen_register md5 sha256hex c response false with
              | .error e =>
                { res := .error e, lock := true, c := c, evs := evs,
                  sent := sent }
              | .ok (regRequest, c) =>
                let sent := sent ++ [regRequest]
                match takeEv evs with
                | (none, evs) =>
                  -- raise TimeoutError, lock still held
                  { res := .error .timeoutError, lock := true, c := c,
                    evs := evs, sent := sent }
                | (some r3, evs) =>
                  match SIPMessage_parse bodyEval r3 with
                  | .error e =>
                    { res := .error e, lock := true, c := c, evs := evs,
                      sent := sent }
                  | .ok response2 =>
                    if response2.status = 401 then
                      -- raise InvalidAccountInfoError, lock still held
                      { res := .error .invalidAccountInfo, lock := true,
                        c := c, evs := evs, sent := sent }
                    else
                      register_tail md5 sha256hex v6 bodyEval
                        (register md5 sha256hex v6 bodyEval fuel)
                        c response2 evs sent
            else
              register_tail md5 sha256hex v6 bodyEval
                (register md5 sha256hex v6 bodyEval fuel)
                c response evs sent

/-- SIPClient.deregister: like register but with Expires 0, no Trying
handling and no public-address learning.  All raises before the final
release leave the lock held. -/
def deregister (md5 sha256hex : String → String) (v6 : String → Bool)
    (bodyEval : String → List (String × HVal) → Except PyErr β) :
    Nat → Client → List NetEv → List String → OpOut Bool
  | 0, c, evs, sent =>
    { res := .error .outOfFuel, lock := true, c := c, evs := evs,
      sent := sent }
  | fuel + 1, c0, evs, sent =>
    -- self.recvLock.acquire()
    match gen_first_response sha256hex c0 true with
    | .error e =>
      { res := .error e, lock := true, c := c0, evs := evs, sent := sent }
    | .ok (firstRequest, c) =>
      let sent := sent ++ [firstRequest]
      match takeEv evs with
      | (none, evs) =>
        -- raise TimeoutError with the lock held
        { res := .error .timeoutError, lock := true, c := c, evs := evs,
          sent := sent }
      | (some resp, evs) =>
        match SIPMessage_parse bodyEval resp with
        | .error e =>
          { res := .error e, lock := true, c := c, evs := evs,
            sent := sent }
        | .ok response =>
          let after401 :
              Except PyErr (SIPMsg _ × Client × List NetEv × List String) :=
            if response.status = 401 then
              match gen_register md5 sha256hex c response true with
              | .error e => .error e
              | .ok (regRequest, c2) =>
                let sent2 := sent ++ [regRequest]
                match takeEv evs with
                | (none, _) => .error .timeoutError
                | (some r2, evs2) =>
                  match SIPMessage_parse bodyEval r2 with
                  | .error e => .error e
                  | .ok response2 =>
                    if response2.status = 401 then .error .invalidAccountInfo
                    else .ok (response2, c2, evs2, sent2)
            else .ok (response, c, evs, sent)
          match after401 with
          | .error e =>
            { res := .error e, lock := true, c := c, evs := evs,
              sent := sent }
          | .ok (response, c, evs, sent) =>
            if response.status = 500 then
              -- release, sleep 5, return self.deregister()
              deregister md5 sha256hex v6 bodyEval fuel c evs sent
            else if response.status = 200 then
              { res := .ok true, lock := false, c := c, evs := evs,
                sent := sent }
            else
              { res := .ok false, lock := false, c := c, evs := evs,
                sent := sent }

/-- The while loop of SIPClient.invite: keep consuming datagrams (each
one dispatched through parse_message) until a 401/100/180 with the
matching Call-ID arrives, or NSD is cleared. -/
def invite_loop (v6 : String → Bool)
    (bodyEval : String → List (String × HVal) → Except PyErr β) :
    Nat → Client → SIPMsg β → String → List NetEv → List String →
    OpOut (SIPMsg β)
  | 0, c, _, _, evs, sent =>
    { res := .error .outOfFuel, lock := true, c := c, evs := evs,
      sent := sent }
  | fuel + 1, c, response, call_id, evs, sent =>
    match response.hget "Call-ID" with
    | .error e =>
      { res := .error e, lock := true, c := c, evs := evs, sent := sent }
    | .ok cid =>
      let statusHit := response.status = 401 ∨ response.status = 100
        ∨ response.status = 180
      if (¬ statusHit) ∨ cid ≠ HVal.str call_id then
        if !c.NSD then
          -- break: leave the loop with the current response
          { res := .ok response, lock := true, c := c, evs := evs,
            sent := sent }
        else
          match parse_message v6 c response with
          | .error e =>
            { res := .error e, lock := true, c := c, evs := evs,
              sent := sent }
          | .ok (c2, acts) =>
            let sent := sent ++ actsSent acts
            match blockingRecv evs with
            | .error e =>
              { res := .error e, lock := true, c := c2, evs := evs,
                sent := sent }
            | .ok (raw, evs2) =>
              match SIPMessage_parse bodyEval raw with
              | .error e =>
                { res := .error e, lock := true, c := c2, evs := evs2,
                  sent := sent }
              | .ok resp2 =>
                invite_loop v6 bodyEval fuel c2 resp2 call_id evs2 sent
      else
        { res := .ok response, lock := true, c := c, evs := evs,
          sent := sent }

/-- SIPClient.invite.  The identifiers and the INVITE itself are built
before the lock is acquired; the loop then runs under the lock.  When the
loop ends on 100/180 the function returns with the lock still held; only
the 401 path releases it. -/
def invite (md5 sha256hex : String → String) (v6 : String → Bool)
    (bodyEval : String → List (String × HVal) → Except PyErr β)
    (fuel : Nat) (c0 : Client) (number : String) (ms : MsMap)
    (sendtype : String) (evs : List NetEv) :
    OpOut (SIPMsg β × String × Int) :=
  let p1 := gen_call_id sha256hex c0
  let branch := "z9hG4bK" ++ String.mk (p1.1.data.take 25)
  let c := p1.2
  let p2 := gen_call_id sha256hex c
  let call_id := p2.1
  let c := p2.2
  let sp := c.sessID.next
  let sess_id := sp.1
  let c := { c with sessID := sp.2 }
  match gen_invite c number (toString sess_id) ms sendtype branch call_id with
  | .error e =>
    -- raised before the acquire: the lock was never taken
    { res := .error e, lock := false, c := c, evs := evs, sent := [] }
  | .ok (inviteMsg, c) =>
    -- self.recvLock.acquire(); self.send_message(invite)
    let sent := [inviteMsg]
    match blockingRecv evs with
    | .error e =>
      { res := .error e, lock := true, c := c, evs := evs, sent := sent }
    | .ok (raw, evs) =>
      match SIPMessage_parse bodyEval raw with
      | .error e =>
        { res := .error e, lock := true, c := c, evs := evs, sent := sent }
      | .ok response0 =>
        let loopOut := invite_loop v6 bodyEval fuel c response0 call_id
          evs sent
        match loopOut.res with
        | .error e =>
          { res := .error e, lock := loopOut.lock, c := loopOut.c,
            evs := loopOut.evs, sent := loopOut.sent }
        | .ok response =>
          let c := loopOut.c
          let evs := loopOut.evs
          let sent := loopOut.sent
          if response.status = 100 ∨ response.status = 180 then
            -- return with the lock still held
            match SIPMessage_parse bodyEval inviteMsg with
            | .error e =>
              { res := .error e, lock := true, c := c, evs := evs,
                sent := sent }
            | .ok selfMsg =>
              { res := .ok (selfMsg, call_id, sess_id), lock := true,
                c := c, evs := evs, sent := sent }
          else
            match gen_ack v6 c response with
            | .error e =>
              { res := .error e, lock := true, c := c, evs := evs,
                sent := sent }
            | .ok (ack, c) =>
              let sent := sent ++ [ack]
              match gen_authorization md5 c response with
              | .error e =>
                { res := .error e, lock := true, c := c, evs := evs,
                  sent := sent }
              | .ok authhash =>
                match pyDictGet response.authentication "nonce",
                    pyDictGet response.authentication "realm" with
                | .error e, _ =>
                  { res := .error e, lock := true, c := c, evs := evs,
                    sent := sent }
                | _, .error e =>
                  { res := .error e, lock := true, c := c, evs := evs,
                    sent := sent }
                | .ok nonce, .ok realm =>
                  let auth := "Authorization: Digest username=\""
                    ++ c.username ++ "\",realm=\"" ++ realm
                    ++ "\",nonce=\"" ++ nonce ++ "\",uri=\"sip:"
                    ++ c.server ++ ";transport=UDP\",response=\""
                    ++ authhash ++ "\",algorithm=MD5" ++ "\r\n"
                  match gen_invite c number (toString sess_id) ms sendtype
                      branch call_id with
                  | .error e =>
                    { res := .error e, lock := true, c := c, evs := evs,
                      sent := sent }
                  | .ok (invite1, c) =>
                    let invite2 := pyReplace invite1 "\r\nContent-Length"
                      ("\r\n" ++ auth ++ "Content-Length")
                    let sent := sent ++ [invite2]
                    -- self.recvLock.release()
                    match SIPMessage_parse bodyEval invite2 with
                    | .error e =>
                      { res := .error e, lock := false, c := c,
                        evs := evs, sent := sent }
                    | .ok selfMsg =>
                      { res := .ok (selfMsg, call_id, sess_id),
                        lock := false, c := c, evs := evs, sent := sent }

/-- SIPClient.subscribe: a single request/reply exchange under the lock;
the reply is parsed (a parse failure propagates with the lock held) and
the lock is then released. -/
def subscribe (bodyEval : String → List (String × HVal) → Except PyErr β)
    (c0 : Client) (lastresponse : SIPMsg β) (evs : List NetEv) :
    OpOut Unit :=
  -- self.recvLock.acquire()
  match gen_subscribe c0 lastresponse with
  | .error e =>
    { res := .error e, lock := true, c := c0, evs := evs, sent := [] }
  | .ok (subRequest, c) =>
    let sent := [subRequest]
    match blockingRecv evs with
    | .error e =>
      { res := .error e, lock := true, c := c, evs := evs, sent := sent }
    | .ok (raw, evs) =>
      match SIPMessage_parse bodyEval raw with
      | .error e =>
        { res := .error e, lock := true, c := c, evs := evs, sent := sent }
      | .ok _ =>
        -- self.recvLock.release()
        { res := .ok (), lock := false, c := c, evs := evs, sent := sent }

/-- The CRLFCRLF-separated parts of a serialised message, as the Python
`data.split(b'\r\n\r\n')` computes them. -/
def msgParts (s : String) : List Chars := pySplitL blankL s.data

/-- The header section: everything before the first CRLFCRLF. -/
def headerSection (s : String) : Chars := (msgParts s).headD []

/-- The header lines of a serialised message. -/
def msgLines (s : String) : List Chars := pySplitL crlfL (headerSection s)

/-- The body: everything after the first CRLFCRLF. -/
def bodySection (s : String) : Chars := joinSep blankL (msgParts s).tail

/-- The value of the first header line carrying the given name. -/
def headerLineVal (name : String) (s : String) : Option Chars :=
  let lit := (name ++ ": ").data
  ((msgLines s).find? (fun l => lit.isPrefixOf l)).map
    (fun l => l.drop lit.length)

/-- The UTF-8 byte count of a string, the unit Content-Length is
specified in. -/
def byteLength (s : String) : Nat := s.utf8ByteSize

/-- A string free of CR and LF, fit to sit inside one header line. -/
def strOK (s : String) : Prop := okChars s.data

instance (l : Chars) : Decidable (okChars l) := by
  unfold okChars
  infer_instance

instance (l : Chars) : Decidable (lineOK l) := by
  unfold lineOK
  infer_instance

instance (s : String) : Decidable (strOK s) := by
  unfold strOK
  infer_instance

/-- Each header line followed by one CRLF, the shape in which the
builders emit their header block. -/
def lineChunks (ls : List Chars) : Chars :=
  (ls.map (fun l => l ++ crlfL)).flatten

theorem lineChunks_cons (l : Chars) (r : List Chars) :
    lineChunks (l :: r) = (l ++ crlfL) ++ lineChunks r := rfl

theorem lineChunks_append_crlf :
    ∀ (ls : List Chars), ls ≠ [] →
      lineChunks ls ++ crlfL = joinSep crlfL ls ++ blankL := by
  intro ls
  induction ls with
  | nil => intro h; exact absurd rfl h
  | cons l ls' ih =>
    intro _
    cases ls' with
    | nil => simp [lineChunks, joinSep, blankL, crlfL]
    | cons l2 t =>
      have h2 := ih (by simp)
      rw [lineChunks_cons, joinSep_cons_cons _ _ (by simp)]
      calc ((l ++ crlfL) ++ lineChunks (l2 :: t)) ++ crlfL
          = (l ++ crlfL) ++ (lineChunks (l2 :: t) ++ crlfL) := by
            rw [List.append_assoc]
        _ = (l ++ crlfL) ++ (joinSep crlfL (l2 :: t) ++ blankL) := by
            rw [h2]
        _ = l ++ crlfL ++ joinSep crlfL (l2 :: t) ++ blankL := by
            simp [List.append_assoc]

/-- Normal form of a built message: header lines, the blank separator,
then the body.  The message splits back into exactly that header block
and body, and the header lines are recovered verbatim. -/
theorem msg_extract (ls : List Chars) (hne : ls ≠ [])
    (hok : ∀ l ∈ ls, lineOK l) (b : Chars) (s : String)
    (hs : s.data = lineChunks ls ++ crlfL ++ b) :
    msgParts s = joinSep crlfL ls :: pySplitL blankL b
    ∧ msgLines s = ls
    ∧ bodySection s = b := by
  have hs' : s.data = joinSep crlfL ls ++ blankL ++ b := by
    rw [hs, lineChunks_append_crlf ls hne]
  have hparts : msgParts s = joinSep crlfL ls :: pySplitL blankL b := by
    unfold msgParts
    rw [hs']
    exact pySplitL_blank_header ls hne hok b
  refine ⟨hparts, ?_, ?_⟩
  · unfold msgLines headerSection
    rw [hparts]
    simp only [List.headD_cons]
    exact pySplitL_crlf_join ls hne (fun l hl => (hok l hl).2)
  · unfold bodySection
    rw [hparts]
    simp only [List.tail_cons]
    exact joinSep_pySplitL_blank b

/-- A prefix test against a literal-headed line: when the probe neither
extends into nor absorbs the literal head, no suffix can make it a
prefix. -/
theorem isPrefixOf_lit_append_false {p lit : Chars} (f : Chars)
    (h1 : p.isPrefixOf lit = false) (h2 : lit.isPrefixOf p = false) :
    p.isPrefixOf (lit ++ f) = false := by
  cases hc : p.isPrefixOf (lit ++ f) with
  | false => rfl
  | true =>
    rcases isPrefixOf_append_or p lit f hc with h | h
    · rw [h] at h1; cases h1
    · rw [h] at h2; cases h2

theorem drop_lit_append (lit f : Chars) :
    (lit ++ f).drop lit.length = f := List.drop_left lit f

/-- Well-formedness of the serialised via block consumed by the line
lemmas: it is a chunk of nonempty CRLF-free lines, each starting with
the literal "Via: " that _gen_response_via_header emits. -/
def viaOutOK (viaStr : String) (vls : List Chars) : Prop :=
  viaStr.data = lineChunks vls
  ∧ ∀ l ∈ vls, lineOK l ∧ ("Via: ".data).isPrefixOf l = true

theorem via_line_not_cl {l : Chars}
    (h : ("Via: ".data).isPrefixOf l = true) :
    ("Content-Length: ".data).isPrefixOf l = false := by
  have hd := eq_append_drop_of_isPrefixOf _ _ h
  rw [hd]
  exact isPrefixOf_lit_append_false _ (by decide) (by decide)

theorem okChars_of_strOK {s : String} (h : strOK s) : okChars s.data := h

theorem lineChunks_append (a b : List Chars) :
    lineChunks (a ++ b) = lineChunks a ++ lineChunks b := by
  simp [lineChunks]

theorem crlf_data : ("\r\n" : String).data = crlfL := rfl

theorem find?_cl_vls {vls : List Chars}
    (h : ∀ l ∈ vls, lineOK l ∧ ("Via: ".data).isPrefixOf l = true) :
    vls.find? (fun l => ("Content-Length: ".data).isPrefixOf l) = none := by
  apply List.find?_eq_none.mpr
  intro l hl
  simp [via_line_not_cl (h l hl).2]

theorem gen_ok_content_length {β : Type} (v6 : String → Bool) (c : Client)
    (request : SIPMsg β) (viaStr : String) (vls : List Chars)
    (fromH toH cseqH cid : HVal) (fraw ftag traw tag chk mth : String)
    (c2 : Client)
    (hvia : gen_response_via_header v6 request = .ok viaStr)
    (hviaOK : viaOutOK viaStr vls)
    (hfrom : request.hget "From" = .ok fromH)
    (hfraw : fromH.item "raw" = .ok fraw)
    (hftag : fromH.item "tag" = .ok ftag)
    (hto : request.hget "To" = .ok toH)
    (htraw : toH.item "raw" = .ok traw)
    (htag : gen_tag c = .ok (tag, c2))
    (hcid : request.hget "Call-ID" = .ok cid)
    (hcseq : request.hget "CSeq" = .ok cseqH)
    (hchk : cseqH.item "check" = .ok chk)
    (hmth : cseqH.item "method" = .ok mth)
    (hs1 : strOK fraw) (hs2 : strOK ftag) (hs3 : strOK traw)
    (hs4 : strOK tag) (hs5 : strOK cid.render) (hs6 : strOK chk)
    (hs7 : strOK mth) :
    ∃ resp, gen_ok v6 c request = .ok (resp, c2)
      ∧ bodySection resp = []
      ∧ headerLineVal "Content-Length" resp
          = some (Nat.repr (byteLength (String.mk (bodySection resp)))).data := by
  have hresp : gen_ok v6 c request = .ok (
      "SIP/2.0 200 OK" ++ "\r\n"
      ++ viaStr
      ++ "From: " ++ fraw ++ ";tag=" ++ ftag ++ "\r\n"
      ++ "To: " ++ traw ++ ";tag=" ++ tag ++ "\r\n"
      ++ "Call-ID: " ++ cid.render ++ "\r\n"
      ++ "CSeq: " ++ chk ++ " " ++ mth ++ "\r\n"
      ++ "User-Agent: pyVoIP " ++ pyVoIPVersion ++ "\r\n"
      ++ "Allow: " ++ String.intercalate ", " SIPCompatibleMethods ++ "\r\n"
      ++ "Content-Length: 0" ++ "\r\n" ++ "\r\n", c2) := by
    simp [gen_ok, hvia, hfrom, hfraw, hftag, hto, htraw, htag, hcid,
      hcseq, hchk, hmth, bind, Except.bind, Functor.map, Except.map]
    rfl
  set fl := "From: ".data ++ (fraw.data ++ (";tag=".data ++ ftag.data)) with hfl
  set tl := "To: ".data ++ (traw.data ++ (";tag=".data ++ tag.data)) with htl
  set cidl := "Call-ID: ".data ++ cid.render.data with hcidl
  set cql := "CSeq: ".data ++ (chk.data ++ (" ".data ++ mth.data)) with hcql
  set ul := ("User-Agent: pyVoIP " ++ pyVoIPVersion).data with hul
  set al := ("Allow: " ++ String.intercalate ", " SIPCompatibleMethods).data
    with hal
  set cll := "Content-Length: 0".data with hcll
  set ls : List Chars :=
    "SIP/2.0 200 OK".data :: vls ++ [fl, tl, cidl, cql, ul, al, cll] with hls
  set X : String := "SIP/2.0 200 OK" ++ "\r\n"
      ++ viaStr
      ++ "From: " ++ fraw ++ ";tag=" ++ ftag ++ "\r\n"
      ++ "To: " ++ traw ++ ";tag=" ++ tag ++ "\r\n"
      ++ "Call-ID: " ++ cid.render ++ "\r\n"
      ++ "CSeq: " ++ chk ++ " " ++ mth ++ "\r\n"
      ++ "User-Agent: pyVoIP " ++ pyVoIPVersion ++ "\r\n"
      ++ "Allow: " ++ String.intercalate ", " SIPCompatibleMethods ++ "\r\n"
      ++ "Content-Length: 0" ++ "\r\n" ++ "\r\n" with hX
  have hdata : X.data = lineChunks ls ++ crlfL ++ ([] : Chars) := by
    simp only [hX, hls, hfl, htl, hcidl, hcql, hul, hal, hcll,
      String.data_append, crlf_data, lineChunks_cons, lineChunks_append,
      lineChunks, List.map_cons, List.map_nil, List.map_append,
      List.flatten_cons, List.flatten_nil, List.flatten_append,
      hviaOK.1, crlfL, List.append_assoc, List.append_nil,
      List.nil_append]
  have hok : ∀ l ∈ ls, lineOK l := by
    intro l hl
    rw [hls] at hl
    simp only [List.mem_cons, List.mem_append] at hl
    rcases hl with (rfl | hl) | hl
    · exact ⟨by decide, by decide⟩
    · exact (hviaOK.2 l hl).1
    · simp only [List.mem_cons, List.not_mem_nil, or_false] at hl
      rcases hl with rfl | rfl | rfl | rfl | rfl | rfl | rfl
      · exact ⟨by simp [hfl], by
          simp only [hfl, okChars_append]
          exact ⟨by decide, hs1, by decide, hs2⟩⟩
      · exact ⟨by simp [htl], by
          simp only [htl, okChars_append]
          exact ⟨by decide, hs3, by decide, hs4⟩⟩
      · exact ⟨by simp [hcidl], by
          simp only [hcidl, okChars_append]
          exact ⟨by decide, hs5⟩⟩
      · exact ⟨by simp [hcql], by
          simp only [hcql, okChars_append]
          exact ⟨by decide, hs6, by decide, hs7⟩⟩
      · exact ⟨by decide, by decide⟩
      · exact ⟨by decide, by decide⟩
      · exact ⟨by decide, by decide⟩
  have hne : ls ≠ [] := by simp [hls]
  obtain ⟨hparts, hlines, hbody⟩ := msg_extract ls hne hok [] X hdata
  refine ⟨X, hresp, hbody, ?_⟩
  have hv : vls.find? (fun l => (("Content-Length" ++ ": ").data).isPrefixOf l)
      = none := by
    apply List.find?_eq_none.mpr
    intro l hl
    simp [via_line_not_cl (hviaOK.2 l hl).2]
  have h1 : (("Content-Length" ++ ": ").data).isPrefixOf
      ("SIP/2.0 200 OK".data) = false := by decide
  have h2 : (("Content-Length" ++ ": ").data).isPrefixOf fl = false := by
    rw [hfl]
    exact isPrefixOf_lit_append_false _ (by decide) (by decide)
  have h3 : (("Content-Length" ++ ": ").data).isPrefixOf tl = false := by
    rw [htl]
    exact isPrefixOf_lit_append_false _ (by decide) (by decide)
  have h4 : (("Content-Length" ++ ": ").data).isPrefixOf cidl = false := by
    rw [hcidl]
    exact isPrefixOf_lit_append_false _ (by decide) (by decide)
  have h5 : (("Content-Length" ++ ": ").data).isPrefixOf cql = false := by
    rw [hcql]
    exact isPrefixOf_lit_append_false _ (by decide) (by decide)
  have h6 : (("Content-Length" ++ ": ").data).isPrefixOf ul = false := by
    rw [hul]; decide
  have h7 : (("Content-Length" ++ ": ").data).isPrefixOf al = false := by
    rw [hal]; decide
  have h8 : (("Content-Length" ++ ": ").data).isPrefixOf cll = true := by
    rw [hcll]; decide
  simp only [headerLineVal, hlines, hls, List.find?_cons, List.find?_append,
    hv, h1, h2, h3, h4, h5, h6, h7, h8, Option.none_or, List.find?_nil,
    Option.map_some]
  rw [hbody, hcll]
  decide

theorem gen_busy_content_length {β : Type} (v6 : String → Bool) (c : Client)
    (request : SIPMsg β) (viaStr : String) (vls : List Chars)
    (fromH toH cseqH cid contact : HVal)
    (fraw ftag traw tag chk mth : String) (c2 : Client)
    (hvia : gen_response_via_header v6 request = .ok viaStr)
    (hviaOK : viaOutOK viaStr vls)
    (hfrom : request.hget "From" = .ok fromH)
    (hfraw : fromH.item "raw" = .ok fraw)
    (hftag : fromH.item "tag" = .ok ftag)
    (hto : request.hget "To" = .ok toH)
    (htraw : toH.item "raw" = .ok traw)
    (htag : gen_tag c = .ok (tag, c2))
    (hcid : request.hget "Call-ID" = .ok cid)
    (hcseq : request.hget "CSeq" = .ok cseqH)
    (hchk : cseqH.item "check" = .ok chk)
    (hmth : cseqH.item "method" = .ok mth)
    (hcont : request.hget "Contact" = .ok contact)
    (hs1 : strOK fraw) (hs2 : strOK ftag) (hs3 : strOK traw)
    (hs4 : strOK tag) (hs5 : strOK cid.render) (hs6 : strOK chk)
    (hs7 : strOK mth) (hs8 : strOK contact.render) :
    ∃ resp, gen_busy v6 c request = .ok (resp, c2)
      ∧ bodySection resp = []
      ∧ headerLineVal "Content-Length" resp
          = some (Nat.repr (byteLength (String.mk (bodySection resp)))).data := by
  have hresp : gen_busy v6 c request = .ok (
      "SIP/2.0 486 Busy Here" ++ "\r\n"
      ++ viaStr
      ++ "From: " ++ fraw ++ ";tag=" ++ ftag ++ "\r\n"
      ++ "To: " ++ traw ++ ";tag=" ++ tag ++ "\r\n"
      ++ "Call-ID: " ++ cid.render ++ "\r\n"
      ++ "CSeq: " ++ chk ++ " " ++ mth ++ "\r\n"
      ++ "Contact: " ++ contact.render ++ "\r\n"
      ++ "User-Agent: pyVoIP " ++ pyVoIPVersion ++ "\r\n"
      ++ "Warning: 399 GS \"Unable to accept call\"" ++ "\r\n"
      ++ "Allow: " ++ String.intercalate ", " SIPCompatibleMethods ++ "\r\n"
      ++ "Content-Length: 0" ++ "\r\n" ++ "\r\n", c2) := by
    simp [gen_busy, hvia, hfrom, hfraw, hftag, hto, htraw, htag, hcid,
      hcseq, hchk, hmth, hcont, bind, Except.bind, Functor.map, Except.map]
    rfl
  set fl := "From: ".data ++ (fraw.data ++ (";tag=".data ++ ftag.data)) with hfl
  set tl := "To: ".data ++ (traw.data ++ (";tag=".data ++ tag.data)) with htl
  set cidl := "Call-ID: ".data ++ cid.render.data with hcidl
  set cql := "CSeq: ".data ++ (chk.data ++ (" ".data ++ mth.data)) with hcql
  set contl := "Contact: ".data ++ contact.render.data with hcontl
  set ul := ("User-Agent: pyVoIP " ++ pyVoIPVersion).data with hul
  set wl := "Warning: 399 GS \"Unable to accept call\"".data with hwl
  set al := ("Allow: " ++ String.intercalate ", " SIPCompatibleMethods).data
    with hal
  set cll := "Content-Length: 0".data with hcll
  set ls : List Chars :=
    "SIP/2.0 486 Busy Here".data
      :: vls ++ [fl, tl, cidl, cql, contl, ul, wl, al, cll] with hls
  set X : String := "SIP/2.0 486 Busy Here" ++ "\r\n"
      ++ viaStr
      ++ "From: " ++ fraw ++ ";tag=" ++ ftag ++ "\r\n"
      ++ "To: " ++ traw ++ ";tag=" ++ tag ++ "\r\n"
      ++ "Call-ID: " ++ cid.render ++ "\r\n"
      ++ "CSeq: " ++ chk ++ " " ++ mth ++ "\r\n"
      ++ "Contact: " ++ contact.render ++ "\r\n"
      ++ "User-Agent: pyVoIP " ++ pyVoIPVersion ++ "\r\n"
      ++ "Warning: 399 GS \"Unable to accept call\"" ++ "\r\n"
      ++ "Allow: " ++ String.intercalate ", " SIPCompatibleMethods ++ "\r\n"
      ++ "Content-Length: 0" ++ "\r\n" ++ "\r\n" with hX
  have hdata : X.data = lineChunks ls ++ crlfL ++ ([] : Chars) := by
    simp only [hX, hls, hfl, htl, hcidl, hcql, hcontl, hul, hwl, hal, hcll,
      String.data_append, crlf_data, lineChunks_cons, lineChunks_append,
      lineChunks, List.map_cons, List.map_nil, List.map_append,
      List.flatten_cons, List.flatten_nil, List.flatten_append,
      hviaOK.1, crlfL, List.append_assoc, List.append_nil,
      List.nil_append]
  have hok : ∀ l ∈ ls, lineOK l := by
    intro l hl
    rw [hls] at hl
    simp only [List.mem_cons, List.mem_append] at hl
    rcases hl with (rfl | hl) | hl
    · exact ⟨by decide, by decide⟩
    · exact (hviaOK.2 l hl).1
    · simp only [List.mem_cons, List.not_mem_nil, or_false] at hl
      rcases hl with rfl | rfl | rfl | rfl | rfl | rfl | rfl | rfl | rfl
      · exact ⟨by simp [hfl], by
          simp only [hfl, okChars_append]
          exact ⟨by decide, hs1, by decide, hs2⟩⟩
      · exact ⟨by simp [htl], by
          simp only [htl, okChars_append]
          exact ⟨by decide, hs3, by decide, hs4⟩⟩
      · exact ⟨by simp [hcidl], by
          simp only [hcidl, okChars_append]
          exact ⟨by decide, hs5⟩⟩
      · exact ⟨by simp [hcql], by
          simp only [hcql, okChars_append]
          exact ⟨by decide, hs6, by decide, hs7⟩⟩
      · exact ⟨by simp [hcontl], by
          simp only [hcontl, okChars_append]
          exact ⟨by decide, hs8⟩⟩
      · exact ⟨by decide, by decide⟩
      · exact ⟨by decide, by decide⟩
      · exact ⟨by decide, by decide⟩
      · exact ⟨by decide, by decide⟩
  have hne : ls ≠ [] := by simp [hls]
  obtain ⟨hparts, hlines, hbody⟩ := msg_extract ls hne hok [] X hdata
  refine ⟨X, hresp, hbody, ?_⟩
  have hv : vls.find? (fun l => (("Content-Length" ++ ": ").data).isPrefixOf l)
      = none := by
    apply List.find?_eq_none.mpr
    intro l hl
    simp [via_line_not_cl (hviaOK.2 l hl).2]
  have h1 : (("Content-Length" ++ ": ").data).isPrefixOf
      ("SIP/2.0 486 Busy Here".data) = false := by decide
  have h2 : (("Content-Length" ++ ": ").data).isPrefixOf fl = false := by
    rw [hfl]
    exact isPrefixOf_lit_append_false _ (by decide) (by decide)
  have h3 : (("Content-Length" ++ ": ").data).isPrefixOf tl = false := by
    rw [htl]
    exact isPrefixOf_lit_append_false _ (by decide) (by decide)
  have h4 : (("Content-Length" ++ ": ").data).isPrefixOf cidl = false := by
    rw [hcidl]
    exact isPrefixOf_lit_append_false _ (by decide) (by decide)
  have h5 : (("Content-Length" ++ ": ").data).isPrefixOf cql = false := by
    rw [hcql]
    exact isPrefixOf_lit_append_false _ (by decide) (by decide)
  have h5b : (("Content-Length" ++ ": ").data).isPrefixOf contl = false := by
    rw [hcontl]
    exact isPrefixOf_lit_append_false _ (by decide) (by decide)
  have h6 : (("Content-Length" ++ ": ").data).isPrefixOf ul = false := by
    rw [hul]; decide
  have h6b : (("Content-Length" ++ ": ").data).isPrefixOf wl = false := by
    rw [hwl]; decide
  have h7 : (("Content-Length" ++ ": ").data).isPrefixOf al = false := by
    rw [hal]; decide
  have h8 : (("Content-Length" ++ ": ").data).isPrefixOf cll = true := by
    rw [hcll]; decide
  simp only [headerLineVal, hlines, hls, List.find?_cons, List.find?_append,
    hv, h1, h2, h3, h4, h5, h5b, h6, h6b, h7, h8, Option.none_or,
    List.find?_nil, Option.map_some]
  rw [hbody, hcll]
  decide

theorem gen_sip_version_not_supported_content_length {β : Type} (v6 : String → Bool) (c : Client)
    (request : SIPMsg β) (viaStr : String) (vls : List Chars)
    (fromH toH cseqH cid contact : HVal)
    (fraw ftag traw tag chk mth : String) (c2 : Client)
    (hvia : gen_response_via_header v6 request = .ok viaStr)
    (hviaOK : viaOutOK viaStr vls)
    (hfrom : request.hget "From" = .ok fromH)
    (hfraw : fromH.item "raw" = .ok fraw)
    (hftag : fromH.item "tag" = .ok ftag)
    (hto : request.hget "To" = .ok toH)
    (htraw : toH.item "raw" = .ok traw)
    (htag : gen_tag c = .ok (tag, c2))
    (hcid : request.hget "Call-ID" = .ok cid)
    (hcseq : request.hget "CSeq" = .ok cseqH)
    (hchk : cseqH.item "check" = .ok chk)
    (hmth : cseqH.item "method" = .ok mth)
    (hcont : request.hget "Contact" = .ok contact)
    (hs1 : strOK fraw) (hs2 : strOK ftag) (hs3 : strOK traw)
    (hs4 : strOK tag) (hs5 : strOK cid.render) (hs6 : strOK chk)
    (hs7 : strOK mth) (hs8 : strOK contact.render) :
    ∃ resp, gen_sip_version_not_supported v6 c request = .ok (resp, c2)
      ∧ bodySection resp = []
      ∧ headerLineVal "Content-Length" resp
          = some (Nat.repr (byteLength (String.mk (bodySection resp)))).data := by
  have hresp : gen_sip_version_not_supported v6 c request = .ok (
      "SIP/2.0 505 SIP Version Not Supported" ++ "\r\n"
      ++ viaStr
      ++ "From: " ++ fraw ++ ";tag=" ++ ftag ++ "\r\n"
      ++ "To: " ++ traw ++ ";tag=" ++ tag ++ "\r\n"
      ++ "Call-ID: " ++ cid.render ++ "\r\n"
      ++ "CSeq: " ++ chk ++ " " ++ mth ++ "\r\n"
      ++ "Contact: " ++ contact.render ++ "\r\n"
      ++ "User-Agent: pyVoIP " ++ pyVoIPVersion ++ "\r\n"
      ++ "Warning: 399 GS \"Unable to accept call\"" ++ "\r\n"
      ++ "Allow: " ++ String.intercalate ", " SIPCompatibleMethods ++ "\r\n"
      ++ "Content-Length: 0" ++ "\r\n" ++ "\r\n", c2) := by
    simp [gen_sip_version_not_supported, hvia, hfrom, hfraw, hftag, hto, htraw, htag, hcid,
      hcseq, hchk, hmth, hcont, bind, Except.bind, Functor.map, Except.map]
    rfl
  set fl := "From: ".data ++ (fraw.data ++ (";tag=".data ++ ftag.data)) with hfl
  set tl := "To: ".data ++ (traw.data ++ (";tag=".data ++ tag.data)) with htl
  set cidl := "Call-ID: ".data ++ cid.render.data with hcidl
  set cql := "CSeq: ".data ++ (chk.data ++ (" ".data ++ mth.data)) with hcql
  set contl := "Contact: ".data ++ contact.render.data with hcontl
  set ul := ("User-Agent: pyVoIP " ++ pyVoIPVersion).data with hul
  set wl := "Warning: 399 GS \"Unable to accept call\"".data with hwl
  set al := ("Allow: " ++ String.intercalate ", " SIPCompatibleMethods).data
    with hal
  set cll := "Content-Length: 0".data with hcll
  set ls : List Chars :=
    "SIP/2.0 505 SIP Version Not Supported".data
      :: vls ++ [fl, tl, cidl, cql, contl, ul, wl, al, cll] with hls
  set X : String := "SIP/2.0 505 SIP Version Not Supported" ++ "\r\n"
      ++ viaStr
      ++ "From: " ++ fraw ++ ";tag=" ++ ftag ++ "\r\n"
      ++ "To: " ++ traw ++ ";tag=" ++ tag ++ "\r\n"
      ++ "Call-ID: " ++ cid.render ++ "\r\n"
      ++ "CSeq: " ++ chk ++ " " ++ mth ++ "\r\n"
      ++ "Contact: " ++ contact.render ++ "\r\n"
      ++ "User-Agent: pyVoIP " ++ pyVoIPVersion ++ "\r\n"
      ++ "Warning: 399 GS \"Unable to accept call\"" ++ "\r\n"
      ++ "Allow: " ++ String.intercalate ", " SIPCompatibleMethods ++ "\r\n"
      ++ "Content-Length: 0" ++ "\r\n" ++ "\r\n" with hX
  have hdata : X.data = lineChunks ls ++ crlfL ++ ([] : Chars) := by
    simp only [hX, hls, hfl, htl, hcidl, hcql, hcontl, hul, hwl, hal, hcll,
      String.data_append, crlf_data, lineChunks_cons, lineChunks_append,
      lineChunks, List.map_cons, List.map_nil, List.map_append,
      List.flatten_cons, List.flatten_nil, List.flatten_append,
      hviaOK.1, crlfL, List.append_assoc, List.append_nil,
      List.nil_append]
  have hok : ∀ l ∈ ls, lineOK l := by
    intro l hl
    rw [hls] at hl
    simp only [List.mem_cons, List.mem_append] at hl
    rcases hl with (rfl | hl) | hl
    · exact ⟨by decide, by decide⟩
    · exact (hviaOK.2 l hl).1
    · simp only [List.mem_cons, List.not_mem_nil, or_false] at hl
      rcases hl with rfl | rfl | rfl | rfl | rfl | rfl | rfl | rfl | rfl
      · exact ⟨by simp [hfl], by
          simp only [hfl, okChars_append]
          exact ⟨by decide, hs1, by decide, hs2⟩⟩
      · exact ⟨by simp [htl], by
          simp only [htl, okChars_append]
          exact ⟨by decide, hs3, by decide, hs4⟩⟩
      · exact ⟨by simp [hcidl], by
          simp only [hcidl, okChars_append]
          exact ⟨by decide, hs5⟩⟩
      · exact ⟨by simp [hcql], by
          simp only [hcql, okChars_append]
          exact ⟨by decide, hs6, by decide, hs7⟩⟩
      · exact ⟨by simp [hcontl], by
          simp only [hcontl, okChars_append]
          exact ⟨by decide, hs8⟩⟩
      · exact ⟨by decide, by decide⟩
      · exact ⟨by decide, by decide⟩
      · exact ⟨by decide, by decide⟩
      · exact ⟨by decide, by decide⟩
  have hne : ls ≠ [] := by simp [hls]
  obtain ⟨hparts, hlines, hbody⟩ := msg_extract ls hne hok [] X hdata
  refine ⟨X, hresp, hbody, ?_⟩
  have hv : vls.find? (fun l => (("Content-Length" ++ ": ").data).isPrefixOf l)
      = none := by
    apply List.find?_eq_none.mpr
    intro l hl
    simp [via_line_not_cl (hviaOK.2 l hl).2]
  have h1 : (("Content-Length" ++ ": ").data).isPrefixOf
      ("SIP/2.0 505 SIP Version Not Supported".data) = false := by decide
  have h2 : (("Content-Length" ++ ": ").data).isPrefixOf fl = false := by
    rw [hfl]
    exact isPrefixOf_lit_append_false _ (by decide) (by decide)
  have h3 : (("Content-Length" ++ ": ").data).isPrefixOf tl = false := by
    rw [htl]
    exact isPrefixOf_lit_append_false _ (by decide) (by decide)
  have h4 : (("Content-Length" ++ ": ").data).isPrefixOf cidl = false := by
    rw [hcidl]
    exact isPrefixOf_lit_append_false _ (by decide) (by decide)
  have h5 : (("Content-Length" ++ ": ").data).isPrefixOf cql = false := by
    rw [hcql]
    exact isPrefixOf_lit_append_false _ (by decide) (by decide)
  have h5b : (("Content-Length" ++ ": ").data).isPrefixOf contl = false := by
    rw [hcontl]
    exact isPrefixOf_lit_append_false _ (by decide) (by decide)
  have h6 : (("Content-Length" ++ ": ").data).isPrefixOf ul = false := by
    rw [hul]; decide
  have h6b : (("Content-Length" ++ ": ").data).isPrefixOf wl = false := by
    rw [hwl]; decide
  have h7 : (("Content-Length" ++ ": ").data).isPrefixOf al = false := by
    rw [hal]; decide
  have h8 : (("Content-Length" ++ ": ").data).isPrefixOf cll = true := by
    rw [hcll]; decide
  simp only [headerLineVal, hlines, hls, List.find?_cons, List.find?_append,
    hv, h1, h2, h3, h4, h5, h5b, h6, h6b, h7, h8, Option.none_or,
    List.find?_nil, Option.map_some]
  rw [hbody, hcll]
  decide

theorem pyStripL_subset {cs l : Chars} : ∀ c ∈ pyStripL cs l, c ∈ l := by
  intro c hc
  unfold pyStripL at hc
  rw [List.mem_reverse] at hc
  have h1 := (List.dropWhile_sublist _).subset hc
  rw [List.mem_reverse] at h1
  exact (List.dropWhile_sublist _).subset h1

theorem strOK_pyStrip {s : String} (cs : List Char) (h : strOK s) :
    strOK (pyStrip s cs) :=
  fun c hc => h c (pyStripL_subset c hc)

theorem strOK_append {a b : String} (ha : strOK a) (hb : strOK b) :
    strOK (a ++ b) := by
  unfold strOK
  rw [String.data_append, okChars_append]
  exact ⟨ha, hb⟩

theorem gen_ack_content_length {β : Type} (v6 : String → Bool) (c : Client)
    (request : SIPMsg β) (viaStr : String) (vls : List Chars)
    (fromH toH cseqH cid : HVal)
    (fraw traw tag0 tag chk : String) (c2 : Client)
    (hcid : request.hget "Call-ID" = .ok cid)
    (htaglib : pyDictGet c.tagLibrary cid.render = .ok tag0)
    (hto : request.hget "To" = .ok toH)
    (htraw : toH.item "raw" = .ok traw)
    (hvia : gen_response_via_header v6 request = .ok viaStr)
    (hviaOK : viaOutOK viaStr vls)
    (htag : gen_tag c = .ok (tag, c2))
    (hfrom : request.hget "From" = .ok fromH)
    (hfraw : fromH.item "raw" = .ok fraw)
    (hcseq : request.hget "CSeq" = .ok cseqH)
    (hchk : cseqH.item "check" = .ok chk)
    (hs1 : strOK fraw) (hs3 : strOK traw) (hs0 : strOK tag0)
    (hs4 : strOK tag) (hs5 : strOK cid.render) (hs6 : strOK chk) :
    ∃ resp, gen_ack v6 c request = .ok (resp, c2)
      ∧ bodySection resp = []
      ∧ headerLineVal "Content-Length" resp
          = some (Nat.repr (byteLength (String.mk (bodySection resp)))).data := by
  set t := pyStrip (pyStrip traw ['<']) ['>'] with ht
  have hst : strOK t := strOK_pyStrip _ (strOK_pyStrip _ hs3)
  have hresp : gen_ack v6 c request = .ok (
      "ACK " ++ t ++ " SIP/2.0" ++ "\r\n"
      ++ viaStr
      ++ "Max-Forwards: 70" ++ "\r\n"
      ++ "To: " ++ traw ++ ";tag=" ++ tag ++ "\r\n"
      ++ "From: " ++ fraw ++ ";tag=" ++ tag0 ++ "\r\n"
      ++ "Call-ID: " ++ cid.render ++ "\r\n"
      ++ "CSeq: " ++ chk ++ " ACK" ++ "\r\n"
      ++ "User-Agent: pyVoIP " ++ pyVoIPVersion ++ "\r\n"
      ++ "Content-Length: 0" ++ "\r\n" ++ "\r\n", c2) := by
    simp [gen_ack, hcid, htaglib, hto, htraw, hvia, htag, hfrom, hfraw,
      hcseq, hchk, ht, bind, Except.bind, Functor.map, Except.map]
    rfl
  set l0 := "ACK ".data ++ (t.data ++ " SIP/2.0".data) with hl0
  set tl := "To: ".data ++ (traw.data ++ (";tag=".data ++ tag.data)) with htl
  set fl := "From: ".data ++ (fraw.data ++ (";tag=".data ++ tag0.data))
    with hfl
  set cidl := "Call-ID: ".data ++ cid.render.data with hcidl
  set cql := "CSeq: ".data ++ (chk.data ++ " ACK".data) with hcql
  set ul := ("User-Agent: pyVoIP " ++ pyVoIPVersion).data with hul
  set cll := "Content-Length: 0".data with hcll
  set ls : List Chars :=
    l0 :: vls ++ ["Max-Forwards: 70".data, tl, fl, cidl, cql, ul, cll]
    with hls
  set X : String := "ACK " ++ t ++ " SIP/2.0" ++ "\r\n"
      ++ viaStr
      ++ "Max-Forwards: 70" ++ "\r\n"
      ++ "To: " ++ traw ++ ";tag=" ++ tag ++ "\r\n"
      ++ "From: " ++ fraw ++ ";tag=" ++ tag0 ++ "\r\n"
      ++ "Call-ID: " ++ cid.render ++ "\r\n"
      ++ "CSeq: " ++ chk ++ " ACK" ++ "\r\n"
      ++ "User-Agent: pyVoIP " ++ pyVoIPVersion ++ "\r\n"
      ++ "Content-Length: 0" ++ "\r\n" ++ "\r\n" with hX
  have hdata : X.data = lineChunks ls ++ crlfL ++ ([] : Chars) := by
    simp only [hX, hls, hl0, htl, hfl, hcidl, hcql, hul, hcll,
      String.data_append, crlf_data, lineChunks_cons, lineChunks_append,
      lineChunks, List.map_cons, List.map_nil, List.map_append,
      List.flatten_cons, List.flatten_nil, List.flatten_append,
      hviaOK.1, crlfL, List.append_assoc, List.append_nil,
      List.nil_append]
  have hok : ∀ l ∈ ls, lineOK l := by
    intro l hl
    rw [hls] at hl
    simp only [List.mem_cons, List.mem_append] at hl
    rcases hl with (rfl | hl) | hl
    · refine ⟨by simp [hl0], ?_⟩
      simp only [hl0, okChars_append]
      exact ⟨by decide, hst, by decide⟩
    · exact (hviaOK.2 l hl).1
    · simp only [List.mem_cons, List.not_mem_nil, or_false] at hl
      rcases hl with rfl | rfl | rfl | rfl | rfl | rfl | rfl
      · exact ⟨by decide, by decide⟩
      · exact ⟨by simp [htl], by
          simp only [htl, okChars_append]
          exact ⟨by decide, hs3, by decide, hs4⟩⟩
      · exact ⟨by simp [hfl], by
          simp only [hfl, okChars_append]
          exact ⟨by decide, hs1, by decide, hs0⟩⟩
      · exact ⟨by simp [hcidl], by
          simp only [hcidl, okChars_append]
          exact ⟨by decide, hs5⟩⟩
      · exact ⟨by simp [hcql], by
          simp only [hcql, okChars_append]
          exact ⟨by decide, hs6, by decide⟩⟩
      · exact ⟨by decide, by decide⟩
      · exact ⟨by decide, by decide⟩
  have hne : ls ≠ [] := by simp [hls]
  obtain ⟨hparts, hlines, hbody⟩ := msg_extract ls hne hok [] X hdata
  refine ⟨X, hresp, hbody, ?_⟩
  have hv : vls.find? (fun l => (("Content-Length" ++ ": ").data).isPrefixOf l)
      = none := by
    apply List.find?_eq_none.mpr
    intro l hl
    simp [via_line_not_cl (hviaOK.2 l hl).2]
  have h1 : (("Content-Length" ++ ": ").data).isPrefixOf l0 = false := by
    rw [hl0]
    exact isPrefixOf_lit_append_false _ (by decide) (by decide)
  have h1b : (("Content-Length" ++ ": ").data).isPrefixOf
      ("Max-Forwards: 70".data) = false := by decide
  have h2 : (("Content-Length" ++ ": ").data).isPrefixOf tl = false := by
    rw [htl]
    exact isPrefixOf_lit_append_false _ (by decide) (by decide)
  have h3 : (("Content-Length" ++ ": ").data).isPrefixOf fl = false := by
    rw [hfl]
    exact isPrefixOf_lit_append_false _ (by decide) (by decide)
  have h4 : (("Content-Length" ++ ": ").data).isPrefixOf cidl = false := by
    rw [hcidl]
    exact isPrefixOf_lit_append_false _ (by decide) (by decide)
  have h5 : (("Content-Length" ++ ": ").data).isPrefixOf cql = false := by
    rw [hcql]
    exact isPrefixOf_lit_append_false _ (by decide) (by decide)
  have h6 : (("Content-Length" ++ ": ").data).isPrefixOf ul = false := by
    rw [hul]; decide
  have h8 : (("Content-Length" ++ ": ").data).isPrefixOf cll = true := by
    rw [hcll]; decide
  simp only [headerLineVal, hlines, hls, List.find?_cons, List.find?_append,
    hv, h1, h1b, h2, h3, h4, h5, h6, h8, Option.none_or, List.find?_nil,
    Option.map_some]
  rw [hbody, hcll]
  decide

theorem digitChar_large (m : Nat) (h : 16 ≤ m) : Nat.digitChar m = '*' := by
  unfold Nat.digitChar
  repeat rw [if_neg (by omega)]

theorem digitChar_ok (m : Nat) :
    Nat.digitChar m ≠ '\r' ∧ Nat.digitChar m ≠ '\n' := by
  rcases Nat.lt_or_ge m 16 with h | h
  · interval_cases m <;> exact ⟨by decide, by decide⟩
  · rw [digitChar_large m h]
    exact ⟨by decide, by decide⟩

theorem toDigitsCore_ok (b : Nat) :
    ∀ (fuel n : Nat) (ds : Chars), okChars ds →
      okChars (Nat.toDigitsCore b fuel n ds) := by
  intro fuel
  induction fuel with
  | zero => intro n ds h; exact h
  | succ fuel ih =>
    intro n ds h
    have hcons : okChars (Nat.digitChar (n % b) :: ds) := by
      intro c hc
      rcases List.mem_cons.mp hc with rfl | hc
      · exact digitChar_ok _
      · exact h c hc
    unfold Nat.toDigitsCore
    simp only
    split
    · exact hcons
    · exact ih _ _ hcons

theorem natRepr_ok (n : Nat) : okChars (Nat.repr n).data := by
  show okChars (Nat.toDigits 10 n).asString.data
  have : (Nat.toDigits 10 n).asString.data = Nat.toDigits 10 n := rfl
  rw [this]
  exact toDigitsCore_ok 10 _ _ [] okChars_nil

theorem intRepr_ok (i : Int) : okChars (toString i).data := by
  show okChars (Int.repr i).data
  cases i with
  | ofNat m => exact natRepr_ok m
  | negSucc m =>
    show okChars ("-" ++ Nat.repr (m + 1)).data
    rw [String.data_append, okChars_append]
    exact ⟨by decide, natRepr_ok _⟩

theorem strOK_natRepr (n : Nat) : strOK (Nat.repr n) := natRepr_ok n

theorem strOK_intRepr (i : Int) : strOK (toString i) := intRepr_ok i

theorem gen_bye_content_length {β : Type} (v6 : String → Bool) (c : Client)
    (request : SIPMsg β) (viaStr : String) (vls : List Chars)
    (fromH toH cseqH cid contact : HVal)
    (fraw ftag traw ttag tag0 chk : String) (n : Int)
    (hcid : request.hget "Call-ID" = .ok cid)
    (htaglib : pyDictGet c.tagLibrary cid.render = .ok tag0)
    (hcont : request.hget "Contact" = .ok contact)
    (hvia : gen_response_via_header v6 request = .ok viaStr)
    (hviaOK : viaOutOK viaStr vls)
    (hfrom : request.hget "From" = .ok fromH)
    (hfraw : fromH.item "raw" = .ok fraw)
    (hftag : fromH.item "tag" = .ok ftag)
    (hto : request.hget "To" = .ok toH)
    (htraw : toH.item "raw" = .ok traw)
    (httag : toH.item "tag" = .ok ttag)
    (hcseq : request.hget "CSeq" = .ok cseqH)
    (hchk : cseqH.item "check" = .ok chk)
    (hn : pyInt? chk = some n)
    (hs1 : strOK fraw) (hs2 : strOK ftag) (hs3 : strOK traw)
    (hsT : strOK ttag) (hs0 : strOK tag0) (hs5 : strOK cid.render)
    (hs8 : strOK contact.render) (hsu : strOK c.username)
    (hsip : strOK c.get_my_ip) (hsport : strOK c.get_my_port) :
    ∃ resp, gen_bye v6 c request = .ok (resp, c)
      ∧ bodySection resp = []
      ∧ headerLineVal "Content-Length" resp
          = some (Nat.repr (byteLength (String.mk (bodySection resp)))).data := by
  set cv := pyStrip (pyStrip contact.render ['<']) ['>'] with hcv
  have hscv : strOK cv := strOK_pyStrip _ (strOK_pyStrip _ hs8)
  set ftp : String :=
    (if ftag = tag0 then
      "From: " ++ fraw ++ ";tag=" ++ tag0 ++ "\r\n"
      ++ "To: "
      ++ (if ttag ≠ "" then traw ++ ";tag=" ++ ttag else traw) ++ "\r\n"
    else
      "To: " ++ fraw ++ ";tag=" ++ ftag ++ "\r\n"
      ++ "From: " ++ traw ++ ";tag=" ++ tag0 ++ "\r\n") with hftp
  have hresp : gen_bye v6 c request = .ok (
      "BYE " ++ cv ++ " SIP/2.0" ++ "\r\n"
      ++ viaStr
      ++ ftp
      ++ "Call-ID: " ++ cid.render ++ "\r\n"
      ++ "CSeq: " ++ toString (n + 1) ++ " BYE" ++ "\r\n"
      ++ "Contact: "
        ++ "<sip:" ++ c.username ++ "@" ++ c.get_my_ip ++ ":" ++ c.get_my_port
        ++ ">" ++ "\r\n"
      ++ "User-Agent: pyVoIP " ++ pyVoIPVersion ++ "\r\n"
      ++ "Allow: " ++ String.intercalate ", " SIPCompatibleMethods ++ "\r\n"
      ++ "Content-Length: 0" ++ "\r\n" ++ "\r\n", c) := by
    simp [gen_bye, hcid, htaglib, hcont, hvia, hfrom, hfraw, hftag, hto,
      htraw, httag, hcseq, hchk, hn, hcv, hftp, bind, Except.bind,
      Functor.map, Except.map, pure, Except.pure]
  obtain ⟨p1, p2, hd2, hp1, hp2, hn1, hn2⟩ :
      ∃ p1 p2, ftp.data = lineChunks [p1, p2]
        ∧ lineOK p1 ∧ lineOK p2
        ∧ (("Content-Length" ++ ": ").data).isPrefixOf p1 = false
        ∧ (("Content-Length" ++ ": ").data).isPrefixOf p2 = false := by
    rw [hftp]
    by_cases hcase : ftag = tag0
    · have hY : strOK (if ttag ≠ "" then traw ++ ";tag=" ++ ttag else traw) := by
        split
        · exact strOK_append (strOK_append hs3 (by decide)) hsT
        · exact hs3
      refine ⟨"From: ".data ++ (fraw.data ++ (";tag=".data ++ tag0.data)),
        "To: ".data ++ ((if ttag ≠ "" then traw ++ ";tag=" ++ ttag
          else traw) : String).data, ?_, ?_, ?_, ?_, ?_⟩
      · rw [if_pos hcase]
        simp [String.data_append, crlf_data, lineChunks, crlfL,
          List.append_assoc]
      · refine ⟨by simp, ?_⟩
        simp only [okChars_append]
        exact ⟨by decide, hs1, by decide, hs0⟩
      · refine ⟨by simp, ?_⟩
        simp only [okChars_append]
        exact ⟨by decide, hY⟩
      · exact isPrefixOf_lit_append_false _ (by decide) (by decide)
      · exact isPrefixOf_lit_append_false _ (by decide) (by decide)
    · refine ⟨"To: ".data ++ (fraw.data ++ (";tag=".data ++ ftag.data)),
        "From: ".data ++ (traw.data ++ (";tag=".data ++ tag0.data)),
        ?_, ?_, ?_, ?_, ?_⟩
      · rw [if_neg hcase]
        simp [String.data_append, crlf_data, lineChunks, crlfL,
          List.append_assoc]
      · refine ⟨by simp, ?_⟩
        simp only [okChars_append]
        exact ⟨by decide, hs1, by decide, hs2⟩
      · refine ⟨by simp, ?_⟩
        simp only [okChars_append]
        exact ⟨by decide, hs3, by decide, hs0⟩
      · exact isPrefixOf_lit_append_false _ (by decide) (by decide)
      · exact isPrefixOf_lit_append_false _ (by decide) (by decide)
  set l0 := "BYE ".data ++ (cv.data ++ " SIP/2.0".data) with hl0
  set cidl := "Call-ID: ".data ++ cid.render.data with hcidl
  set cql := "CSeq: ".data ++ ((toString (n + 1)).data ++ " BYE".data)
    with hcql
  set contl := "Contact: ".data ++ ("<sip:".data ++ (c.username.data
    ++ ("@".data ++ (c.get_my_ip.data ++ (":".data
    ++ (c.get_my_port.data ++ ">".data)))))) with hcontl
  set ul := ("User-Agent: pyVoIP " ++ pyVoIPVersion).data with hul
  set al := ("Allow: " ++ String.intercalate ", " SIPCompatibleMethods).data
    with hal
  set cll := "Content-Length: 0".data with hcll
  set ls : List Chars :=
    l0 :: vls ++ [p1, p2, cidl, cql, contl, ul, al, cll] with hls
  set X : String := "BYE " ++ cv ++ " SIP/2.0" ++ "\r\n"
      ++ viaStr
      ++ ftp
      ++ "Call-ID: " ++ cid.render ++ "\r\n"
      ++ "CSeq: " ++ toString (n + 1) ++ " BYE" ++ "\r\n"
      ++ "Contact: "
        ++ "<sip:" ++ c.username ++ "@" ++ c.get_my_ip ++ ":" ++ c.get_my_port
        ++ ">" ++ "\r\n"
      ++ "User-Agent: pyVoIP " ++ pyVoIPVersion ++ "\r\n"
      ++ "Allow: " ++ String.intercalate ", " SIPCompatibleMethods ++ "\r\n"
      ++ "Content-Length: 0" ++ "\r\n" ++ "\r\n" with hX
  have hdata : X.data = lineChunks ls ++ crlfL ++ ([] : Chars) := by
    simp only [hX, hls, hl0, hcidl, hcql, hcontl, hul, hal, hcll,
      String.data_append, crlf_data, hd2, lineChunks_cons, lineChunks_append,
      lineChunks, List.map_cons, List.map_nil, List.map_append,
      List.flatten_cons, List.flatten_nil, List.flatten_append,
      hviaOK.1, crlfL, List.append_assoc, List.append_nil,
      List.nil_append]
  have hok : ∀ l ∈ ls, lineOK l := by
    intro l hl
    rw [hls] at hl
    simp only [List.mem_cons, List.mem_append] at hl
    rcases hl with (rfl | hl) | hl
    · refine ⟨by simp [hl0], ?_⟩
      simp only [hl0, okChars_append]
      exact ⟨by decide, hscv, by decide⟩
    · exact (hviaOK.2 l hl).1
    · simp only [List.mem_cons, List.not_mem_nil, or_false] at hl
      rcases hl with rfl | rfl | rfl | rfl | rfl | rfl | rfl | rfl
      · exact hp1
      · exact hp2
      · exact ⟨by simp [hcidl], by
          simp only [hcidl, okChars_append]
          exact ⟨by decide, hs5⟩⟩
      · exact ⟨by simp [hcql], by
          simp only [hcql, okChars_append]
          exact ⟨by decide, strOK_intRepr (n + 1), by decide⟩⟩
      · exact ⟨by simp [hcontl], by
          simp only [hcontl, okChars_append]
          exact ⟨by decide, by decide, hsu, by decide, hsip, by decide,
            hsport, by decide⟩⟩
      · exact ⟨by decide, by decide⟩
      · exact ⟨by decide, by decide⟩
      · exact ⟨by decide, by decide⟩
  have hne : ls ≠ [] := by simp [hls]
  obtain ⟨hparts, hlines, hbody⟩ := msg_extract ls hne hok [] X hdata
  refine ⟨X, hresp, hbody, ?_⟩
  have hv : vls.find? (fun l => (("Content-Length" ++ ": ").data).isPrefixOf l)
      = none := by
    apply List.find?_eq_none.mpr
    intro l hl
    simp [via_line_not_cl (hviaOK.2 l hl).2]
  have h1 : (("Content-Length" ++ ": ").data).isPrefixOf l0 = false := by
    rw [hl0]
    exact isPrefixOf_lit_append_false _ (by decide) (by decide)
  have h4 : (("Content-Length" ++ ": ").data).isPrefixOf cidl = false := by
    rw [hcidl]
    exact isPrefixOf_lit_append_false _ (by decide) (by decide)
  have h5 : (("Content-Length" ++ ": ").data).isPrefixOf cql = false := by
    rw [hcql]
    exact isPrefixOf_lit_append_false _ (by decide) (by decide)
  have h5b : (("Content-Length" ++ ": ").data).isPrefixOf contl = false := by
    rw [hcontl]
    exact isPrefixOf_lit_append_false _ (by decide) (by decide)
  have h6 : (("Content-Length" ++ ": ").data).isPrefixOf ul = false := by
    rw [hul]; decide
  have h7 : (("Content-Length" ++ ": ").data).isPrefixOf al = false := by
    rw [hal]; decide
  have h8 : (("Content-Length" ++ ": ").data).isPrefixOf cll = true := by
    rw [hcll]; decide
  simp only [headerLineVal, hlines, hls, List.find?_cons, List.find?_append,
    hv, h1, hn1, hn2, h4, h5, h5b, h6, h7, h8, Option.none_or,
    List.find?_nil, Option.map_some]
  rw [hbody, hcll]
  decide

theorem strOK_mk_take {s : String} (n : Nat) (h : strOK s) :
    strOK (String.mk (s.data.take n)) :=
  fun c hc => h c (List.take_subset _ _ hc)

theorem gen_first_response_content_length (sha256hex : String → String)
    (c : Client) (dereg : Bool) (regTag : String)
    (hreg : pyDictGet c.tagLibrary "register" = .ok regTag)
    (hsreg : strOK regTag) (hsu : strOK c.username)
    (hss : strOK c.server) (hsmyip : strOK c.myIP)
    (hsip : strOK c.get_my_ip) (hsport : strOK c.get_my_port)
    (hsurn : strOK c.urnUUID)
    (hseed : strOK (c.branchSeeds c.branchIdx))
    (hsha : strOK (sha256hex (toString c.callID.x))) :
    ∃ resp c2, gen_first_response sha256hex c dereg = .ok (resp, c2)
      ∧ bodySection resp = []
      ∧ headerLineVal "Content-Length" resp
          = some (Nat.repr (byteLength (String.mk (bodySection resp)))).data := by
  set branch := "z9hG4bK"
    ++ String.mk ((c.branchSeeds c.branchIdx).data.take 25) with hbr
  set callId := String.mk ((sha256hex (toString c.callID.x)).data.take 32)
    ++ "@" ++ c.myIP ++ ":" ++ Nat.repr c.myPort with hci
  set cseqS := toString c.registerCounter.x with hcs
  set exp := Nat.repr (if !dereg then c.default_expires else 0) with hexp
  set X : String := "REGISTER sip:" ++ c.server ++ " SIP/2.0" ++ "\r\n"
    ++ "Via: SIP/2.0/UDP " ++ c.myIP ++ ":" ++ Nat.repr c.myPort ++ ";"
      ++ "branch=" ++ branch ++ ";rport" ++ "\r\n"
    ++ "From: \"" ++ c.username ++ "\" "
      ++ "<sip:" ++ c.username ++ "@" ++ c.server ++ ">;tag=" ++ regTag ++ "\r\n"
    ++ "To: \"" ++ c.username ++ "\" "
      ++ "<sip:" ++ c.username ++ "@" ++ c.server ++ ">" ++ "\r\n"
    ++ "Call-ID: " ++ callId ++ "\r\n"
    ++ "CSeq: " ++ cseqS ++ " REGISTER" ++ "\r\n"
    ++ "Contact: "
      ++ "<sip:" ++ c.get_my_ip ++ ":" ++ c.get_my_port ++ ";"
      ++ "transport=UDP>;+sip.instance="
      ++ "\"<urn:uuid:" ++ c.urnUUID ++ ">\"" ++ "\r\n"
    ++ "Allow: " ++ String.intercalate ", " SIPCompatibleMethods ++ "\r\n"
    ++ "Max-Forwards: 70" ++ "\r\n"
    ++ "Allow-Events: org.3gpp.nwinitdereg" ++ "\r\n"
    ++ "User-Agent: pyVoIP " ++ pyVoIPVersion ++ "\r\n"
    ++ "Expires: " ++ exp ++ "\r\n"
    ++ "Content-Length: 0"
    ++ "\r\n" ++ "\r\n" with hX
  have hresp : gen_first_response sha256hex c dereg = .ok (X,
      { c with branchIdx := c.branchIdx + 1,
               callID := ⟨c.callID.x + 1⟩,
               registerCounter := ⟨c.registerCounter.x + 1⟩ }) := by
    simp [gen_first_response, gen_branch, gen_call_id, Counter.next,
      Counter.count, hreg, hbr, hci, hcs, hexp, hX, Client.get_my_ip,
      Client.get_my_port, bind, Except.bind, Functor.map, Except.map,
      pure, Except.pure]
  have hsbr : strOK branch := by
    rw [hbr]
    exact strOK_append (by decide) (strOK_mk_take _ hseed)
  have hsci : strOK callId := by
    rw [hci]
    exact strOK_append (strOK_append (strOK_append (strOK_append
      (strOK_mk_take 32 hsha) (by decide)) hsmyip) (by decide))
      (strOK_natRepr _)
  set l0 := "REGISTER sip:".data ++ (c.server.data ++ " SIP/2.0".data)
    with hl0
  set vl := "Via: SIP/2.0/UDP ".data ++ (c.myIP.data ++ (":".data
    ++ ((Nat.repr c.myPort).data ++ (";".data ++ ("branch=".data
    ++ (branch.data ++ ";rport".data)))))) with hvl
  set fl := "From: \"".data ++ (c.username.data ++ ("\" ".data
    ++ ("<sip:".data ++ (c.username.data ++ ("@".data
    ++ (c.server.data ++ (">;tag=".data ++ regTag.data))))))) with hfl
  set tl := "To: \"".data ++ (c.username.data ++ ("\" ".data
    ++ ("<sip:".data ++ (c.username.data ++ ("@".data
    ++ (c.server.data ++ ">".data)))))) with htl
  set cidl := "Call-ID: ".data ++ callId.data with hcidl
  set cql := "CSeq: ".data ++ (cseqS.data ++ " REGISTER".data) with hcql
  set contl := "Contact: ".data ++ ("<sip:".data ++ (c.get_my_ip.data
    ++ (":".data ++ (c.get_my_port.data ++ (";".data
    ++ ("transport=UDP>;+sip.instance=".data ++ ("\"<urn:uuid:".data
    ++ (c.urnUUID.data ++ ">\"".data)))))))) with hcontl
  set al := ("Allow: " ++ String.intercalate ", " SIPCompatibleMethods).data
    with hal
  set ul := ("User-Agent: pyVoIP " ++ pyVoIPVersion).data with hul
  set expl := "Expires: ".data ++ exp.data with hexpl
  set cll := "Content-Length: 0".data with hcll
  set ls : List Chars :=
    l0 :: [vl, fl, tl, cidl, cql, contl, al, "Max-Forwards: 70".data,
      "Allow-Events: org.3gpp.nwinitdereg".data, ul, expl, cll] with hls
  have hdata : X.data = lineChunks ls ++ crlfL ++ ([] : Chars) := by
    simp only [hX, hls, hl0, hvl, hfl, htl, hcidl, hcql, hcontl, hal, hul,
      hexpl, hcll, String.data_append, crlf_data, lineChunks_cons,
      lineChunks_append, lineChunks, List.map_cons, List.map_nil,
      List.map_append, List.flatten_cons, List.flatten_nil,
      List.flatten_append, crlfL, List.append_assoc, List.append_nil,
      List.nil_append]
  have hok : ∀ l ∈ ls, lineOK l := by
    intro l hl
    rw [hls] at hl
    simp only [List.mem_cons, List.not_mem_nil, or_false] at hl
    rcases hl with rfl | rfl | rfl | rfl | rfl | rfl | rfl | rfl | rfl
      | rfl | rfl | rfl | rfl
    · exact ⟨by simp [hl0], by
        simp only [hl0, okChars_append]
        exact ⟨by decide, hss, by decide⟩⟩
    · exact ⟨by simp [hvl], by
        simp only [hvl, okChars_append]
        exact ⟨by decide, hsmyip, by decide, natRepr_ok _, by decide,
          by decide, hsbr, by decide⟩⟩
    · exact ⟨by simp [hfl], by
        simp only [hfl, okChars_append]
        exact ⟨by decide, hsu, by decide, by decide, hsu, by decide, hss,
          by decide, hsreg⟩⟩
    · exact ⟨by simp [htl], by
        simp only [htl, okChars_append]
        exact ⟨by decide, hsu, by decide, by decide, hsu, by decide, hss,
          by decide⟩⟩
    · exact ⟨by simp [hcidl], by
        simp only [hcidl, okChars_append]
        exact ⟨by decide, hsci⟩⟩
    · exact ⟨by simp [hcql], by
        simp only [hcql, okChars_append]
        exact ⟨by decide, hcs ▸ strOK_intRepr _, by decide⟩⟩
    · exact ⟨by simp [hcontl], by
        simp only [hcontl, okChars_append]
        exact ⟨by decide, by decide, hsip, by decide, hsport, by decide,
          by decide, by decide, hsurn, by decide⟩⟩
    · exact ⟨by decide, by decide⟩
    · exact ⟨by decide, by decide⟩
    · exact ⟨by decide, by decide⟩
    · exact ⟨by decide, by decide⟩
    · exact ⟨by simp [hexpl], by
        simp only [hexpl, okChars_append]
        exact ⟨by decide, hexp ▸ natRepr_ok _⟩⟩
    · exact ⟨by decide, by decide⟩
  have hne : ls ≠ [] := by simp [hls]
  obtain ⟨hparts, hlines, hbody⟩ := msg_extract ls hne hok [] X hdata
  refine ⟨X, _, hresp, hbody, ?_⟩
  have h0 : (("Content-Length" ++ ": ").data).isPrefixOf l0 = false := by
    rw [hl0]
    exact isPrefixOf_lit_append_false _ (by decide) (by decide)
  have h1 : (("Content-Length" ++ ": ").data).isPrefixOf vl = false := by
    rw [hvl]
    exact isPrefixOf_lit_append_false _ (by decide) (by decide)
  have h2 : (("Content-Length" ++ ": ").data).isPrefixOf fl = false := by
    rw [hfl]
    exact isPrefixOf_lit_append_false _ (by decide) (by decide)
  have h3 : (("Content-Length" ++ ": ").data).isPrefixOf tl = false := by
    rw [htl]
    exact isPrefixOf_lit_append_false _ (by decide) (by decide)
  have h4 : (("Content-Length" ++ ": ").data).isPrefixOf cidl = false := by
    rw [hcidl]
    exact isPrefixOf_lit_append_false _ (by decide) (by decide)
  have h5 : (("Content-Length" ++ ": ").data).isPrefixOf cql = false := by
    rw [hcql]
    exact isPrefixOf_lit_append_false _ (by decide) (by decide)
  have h6 : (("Content-Length" ++ ": ").data).isPrefixOf contl = false := by
    rw [hcontl]
    exact isPrefixOf_lit_append_false _ (by decide) (by decide)
  have h7 : (("Content-Length" ++ ": ").data).isPrefixOf al = false := by
    rw [hal]; decide
  have h8 : (("Content-Length" ++ ": ").data).isPrefixOf ul = false := by
    rw [hul]; decide
  have h9 : (("Content-Length" ++ ": ").data).isPrefixOf expl = false := by
    rw [hexpl]
    exact isPrefixOf_lit_append_false _ (by decide) (by decide)
  have h10 : (("Content-Length" ++ ": ").data).isPrefixOf cll = true := by
    rw [hcll]; decide
  have hmf : (("Content-Length" ++ ": ").data).isPrefixOf
      ("Max-Forwards: 70".data) = false := by decide
  have hae : (("Content-Length" ++ ": ").data).isPrefixOf
      ("Allow-Events: org.3gpp.nwinitdereg".data) = false := by decide
  simp only [headerLineVal, hlines, hls, List.find?_cons, h0, h1, h2, h3,
    h4, h5, h6, h7, h8, h9, h10, hmf, hae, Option.map_some]
  rw [hbody, hcll]
  decide

theorem gen_register_content_length {β : Type} (md5 sha256hex : String → String)
    (c : Client) (request : SIPMsg β) (dereg : Bool)
    (regTag realm nonce mth : String) (cseqH : HVal)
    (hrealm : pyDictGet request.authentication "realm" = .ok realm)
    (hcseq : request.hget "CSeq" = .ok cseqH)
    (hmth : cseqH.item "method" = .ok mth)
    (hnonce : pyDictGet request.authentication "nonce" = .ok nonce)
    (hreg : pyDictGet c.tagLibrary "register" = .ok regTag)
    (hsreg : strOK regTag) (hsu : strOK c.username)
    (hss : strOK c.server) (hsmyip : strOK c.myIP)
    (hsip : strOK c.get_my_ip) (hsport : strOK c.get_my_port)
    (hsurn : strOK c.urnUUID) (hsr : strOK realm) (hsn : strOK nonce)
    (hmd5 : ∀ t, strOK (md5 t))
    (hseed : strOK (c.branchSeeds c.branchIdx))
    (hsha : strOK (sha256hex (toString c.callID.x))) :
    ∃ resp c2, gen_register md5 sha256hex c request dereg = .ok (resp, c2)
      ∧ bodySection resp = []
      ∧ headerLineVal "Content-Length" resp
          = some (Nat.repr (byteLength (String.mk (bodySection resp)))).data := by
  set authResp := md5 (md5 (c.username ++ ":" ++ realm ++ ":" ++ c.password)
    ++ ":" ++ nonce ++ ":"
    ++ md5 ("" ++ mth ++ ":sip:" ++ c.server ++ ";transport=UDP")) with hAR
  set branch := "z9hG4bK"
    ++ String.mk ((c.branchSeeds c.branchIdx).data.take 25) with hbr
  set callId := String.mk ((sha256hex (toString c.callID.x)).data.take 32)
    ++ "@" ++ c.myIP ++ ":" ++ Nat.repr c.myPort with hci
  set cseqS := toString c.registerCounter.x with hcs
  set exp := Nat.repr (if !dereg then c.default_expires else 0) with hexp
  set X : String := "REGISTER sip:" ++ c.server ++ " SIP/2.0" ++ "\r\n"
    ++ "Via: SIP/2.0/UDP " ++ c.myIP ++ ":" ++ Nat.repr c.myPort
      ++ ";branch=" ++ branch ++ ";rport" ++ "\r\n"
    ++ "From: \"" ++ c.username ++ "\" "
      ++ "<sip:" ++ c.username ++ "@" ++ c.server ++ ">;tag=" ++ regTag ++ "\r\n"
    ++ "To: \"" ++ c.username ++ "\" "
      ++ "<sip:" ++ c.username ++ "@" ++ c.server ++ ">" ++ "\r\n"
    ++ "Call-ID: " ++ callId ++ "\r\n"
    ++ "CSeq: " ++ cseqS ++ " REGISTER" ++ "\r\n"
    ++ "Contact: "
      ++ "<sip:" ++ c.username ++ "@" ++ c.get_my_ip ++ ":" ++ c.get_my_port
      ++ ";transport=UDP>;+sip.instance="
      ++ "\"<urn:uuid:" ++ c.urnUUID ++ ">\"" ++ "\r\n"
    ++ "Allow: " ++ String.intercalate ", " SIPCompatibleMethods ++ "\r\n"
    ++ "Max-Forwards: 70" ++ "\r\n"
    ++ "Allow-Events: org.3gpp.nwinitdereg" ++ "\r\n"
    ++ "User-Agent: pyVoIP " ++ pyVoIPVersion ++ "\r\n"
    ++ "Expires: " ++ exp ++ "\r\n"
    ++ "Authorization: Digest username=\"" ++ c.username ++ "\","
      ++ "realm=\"" ++ realm ++ "\",nonce=\"" ++ nonce ++ "\","
      ++ "uri=\"sip:" ++ c.server ++ ";transport=UDP\","
      ++ "response=\"" ++ authResp ++ "\",algorithm=MD5" ++ "\r\n"
    ++ "Content-Length: 0"
    ++ "\r\n" ++ "\r\n" with hX
  have hresp : gen_register md5 sha256hex c request dereg = .ok (X,
      { c with branchIdx := c.branchIdx + 1,
               callID := ⟨c.callID.x + 1⟩,
               registerCounter := ⟨c.registerCounter.x + 1⟩ }) := by
    simp [gen_register, gen_authorization, gen_branch, gen_call_id,
      Counter.next, Counter.count, hrealm, hcseq, hmth, hnonce, hreg,
      hAR, hbr, hci, hcs, hexp, hX, Client.get_my_ip, Client.get_my_port,
      bind, Except.bind, Functor.map, Except.map, pure, Except.pure]
  have hsbr : strOK branch := by
    rw [hbr]
    exact strOK_append (by decide) (strOK_mk_take _ hseed)
  have hsci : strOK callId := by
    rw [hci]
    exact strOK_append (strOK_append (strOK_append (strOK_append
      (strOK_mk_take 32 hsha) (by decide)) hsmyip) (by decide))
      (strOK_natRepr _)
  have hsar : strOK authResp := by
    rw [hAR]
    exact hmd5 _
  set l0 := "REGISTER sip:".data ++ (c.server.data ++ " SIP/2.0".data)
    with hl0
  set vl := "Via: SIP/2.0/UDP ".data ++ (c.myIP.data ++ (":".data
    ++ ((Nat.repr c.myPort).data ++ (";branch=".data
    ++ (branch.data ++ ";rport".data))))) with hvl
  set fl := "From: \"".data ++ (c.username.data ++ ("\" ".data
    ++ ("<sip:".data ++ (c.username.data ++ ("@".data
    ++ (c.server.data ++ (">;tag=".data ++ regTag.data))))))) with hfl
  set tl := "To: \"".data ++ (c.username.data ++ ("\" ".data
    ++ ("<sip:".data ++ (c.username.data ++ ("@".data
    ++ (c.server.data ++ ">".data)))))) with htl
  set cidl := "Call-ID: ".data ++ callId.data with hcidl
  set cql := "CSeq: ".data ++ (cseqS.data ++ " REGISTER".data) with hcql
  set contl := "Contact: ".data ++ ("<sip:".data ++ (c.username.data
    ++ ("@".data ++ (c.get_my_ip.data ++ (":".data
    ++ (c.get_my_port.data ++ (";transport=UDP>;+sip.instance=".data
    ++ ("\"<urn:uuid:".data ++ (c.urnUUID.data ++ ">\"".data)))))))))
    with hcontl
  set al := ("Allow: " ++ String.intercalate ", " SIPCompatibleMethods).data
    with hal
  set ul := ("User-Agent: pyVoIP " ++ pyVoIPVersion).data with hul
  set expl := "Expires: ".data ++ exp.data with hexpl
  set authl := "Authorization: Digest username=\"".data ++ (c.username.data
    ++ ("\",".data ++ ("realm=\"".data ++ (realm.data
    ++ ("\",nonce=\"".data ++ (nonce.data ++ ("\",".data
    ++ ("uri=\"sip:".data ++ (c.server.data ++ (";transport=UDP\",".data
    ++ ("response=\"".data ++ (authResp.data
    ++ "\",algorithm=MD5".data)))))))))))) with hauthl
  set cll := "Content-Length: 0".data with hcll
  set ls : List Chars :=
    l0 :: [vl, fl, tl, cidl, cql, contl, al, "Max-Forwards: 70".data,
      "Allow-Events: org.3gpp.nwinitdereg".data, ul, expl, authl, cll]
    with hls
  have hdata : X.data = lineChunks ls ++ crlfL ++ ([] : Chars) := by
    simp only [hX, hls, hl0, hvl, hfl, htl, hcidl, hcql, hcontl, hal, hul,
      hexpl, hauthl, hcll, String.data_append, crlf_data, lineChunks_cons,
      lineChunks_append, lineChunks, List.map_cons, List.map_nil,
      List.map_append, List.flatten_cons, List.flatten_nil,
      List.flatten_append, crlfL, List.append_assoc, List.append_nil,
      List.nil_append]
  have hok : ∀ l ∈ ls, lineOK l := by
    intro l hl
    rw [hls] at hl
    simp only [List.mem_cons, List.not_mem_nil, or_false] at hl
    rcases hl with rfl | rfl | rfl | rfl | rfl | rfl | rfl | rfl | rfl
      | rfl | rfl | rfl | rfl | rfl
    · exact ⟨by simp [hl0], by
        simp only [hl0, okChars_append]
        exact ⟨by decide, hss, by decide⟩⟩
    · exact ⟨by simp [hvl], by
        simp only [hvl, okChars_append]
        exact ⟨by decide, hsmyip, by decide, natRepr_ok _, by decide,
          hsbr, by decide⟩⟩
    · exact ⟨by simp [hfl], by
        simp only [hfl, okChars_append]
        exact ⟨by decide, hsu, by decide, by decide, hsu, by decide, hss,
          by decide, hsreg⟩⟩
    · exact ⟨by simp [htl], by
        simp only [htl, okChars_append]
        exact ⟨by decide, hsu, by decide, by decide, hsu, by decide, hss,
          by decide⟩⟩
    · exact ⟨by simp [hcidl], by
        simp only [hcidl, okChars_append]
        exact ⟨by decide, hsci⟩⟩
    · exact ⟨by simp [hcql], by
        simp only [hcql, okChars_append]
        exact ⟨by decide, hcs ▸ strOK_intRepr _, by decide⟩⟩
    · exact ⟨by simp [hcontl], by
        simp only [hcontl, okChars_append]
        exact ⟨by decide, by decide, hsu, by decide, hsip, by decide,
          hsport, by decide, by decide, hsurn, by decide⟩⟩
    · exact ⟨by decide, by decide⟩
    · exact ⟨by decide, by decide⟩
    · exact ⟨by decide, by decide⟩
    · exact ⟨by decide, by decide⟩
    · exact ⟨by simp [hexpl], by
        simp only [hexpl, okChars_append]
        exact ⟨by decide, hexp ▸ natRepr_ok _⟩⟩
    · exact ⟨by simp [hauthl], by
        simp only [hauthl, okChars_append]
        exact ⟨by decide, hsu, by decide, by decide, hsr, by decide, hsn,
          by decide, by decide, hss, by decide, by decide, hsar,
          by decide⟩⟩
    · exact ⟨by decide, by decide⟩
  have hne : ls ≠ [] := by simp [hls]
  obtain ⟨hparts, hlines, hbody⟩ := msg_extract ls hne hok [] X hdata
  refine ⟨X, _, hresp, hbody, ?_⟩
  have h0 : (("Content-Length" ++ ": ").data).isPrefixOf l0 = false := by
    rw [hl0]
    exact isPrefixOf_lit_append_false _ (by decide) (by decide)
  have h1 : (("Content-Length" ++ ": ").data).isPrefixOf vl = false := by
    rw [hvl]
    exact isPrefixOf_lit_append_false _ (by decide) (by decide)
  have h2 : (("Content-Length" ++ ": ").data).isPrefixOf fl = false := by
    rw [hfl]
    exact isPrefixOf_lit_append_false _ (by decide) (by decide)
  have h3 : (("Content-Length" ++ ": ").data).isPrefixOf tl = false := by
    rw [htl]
    exact isPrefixOf_lit_append_false _ (by decide) (by decide)
  have h4 : (("Content-Length" ++ ": ").data).isPrefixOf cidl = false := by
    rw [hcidl]
    exact isPrefixOf_lit_append_false _ (by decide) (by decide)
  have h5 : (("Content-Length" ++ ": ").data).isPrefixOf cql = false := by
    rw [hcql]
    exact isPrefixOf_lit_append_false _ (by decide) (by decide)
  have h6 : (("Content-Length" ++ ": ").data).isPrefixOf contl = false := by
    rw [hcontl]
    exact isPrefixOf_lit_append_false _ (by decide) (by decide)
  have h7 : (("Content-Length" ++ ": ").data).isPrefixOf al = false := by
    rw [hal]; decide
  have h8 : (("Content-Length" ++ ": ").data).isPrefixOf ul = false := by
    rw [hul]; decide
  have h9 : (("Content-Length" ++ ": ").data).isPrefixOf expl = false := by
    rw [hexpl]
    exact isPrefixOf_lit_append_false _ (by decide) (by decide)
  have h9b : (("Content-Length" ++ ": ").data).isPrefixOf authl = false := by
    rw [hauthl]
    exact isPrefixOf_lit_append_false _ (by decide) (by decide)
  have h10 : (("Content-Length" ++ ": ").data).isPrefixOf cll = true := by
    rw [hcll]; decide
  have hmf : (("Content-Length" ++ ": ").data).isPrefixOf
      ("Max-Forwards: 70".data) = false := by decide
  have hae : (("Content-Length" ++ ": ").data).isPrefixOf
      ("Allow-Events: org.3gpp.nwinitdereg".data) = false := by decide
  simp only [headerLineVal, hlines, hls, List.find?_cons, h0, h1, h2, h3,
    h4, h5, h6, h7, h8, h9, h9b, h10, hmf, hae, Option.map_some]
  rw [hbody, hcll]
  decide

theorem mk_data_eq (s : String) : String.mk s.data = s := rfl

theorem gen_invite_content_length (c ct : Client)
    (number sess_id sendtype branch call_id tag : String) (ms : MsMap)
    (body : String)
    (hbody : invite_body c sess_id ms sendtype = .ok body)
    (htag : gen_tag c = .ok (tag, ct))
    (hB : byteLength body = body.length)
    (hsn : strOK number) (hss : strOK ct.server) (hsu : strOK ct.username)
    (hsmyip : strOK ct.myIP) (hsip : strOK ct.get_my_ip)
    (hsport : strOK ct.get_my_port) (hsbr : strOK branch)
    (hscid : strOK call_id) (hstag : strOK tag) :
    ∃ resp c2, gen_invite c number sess_id ms sendtype branch call_id
        = .ok (resp, c2)
      ∧ bodySection resp = body.data
      ∧ headerLineVal "Content-Length" resp
          = some (Nat.repr (byteLength (String.mk (bodySection resp)))).data := by
  set cseqS := toString ct.inviteCounter.x with hcs
  set X : String := "INVITE sip:" ++ number ++ "@" ++ ct.server
      ++ " SIP/2.0" ++ "\r\n"
    ++ "Via: SIP/2.0/UDP " ++ ct.myIP ++ ":" ++ Nat.repr ct.myPort
      ++ ";branch=" ++ branch ++ "\r\n"
    ++ "Max-Forwards: 70" ++ "\r\n"
    ++ "Contact: "
      ++ "<sip:" ++ ct.username ++ "@" ++ ct.get_my_ip ++ ":"
      ++ ct.get_my_port ++ ">" ++ "\r\n"
    ++ "To: <sip:" ++ number ++ "@" ++ ct.server ++ ">" ++ "\r\n"
    ++ "From: <sip:" ++ ct.username ++ "@" ++ ct.myIP ++ ">;tag=" ++ tag
      ++ "\r\n"
    ++ "Call-ID: " ++ call_id ++ "\r\n"
    ++ "CSeq: " ++ cseqS ++ " INVITE" ++ "\r\n"
    ++ "Allow: " ++ String.intercalate ", " SIPCompatibleMethods ++ "\r\n"
    ++ "Content-Type: application/sdp" ++ "\r\n"
    ++ "User-Agent: pyVoIP " ++ pyVoIPVersion ++ "\r\n"
    ++ "Content-Length: " ++ toString body.length ++ "\r\n" ++ "\r\n"
    ++ body with hX
  have hresp : gen_invite c number sess_id ms sendtype branch call_id
      = .ok (X, { ct with
          tagLibrary := pyDictSet ct.tagLibrary call_id tag,
          inviteCounter := ⟨ct.inviteCounter.x + 1⟩ }) := by
    simp [gen_invite, hbody, htag, Counter.next, Counter.count, hcs, hX,
      Client.get_my_ip, Client.get_my_port,
      bind, Except.bind, Functor.map, Except.map, pure, Except.pure]
  set l0 := "INVITE sip:".data ++ (number.data ++ ("@".data
    ++ (ct.server.data ++ " SIP/2.0".data))) with hl0
  set vl := "Via: SIP/2.0/UDP ".data ++ (ct.myIP.data ++ (":".data
    ++ ((Nat.repr ct.myPort).data ++ (";branch=".data ++ branch.data))))
    with hvl
  set contl := "Contact: ".data ++ ("<sip:".data ++ (ct.username.data
    ++ ("@".data ++ (ct.get_my_ip.data ++ (":".data
    ++ (ct.get_my_port.data ++ ">".data)))))) with hcontl
  set tol := "To: <sip:".data ++ (number.data ++ ("@".data
    ++ (ct.server.data ++ ">".data))) with htol
  set froml := "From: <sip:".data ++ (ct.username.data ++ ("@".data
    ++ (ct.myIP.data ++ (">;tag=".data ++ tag.data)))) with hfroml
  set cidl := "Call-ID: ".data ++ call_id.data with hcidl
  set cql := "CSeq: ".data ++ (cseqS.data ++ " INVITE".data) with hcql
  set al := ("Allow: " ++ String.intercalate ", " SIPCompatibleMethods).data
    with hal
  set ul := ("User-Agent: pyVoIP " ++ pyVoIPVersion).data with hul
  set cll := "Content-Length: ".data ++ (toString body.length).data
    with hcll
  set ls : List Chars :=
    l0 :: [vl, "Max-Forwards: 70".data, contl, tol, froml, cidl, cql,
      al, "Content-Type: application/sdp".data, ul, cll] with hls
  have hdata : X.data = lineChunks ls ++ crlfL ++ body.data := by
    simp only [hX, hls, hl0, hvl, hcontl, htol, hfroml, hcidl, hcql, hal,
      hul, hcll, String.data_append, crlf_data, lineChunks_cons,
      lineChunks_append, lineChunks, List.map_cons, List.map_nil,
      List.map_append, List.flatten_cons, List.flatten_nil,
      List.flatten_append, crlfL, List.append_assoc, List.append_nil,
      List.nil_append]
  have hok : ∀ l ∈ ls, lineOK l := by
    intro l hl
    rw [hls] at hl
    simp only [List.mem_cons, List.not_mem_nil, or_false] at hl
    rcases hl with rfl | rfl | rfl | rfl | rfl | rfl | rfl | rfl | rfl
      | rfl | rfl | rfl
    · exact ⟨by simp [hl0], by
        simp only [hl0, okChars_append]
        exact ⟨by decide, hsn, by decide, hss, by decide⟩⟩
    · exact ⟨by simp [hvl], by
        simp only [hvl, okChars_append]
        exact ⟨by decide, hsmyip, by decide, natRepr_ok _, by decide,
          hsbr⟩⟩
    · exact ⟨by decide, by decide⟩
    · exact ⟨by simp [hcontl], by
        simp only [hcontl, okChars_append]
        exact ⟨by decide, by decide, hsu, by decide, hsip, by decide,
          hsport, by decide⟩⟩
    · exact ⟨by simp [htol], by
        simp only [htol, okChars_append]
        exact ⟨by decide, hsn, by decide, hss, by decide⟩⟩
    · exact ⟨by simp [hfroml], by
        simp only [hfroml, okChars_append]
        exact ⟨by decide, hsu, by decide, hsmyip, by decide, hstag⟩⟩
    · exact ⟨by simp [hcidl], by
        simp only [hcidl, okChars_append]
        exact ⟨by decide, hscid⟩⟩
    · exact ⟨by simp [hcql], by
        simp only [hcql, okChars_append]
        exact ⟨by decide, hcs ▸ strOK_intRepr _, by decide⟩⟩
    · exact ⟨by decide, by decide⟩
    · exact ⟨by decide, by decide⟩
    · exact ⟨by decide, by decide⟩
    · exact ⟨by simp [hcll], by
        simp only [hcll, okChars_append]
        exact ⟨by decide, natRepr_ok body.length⟩⟩
  have hne : ls ≠ [] := by simp [hls]
  obtain ⟨hparts, hlines, hbodyS⟩ := msg_extract ls hne hok body.data X hdata
  refine ⟨X, _, hresp, hbodyS, ?_⟩
  have hlit : ("Content-Length" ++ ": ").data = "Content-Length: ".data := by
    decide
  have h0 : (("Content-Length" ++ ": ").data).isPrefixOf l0 = false := by
    rw [hl0]
    exact isPrefixOf_lit_append_false _ (by decide) (by decide)
  have h1 : (("Content-Length" ++ ": ").data).isPrefixOf vl = false := by
    rw [hvl]
    exact isPrefixOf_lit_append_false _ (by decide) (by decide)
  have h2 : (("Content-Length" ++ ": ").data).isPrefixOf contl = false := by
    rw [hcontl]
    exact isPrefixOf_lit_append_false _ (by decide) (by decide)
  have h3 : (("Content-Length" ++ ": ").data).isPrefixOf tol = false := by
    rw [htol]
    exact isPrefixOf_lit_append_false _ (by decide) (by decide)
  have h4 : (("Content-Length" ++ ": ").data).isPrefixOf froml = false := by
    rw [hfroml]
    exact isPrefixOf_lit_append_false _ (by decide) (by decide)
  have h5 : (("Content-Length" ++ ": ").data).isPrefixOf cidl = false := by
    rw [hcidl]
    exact isPrefixOf_lit_append_false _ (by decide) (by decide)
  have h6 : (("Content-Length" ++ ": ").data).isPrefixOf cql = false := by
    rw [hcql]
    exact isPrefixOf_lit_append_false _ (by decide) (by decide)
  have h7 : (("Content-Length" ++ ": ").data).isPrefixOf al = false := by
    rw [hal]; decide
  have h8 : (("Content-Length" ++ ": ").data).isPrefixOf ul = false := by
    rw [hul]; decide
  have hmf : (("Content-Length" ++ ": ").data).isPrefixOf
      ("Max-Forwards: 70".data) = false := by decide
  have hct : (("Content-Length" ++ ": ").data).isPrefixOf
      ("Content-Type: application/sdp".data) = false := by decide
  have h10 : (("Content-Length" ++ ": ").data).isPrefixOf cll = true := by
    rw [hcll, hlit]
    exact isPrefixOf_append_self _ _
  simp only [headerLineVal, hlines, hls, List.find?_cons, h0, h1, h2, h3,
    h4, h5, h6, h7, h8, hmf, hct, h10, Option.map_some]
  rw [hbodyS, mk_data_eq, hB, hcll, hlit]
  rw [show Option.map (fun l => List.drop "Content-Length: ".data.length l)
      (some ("Content-Length: ".data ++ (toString body.length).data))
    = some (("Content-Length: ".data
        ++ (toString body.length).data).drop "Content-Length: ".data.length)
    from rfl, drop_lit_append]
  rfl

/-- Extensionality for the shallow string type: equal character data,
equal strings. -/
theorem string_ext {a b : String} (h : a.data = b.data) : a = b := by
  cases a; cases b; exact congrArg String.mk h

/-- C10: immediately after gen_call_id, gen_last_call_id (with the local
IP and port unchanged, as recorded in the returned client) renders the
hash of `current - 1 = the value just consumed` and so returns exactly
the Call-ID that gen_call_id issued. -/
theorem last_call_id_roundtrip (sha256hex : String → String) (c : Client) :
    gen_last_call_id sha256hex (gen_call_id sha256hex c).2
      = (gen_call_id sha256hex c).1 := by
  simp [gen_call_id, gen_last_call_id, Counter.next, Counter.count,
    Counter.current, Int.add_sub_cancel]

/-- The digest composition exactly as the specification words it:
MD5(MD5(user:realm:password) ":" nonce ":" MD5(method:uri)) with the
target URI `sip:<server>;transport=UDP`, in lowercase hex (the `md5`
parameter abstracts the external hashlib lowercase hexdigest). -/
def authorization_digest_spec (md5 : String → String)
    (username password server realm nonce mth : String) : String :=
  let uri := "sip:" ++ server ++ ";transport=UDP"
  let HA1 := md5 (username ++ ":" ++ realm ++ ":" ++ password)
  let HA2 := md5 (mth ++ ":" ++ uri)
  md5 (HA1 ++ ":" ++ nonce ++ ":" ++ HA2)

/-- C6: for every challenge carrying realm and nonce and every request
method, SIPClient.gen_authorization returns exactly the specification's
digest composition. -/
theorem gen_authorization_digest (md5 : String → String) (c : Client)
    {β : Type} (request : SIPMsg β) (realm nonce mth : String)
    (cseqH : HVal)
    (hrealm : pyDictGet request.authentication "realm" = .ok realm)
    (hnonce : pyDictGet request.authentication "nonce" = .ok nonce)
    (hcseq : request.hget "CSeq" = .ok cseqH)
    (hmth : cseqH.item "method" = .ok mth) :
    gen_authorization md5 c request
      = .ok (authorization_digest_spec md5 c.username c.password c.server
          realm nonce mth) := by
  have h2 : (mth ++ ":sip:" ++ c.server ++ ";transport=UDP")
      = (mth ++ ":" ++ ("sip:" ++ c.server ++ ";transport=UDP")) := by
    apply string_ext
    simp only [String.data_append, List.append_assoc]
    rfl
  simp [gen_authorization, authorization_digest_spec, hrealm, hnonce,
    hcseq, hmth, bind, Except.bind, pure, Except.pure]
  rw [h2]

/-- A concrete client used by the witness theorems. -/
def cEx : Client :=
  { NSD := true, use_keep_alive := false, server := "sv", port := 5060,
    myIP := "ip", my_public_ip := none, proxy := none, username := "u",
    password := "pw", callCallback := false, tags := [],
    tagLibrary := [("register", "rt")], myPort := 5060,
    my_public_port := none, default_expires := 120,
    register_timeout := 4, inviteCounter := { x := 1 },
    registerCounter := { x := 1 }, subscribeCounter := { x := 1 },
    byeCounter := { x := 1 }, callID := { x := 0 }, sessID := { x := 0 },
    urnUUID := "uu", registerThread := false,
    tagCands := ["tagA", "tagB"],
    branchSeeds := fun _ => "0123456789abcdef0123456789abcdef",
    branchIdx := 0 }

/-- A concrete hexdigest stand-in for the witnesses. -/
def mdEx : String → String := fun s => "(" ++ s ++ ")"

/-- A concrete parsed 401 challenge used by the C6 witness. -/
def reqC6 : SIPMsg Unit :=
  { mtype := .response, status := 401, version := "SIP/2.0",
    method := none, headers := [("CSeq", HVal.cseq "1" "REGISTER")],
    authentication := [("realm", "asterisk"), ("nonce", "n1")],
    body := none, raw := "" }

theorem gen_authorization_digest_witness :
    gen_authorization mdEx cEx reqC6
      = .ok (authorization_digest_spec mdEx "u" "pw" "sv" "asterisk" "n1"
          "REGISTER") :=
  gen_authorization_digest mdEx cEx reqC6 "asterisk" "n1" "REGISTER"
    (HVal.cseq "1" "REGISTER") rfl rfl rfl rfl

/-- C4: the codec does not tolerate a missing or repeated CRLFCRLF.  The
`try/except ValueError` around the first unpack in SIPMessage.parse only
postpones the error: parse_sip_response / parse_sip_message re-split the
datagram and unpack `headers, body = ...` unguarded, so a datagram with
no CRLFCRLF at all (one split part) raises ValueError instead of parsing
headers-only, and a datagram whose body contains a further CRLFCRLF
(three split parts) raises ValueError instead of keeping the remainder
as body.  Both failures hold for every body evaluator. -/
theorem parse_crlfcrlf_value_errors
    (bodyEval : String → List (String × HVal) → Except PyErr Unit) :
    SIPMessage_parse bodyEval "SIP/2.0 200 OK" = .error .valueError
    ∧ SIPMessage_parse bodyEval
        ("INVITE sip:a SIP/2.0\r\nVia: x\r\n\r\nv=0\r\n\r\nm")
        = .error .valueError := by
  exact ⟨rfl, rfl⟩

/-- C2: a datagram with an incompatible SIP version raises SIPParseError
whose text contains "SIP Version", but the receive loop's inner
`except Exception` swallows it before the outer SIPParseError handler
that would send the 505, so the iteration only logs the error and sends
nothing, for every client state, via predicate and body evaluator. -/
theorem recv_sip_version_swallowed (v6 : String → Bool)
    (bodyEval : String → List (String × HVal) → Except PyErr Unit)
    (c : Client) :
    SIPMessage_parse bodyEval
        "INVITE sip:bob@x SIP/3.0\r\nVia: SIP/2.0/UDP h\r\n\r\n"
      = .error (.sipParse "SIP Version SIP/3.0 not compatible.")
    ∧ pyContains "SIP Version SIP/3.0 not compatible." "SIP Version" = true
    ∧ recv_iteration v6 bodyEval c
        "INVITE sip:bob@x SIP/3.0\r\nVia: SIP/2.0/UDP h\r\n\r\n"
      = .innerLogged (.sipParse "SIP Version SIP/3.0 not compatible.")
    ∧ (recv_iteration v6 bodyEval c
        "INVITE sip:bob@x SIP/3.0\r\nVia: SIP/2.0/UDP h\r\n\r\n").sentMessages
      = [] := by
  refine ⟨rfl, by decide, rfl, rfl⟩

/-- An always-IPv4 stand-in for netaddr.valid_ipv6 in the witnesses. -/
def v6Ex : String → Bool := fun _ => false

/-- A body evaluator that accepts every body, used by the witnesses. -/
def beEx : String → List (String × HVal) → Except PyErr Unit :=
  fun _ _ => .ok ()

/-- A one-codec media map for the concrete INVITE scenarios. -/
def msEx : MsMap := [("5004", [("0", { name := "PCMU", rate := "8000" })])]

/-- A 180 Ringing reply carrying the Call-ID that `invite` on cEx
generates. -/
def dg180 : String := "SIP/2.0 180 Ringing\r\nCall-ID: (1)@ip:5060\r\n\r\n"

set_option maxRecDepth 200000 in
/-- C3: the lock discipline is violated on concrete runs.  register and
deregister hit their select timeout after sending the first REGISTER and
raise TimeoutError with the receive lock still held; invite receives a
matching 180 Ringing, returns its value normally - and also leaves the
lock held, because the 100/180 return path precedes the release. -/
theorem lock_held_on_exit_paths :
    ((register mdEx mdEx v6Ex beEx 1 cEx [NetEv.timeout] []).res
        = .error .timeoutError
      ∧ (register mdEx mdEx v6Ex beEx 1 cEx [NetEv.timeout] []).lock = true)
    ∧ ((deregister mdEx mdEx v6Ex beEx 1 cEx [NetEv.timeout] []).res
        = .error .timeoutError
      ∧ (deregister mdEx mdEx v6Ex beEx 1 cEx [NetEv.timeout] []).lock
        = true)
    ∧ ((invite mdEx mdEx v6Ex beEx 2 cEx "100" msEx "audio"
          [NetEv.dgram dg180]).res.toOption.isSome = true
      ∧ (invite mdEx mdEx v6Ex beEx 2 cEx "100" msEx "audio"
          [NetEv.dgram dg180]).lock = true) := by
  decide

/-- A serialised via line never matches a probe for another header: the
probe neither starts with "Via: " nor is a prefix of it. -/
theorem via_line_not_pref {p l : Chars}
    (h : ("Via: ".data).isPrefixOf l = true)
    (h1 : p.isPrefixOf ("Via: ".data) = false)
    (h2 : ("Via: ".data).isPrefixOf p = false) :
    p.isPrefixOf l = false := by
  have hd := eq_append_drop_of_isPrefixOf _ _ h
  rw [hd]
  exact isPrefixOf_lit_append_false _ h1 h2

/-- C8: for every inbound NOTIFY handled by gen_notify, the reply's
status line is `SIP/2.0 200 OK`, its Event header is exactly the
request's Event value, its CSeq number is the request's CSeq number plus
one with the method echoed, and when the event is keep-alive the
returned client has the keep-alive flag set, so check_for_new_register
skips every subsequent refresh-timer re-REGISTER. -/
theorem gen_notify_echoes_event {β : Type} (v6 : String → Bool)
    (c : Client) (request : SIPMsg β) (viaStr : String) (vls : List Chars)
    (toH fromH cseqH callId ev : HVal)
    (toRaw toTag fromRaw fromTag check mth : String) (n : Int)
    (hvia : gen_response_via_header v6 request = .ok viaStr)
    (hviaOK : viaOutOK viaStr vls)
    (hto : request.hget "To" = .ok toH)
    (htoraw : toH.item "raw" = .ok toRaw)
    (htotag : toH.item "tag" = .ok toTag)
    (hfrom : request.hget "From" = .ok fromH)
    (hfromraw : fromH.item "raw" = .ok fromRaw)
    (hfromtag : fromH.item "tag" = .ok fromTag)
    (hcid : request.hget "Call-ID" = .ok callId)
    (hcseq : request.hget "CSeq" = .ok cseqH)
    (hcheck : cseqH.item "check" = .ok check)
    (hmth : cseqH.item "method" = .ok mth)
    (hn : pyInt? check = some n)
    (hev : request.hget "Event" = .ok ev)
    (hs1 : strOK toRaw) (hs2 : strOK toTag) (hs3 : strOK fromRaw)
    (hs4 : strOK fromTag) (hs5 : strOK callId.render) (hs6 : strOK mth)
    (hs7 : strOK ev.render) :
    ∃ resp c2, gen_notify v6 c request = .ok (resp, c2)
      ∧ (msgLines resp).headD [] = "SIP/2.0 200 OK".data
      ∧ headerLineVal "Event" resp = some (ev.render).data
      ∧ headerLineVal "CSeq" resp
          = some ((toString (n + 1)).data ++ (" ".data ++ mth.data))
      ∧ (ev = HVal.str "keep-alive" →
          c2.use_keep_alive = true ∧ check_for_new_register c2 = .skip) := by
  set c2v : Client := if ev = HVal.str "keep-alive" then
      { c with use_keep_alive := true } else c with hc2v
  set X : String := "SIP/2.0 200 OK" ++ "\r\n"
      ++ viaStr
      ++ "To: " ++ toRaw ++ ";tag=" ++ toTag ++ "\r\n"
      ++ "From: " ++ fromRaw ++ ";tag=" ++ fromTag ++ "\r\n"
      ++ "Call-ID: " ++ callId.render ++ "\r\n"
      ++ "CSeq: " ++ toString (n + 1) ++ " " ++ mth ++ "\r\n"
      ++ "Event: " ++ ev.render ++ "\r\n"
      ++ "Content-Length: 0" ++ "\r\n" ++ "\r\n" with hX
  have hresp : gen_notify v6 c request = .ok (X, c2v) := by
    simp [gen_notify, hvia, hto, htoraw, htotag, hfrom, hfromraw,
      hfromtag, hcid, hcseq, hcheck, hmth, hn, hev, hX, hc2v,
      bind, Except.bind, Functor.map, Except.map, pure, Except.pure]
  set tl := "To: ".data ++ (toRaw.data ++ (";tag=".data ++ toTag.data))
    with htl
  set fl := "From: ".data ++ (fromRaw.data ++ (";tag=".data
    ++ fromTag.data)) with hfl
  set cidl := "Call-ID: ".data ++ callId.render.data with hcidl
  set cql := "CSeq: ".data ++ ((toString (n + 1)).data ++ (" ".data
    ++ mth.data)) with hcql
  set el := "Event: ".data ++ (ev.render).data with hel
  set cll := "Content-Length: 0".data with hcll
  set ls : List Chars :=
    "SIP/2.0 200 OK".data :: vls ++ [tl, fl, cidl, cql, el, cll] with hls
  have hdata : X.data = lineChunks ls ++ crlfL ++ ([] : Chars) := by
    simp only [hX, hls, htl, hfl, hcidl, hcql, hel, hcll,
      String.data_append, crlf_data, lineChunks_cons, lineChunks_append,
      lineChunks, List.map_cons, List.map_nil, List.map_append,
      List.flatten_cons, List.flatten_nil, List.flatten_append,
      hviaOK.1, crlfL, List.append_assoc, List.append_nil,
      List.nil_append]
  have hok : ∀ l ∈ ls, lineOK l := by
    intro l hl
    rw [hls] at hl
    simp only [List.mem_cons, List.mem_append] at hl
    rcases hl with (rfl | hl) | hl
    · exact ⟨by decide, by decide⟩
    · exact (hviaOK.2 l hl).1
    · simp only [List.mem_cons, List.not_mem_nil, or_false] at hl
      rcases hl with rfl | rfl | rfl | rfl | rfl | rfl
      · exact ⟨by simp [htl], by
          simp only [htl, okChars_append]
          exact ⟨by decide, hs1, by decide, hs2⟩⟩
      · exact ⟨by simp [hfl], by
          simp only [hfl, okChars_append]
          exact ⟨by decide, hs3, by decide, hs4⟩⟩
      · exact ⟨by simp [hcidl], by
          simp only [hcidl, okChars_append]
          exact ⟨by decide, hs5⟩⟩
      · exact ⟨by simp [hcql], by
          simp only [hcql, okChars_append]
          exact ⟨by decide, intRepr_ok (n + 1), by decide, hs6⟩⟩
      · exact ⟨by simp [hel], by
          simp only [hel, okChars_append]
          exact ⟨by decide, hs7⟩⟩
      · exact ⟨by decide, by decide⟩
  have hne : ls ≠ [] := by simp [hls]
  obtain ⟨hparts, hlines, hbody⟩ := msg_extract ls hne hok [] X hdata
  refine ⟨X, c2v, hresp, ?_, ?_, ?_, ?_⟩
  · rw [hlines, hls]
    rfl
  · have hv : vls.find? (fun l => (("Event" ++ ": ").data).isPrefixOf l)
        = none := by
      apply List.find?_eq_none.mpr
      intro l hl
      show ¬ ((("Event" ++ ": ").data).isPrefixOf l = true)
      rw [via_line_not_pref (p := ("Event" ++ ": ").data)
        (hviaOK.2 l hl).2 (by decide) (by decide)]
      decide
    have h1 : (("Event" ++ ": ").data).isPrefixOf
        ("SIP/2.0 200 OK".data) = false := by decide
    have h2 : (("Event" ++ ": ").data).isPrefixOf tl = false := by
      rw [htl]
      exact isPrefixOf_lit_append_false _ (by decide) (by decide)
    have h3 : (("Event" ++ ": ").data).isPrefixOf fl = false := by
      rw [hfl]
      exact isPrefixOf_lit_append_false _ (by decide) (by decide)
    have h4 : (("Event" ++ ": ").data).isPrefixOf cidl = false := by
      rw [hcidl]
      exact isPrefixOf_lit_append_false _ (by decide) (by decide)
    have h5 : (("Event" ++ ": ").data).isPrefixOf cql = false := by
      rw [hcql]
      exact isPrefixOf_lit_append_false _ (by decide) (by decide)
    have hlitE : ("Event" ++ ": ").data = "Event: ".data := by decide
    have h6 : (("Event" ++ ": ").data).isPrefixOf el = true := by
      rw [hel, hlitE]
      exact isPrefixOf_append_self _ _
    simp only [headerLineVal, hlines, hls, List.find?_cons,
      List.find?_append, hv, h1, h2, h3, h4, h5, h6, Option.none_or,
      List.find?_nil, Option.map_some]
    rw [hel, hlitE]
    rw [show Option.map (fun l => List.drop "Event: ".data.length l)
        (some ("Event: ".data ++ (ev.render).data))
      = some (("Event: ".data ++ (ev.render).data).drop
          "Event: ".data.length) from rfl, drop_lit_append]
  · have hv : vls.find? (fun l => (("CSeq" ++ ": ").data).isPrefixOf l)
        = none := by
      apply List.find?_eq_none.mpr
      intro l hl
      show ¬ ((("CSeq" ++ ": ").data).isPrefixOf l = true)
      rw [via_line_not_pref (p := ("CSeq" ++ ": ").data)
        (hviaOK.2 l hl).2 (by decide) (by decide)]
      decide
    have h1 : (("CSeq" ++ ": ").data).isPrefixOf
        ("SIP/2.0 200 OK".data) = false := by decide
    have h2 : (("CSeq" ++ ": ").data).isPrefixOf tl = false := by
      rw [htl]
      exact isPrefixOf_lit_append_false _ (by decide) (by decide)
    have h3 : (("CSeq" ++ ": ").data).isPrefixOf fl = false := by
      rw [hfl]
      exact isPrefixOf_lit_append_false _ (by decide) (by decide)
    have h4 : (("CSeq" ++ ": ").data).isPrefixOf cidl = false := by
      rw [hcidl]
      exact isPrefixOf_lit_append_false _ (by decide) (by decide)
    have hlitC : ("CSeq" ++ ": ").data = "CSeq: ".data := by decide
    have h5 : (("CSeq" ++ ": ").data).isPrefixOf cql = true := by
      rw [hcql, hlitC]
      exact isPrefixOf_append_self _ _
    simp only [headerLineVal, hlines, hls, List.find?_cons,
      List.find?_append, hv, h1, h2, h3, h4, h5, Option.none_or,
      List.find?_nil, Option.map_some]
    rw [hcql, hlitC]
    rw [show Option.map (fun l => List.drop "CSeq: ".data.length l)
        (some ("CSeq: ".data ++ ((toString (n + 1)).data ++ (" ".data
          ++ mth.data))))
      = some (("CSeq: ".data ++ ((toString (n + 1)).data ++ (" ".data
          ++ mth.data))).drop "CSeq: ".data.length) from rfl,
      drop_lit_append]
  · intro hk
    rw [hc2v, if_pos hk]
    exact ⟨rfl, by simp [check_for_new_register]⟩

instance (v : String) (vls : List Chars) : Decidable (viaOutOK v vls) := by
  unfold viaOutOK
  infer_instance

/-- The To address of the concrete NOTIFY request. -/
def toC8 : AddrH :=
  { raw := "<sip:u@sv>", tag := "t1", address := "sip:u@sv",
    number := some "u", caller := "u", host := "sv" }

/-- The From address of the concrete NOTIFY request. -/
def fromC8 : AddrH :=
  { raw := "<sip:w@sv>", tag := "t2", address := "sip:w@sv",
    number := some "w", caller := "w", host := "sv" }

/-- A concrete parsed keep-alive NOTIFY used by the C8 witness. -/
def reqC8 : SIPMsg Unit :=
  { mtype := .message, status := 491, version := "SIP/2.0",
    method := some "NOTIFY",
    headers := [
      ("Via", HVal.via [[("address", ViaVal.vaddr "h1" (PortV.int 5060))]]),
      ("To", HVal.addr toC8),
      ("From", HVal.addr fromC8),
      ("Call-ID", HVal.str "cid1"),
      ("CSeq", HVal.cseq "3" "NOTIFY"),
      ("Event", HVal.str "keep-alive")],
    authentication := [], body := none, raw := "" }

theorem gen_notify_echoes_event_witness :
    ∃ resp c2, gen_notify v6Ex cEx reqC8 = .ok (resp, c2)
      ∧ (msgLines resp).headD [] = "SIP/2.0 200 OK".data
      ∧ headerLineVal "Event" resp
          = some ((HVal.str "keep-alive").render).data
      ∧ headerLineVal "CSeq" resp
          = some ((toString ((3 : Int) + 1)).data
              ++ (" ".data ++ "NOTIFY".data))
      ∧ (HVal.str "keep-alive" = HVal.str "keep-alive" →
          c2.use_keep_alive = true ∧ check_for_new_register c2 = .skip) :=
  gen_notify_echoes_event v6Ex cEx reqC8
    "Via: SIP/2.0/UDP h1:5060\r\n" ["Via: SIP/2.0/UDP h1:5060".data]
    (HVal.addr toC8) (HVal.addr fromC8) (HVal.cseq "3" "NOTIFY")
    (HVal.str "cid1") (HVal.str "keep-alive")
    "<sip:u@sv>" "t1" "<sip:w@sv>" "t2" "3" "NOTIFY" 3
    rfl (by decide) rfl rfl rfl rfl rfl rfl rfl rfl rfl rfl rfl rfl
    (by decide) (by decide) (by decide) (by decide) (by decide)
    (by decide) (by decide)

theorem gen_tag_core_fresh (tags : List String) :
    ∀ cands t rest, gen_tag_core tags cands = .ok (t, rest) → t ∉ tags := by
  intro cands
  induction cands with
  | nil => intro t rest h; cases h
  | cons a as ih =>
    intro t rest h
    by_cases hc : a ∈ tags
    · exact ih t rest (by simpa [gen_tag_core, hc] using h)
    · have h2 : a = t ∧ as = rest := by simpa [gen_tag_core, hc] using h
      rcases h2 with ⟨rfl, -⟩
      exact hc

/-- A tag issued by gen_tag was never issued before: it is not in the
client's tag list. -/
theorem gen_tag_fresh (c : Client) (tag : String) (c2 : Client)
    (h : gen_tag c = .ok (tag, c2)) : tag ∉ c.tags := by
  unfold gen_tag at h
  cases hgc : gen_tag_core c.tags c.tagCands with
  | error e => rw [hgc] at h; cases h
  | ok p =>
    rw [hgc] at h
    have : p.1 = tag := by
      simpa [Except.map] using congrArg (fun r =>
        match r with | Except.ok (q : String × Client) => q.1
                     | Except.error _ => tag) h
    exact this ▸ gen_tag_core_fresh c.tags c.tagCands p.1 p.2
      (by rw [hgc])

/-- C9: an inbound INVITE with no call callback configured is answered
with exactly one sent message and otherwise discarded: the reply's
status line is `SIP/2.0 486 Busy Here`, its Call-ID header renders the
request's own Call-ID value, and its To header carries the freshly
generated tag, one not previously issued in this session. -/
theorem invite_no_callback_busy {β : Type} (v6 : String → Bool)
    (c : Client) (request : SIPMsg β) (viaStr : String) (vls : List Chars)
    (fromH toH cseqH cid contact : HVal)
    (fraw ftag traw tag chk mth : String) (c2 : Client)
    (hmt : request.mtype = .message)
    (hmethod : request.method = some "INVITE")
    (hcb : c.callCallback = false)
    (hvia : gen_response_via_header v6 request = .ok viaStr)
    (hviaOK : viaOutOK viaStr vls)
    (hfrom : request.hget "From" = .ok fromH)
    (hfraw : fromH.item "raw" = .ok fraw)
    (hftag : fromH.item "tag" = .ok ftag)
    (hto : request.hget "To" = .ok toH)
    (htraw : toH.item "raw" = .ok traw)
    (htag : gen_tag c = .ok (tag, c2))
    (hcid : request.hget "Call-ID" = .ok cid)
    (hcseq : request.hget "CSeq" = .ok cseqH)
    (hchk : cseqH.item "check" = .ok chk)
    (hmth : cseqH.item "method" = .ok mth)
    (hcont : request.hget "Contact" = .ok contact)
    (hs1 : strOK fraw) (hs2 : strOK ftag) (hs3 : strOK traw)
    (hs4 : strOK tag) (hs5 : strOK cid.render) (hs6 : strOK chk)
    (hs7 : strOK mth) (hs8 : strOK contact.render) :
    ∃ resp, parse_message v6 c request = .ok (c2, [Act.sent resp])
      ∧ (msgLines resp).headD [] = "SIP/2.0 486 Busy Here".data
      ∧ headerLineVal "Call-ID" resp = some (cid.render).data
      ∧ headerLineVal "To" resp
          = some (traw.data ++ (";tag=".data ++ tag.data))
      ∧ tag ∉ c.tags := by
  set X : String := "SIP/2.0 486 Busy Here" ++ "\r\n"
      ++ viaStr
      ++ "From: " ++ fraw ++ ";tag=" ++ ftag ++ "\r\n"
      ++ "To: " ++ traw ++ ";tag=" ++ tag ++ "\r\n"
      ++ "Call-ID: " ++ cid.render ++ "\r\n"
      ++ "CSeq: " ++ chk ++ " " ++ mth ++ "\r\n"
      ++ "Contact: " ++ contact.render ++ "\r\n"
      ++ "User-Agent: pyVoIP " ++ pyVoIPVersion ++ "\r\n"
      ++ "Warning: 399 GS \"Unable to accept call\"" ++ "\r\n"
      ++ "Allow: " ++ String.intercalate ", " SIPCompatibleMethods ++ "\r\n"
      ++ "Content-Length: 0" ++ "\r\n" ++ "\r\n" with hX
  have hbusy : gen_busy v6 c request = .ok (X, c2) := by
    simp [gen_busy, hvia, hfrom, hfraw, hftag, hto, htraw, htag, hcid,
      hcseq, hchk, hmth, hcont, hX,
      bind, Except.bind, Functor.map, Except.map, pure, Except.pure]
  have hdisp : parse_message v6 c request = .ok (c2, [Act.sent X]) := by
    simp [parse_message, hmt, hmethod, hcb, hbusy,
      bind, Except.bind, pure, Except.pure]
  set fl := "From: ".data ++ (fraw.data ++ (";tag=".data ++ ftag.data))
    with hfl
  set tl := "To: ".data ++ (traw.data ++ (";tag=".data ++ tag.data))
    with htl
  set cidl := "Call-ID: ".data ++ cid.render.data with hcidl
  set cql := "CSeq: ".data ++ (chk.data ++ (" ".data ++ mth.data))
    with hcql
  set contl := "Contact: ".data ++ contact.render.data with hcontl
  set ul := ("User-Agent: pyVoIP " ++ pyVoIPVersion).data with hul
  set wl := "Warning: 399 GS \"Unable to accept call\"".data with hwl
  set al := ("Allow: " ++ String.intercalate ", " SIPCompatibleMethods).data
    with hal
  set cll := "Content-Length: 0".data with hcll
  set ls : List Chars :=
    "SIP/2.0 486 Busy Here".data :: vls
      ++ [fl, tl, cidl, cql, contl, ul, wl, al, cll] with hls
  have hdata : X.data = lineChunks ls ++ crlfL ++ ([] : Chars) := by
    simp only [hX, hls, hfl, htl, hcidl, hcql, hcontl, hul, hwl, hal,
      hcll, String.data_append, crlf_data, lineChunks_cons,
      lineChunks_append, lineChunks, List.map_cons, List.map_nil,
      List.map_append, List.flatten_cons, List.flatten_nil,
      List.flatten_append, hviaOK.1, crlfL, List.append_assoc,
      List.append_nil, List.nil_append]
  have hok : ∀ l ∈ ls, lineOK l := by
    intro l hl
    rw [hls] at hl
    simp only [List.mem_cons, List.mem_append] at hl
    rcases hl with (rfl | hl) | hl
    · exact ⟨by decide, by decide⟩
    · exact (hviaOK.2 l hl).1
    · simp only [List.mem_cons, List.not_mem_nil, or_false] at hl
      rcases hl with rfl | rfl | rfl | rfl | rfl | rfl | rfl | rfl | rfl
      · exact ⟨by simp [hfl], by
          simp only [hfl, okChars_append]
          exact ⟨by decide, hs1, by decide, hs2⟩⟩
      · exact ⟨by simp [htl], by
          simp only [htl, okChars_append]
          exact ⟨by decide, hs3, by decide, hs4⟩⟩
      · exact ⟨by simp [hcidl], by
          simp only [hcidl, okChars_append]
          exact ⟨by decide, hs5⟩⟩
      · exact ⟨by simp [hcql], by
          simp only [hcql, okChars_append]
          exact ⟨by decide, hs6, by decide, hs7⟩⟩
      · exact ⟨by simp [hcontl], by
          simp only [hcontl, okChars_append]
          exact ⟨by decide, hs8⟩⟩
      · exact ⟨by decide, by decide⟩
      · exact ⟨by decide, by decide⟩
      · exact ⟨by decide, by decide⟩
      · exact ⟨by decide, by decide⟩
  have hne : ls ≠ [] := by simp [hls]
  obtain ⟨hparts, hlines, hbody⟩ := msg_extract ls hne hok [] X hdata
  refine ⟨X, hdisp, ?_, ?_, ?_, gen_tag_fresh c tag c2 htag⟩
  · rw [hlines, hls]
    rfl
  · have hv : vls.find? (fun l => (("Call-ID" ++ ": ").data).isPrefixOf l)
        = none := by
      apply List.find?_eq_none.mpr
      intro l hl
      show ¬ ((("Call-ID" ++ ": ").data).isPrefixOf l = true)
      rw [via_line_not_pref (p := ("Call-ID" ++ ": ").data)
        (hviaOK.2 l hl).2 (by decide) (by decide)]
      decide
    have h1 : (("Call-ID" ++ ": ").data).isPrefixOf
        ("SIP/2.0 486 Busy Here".data) = false := by decide
    have h2 : (("Call-ID" ++ ": ").data).isPrefixOf fl = false := by
      rw [hfl]
      exact isPrefixOf_lit_append_false _ (by decide) (by decide)
    have h3 : (("Call-ID" ++ ": ").data).isPrefixOf tl = false := by
      rw [htl]
      exact isPrefixOf_lit_append_false _ (by decide) (by decide)
    have hlit : ("Call-ID" ++ ": ").data = "Call-ID: ".data := by decide
    have h4 : (("Call-ID" ++ ": ").data).isPrefixOf cidl = true := by
      rw [hcidl, hlit]
      exact isPrefixOf_append_self _ _
    simp only [headerLineVal, hlines, hls, List.find?_cons,
      List.find?_append, hv, h1, h2, h3, h4, Option.none_or,
      List.find?_nil, Option.map_some]
    rw [hcidl, hlit]
    rw [show Option.map (fun l => List.drop "Call-ID: ".data.length l)
        (some ("Call-ID: ".data ++ cid.render.data))
      = some (("Call-ID: ".data ++ cid.render.data).drop
          "Call-ID: ".data.length) from rfl, drop_lit_append]
  · have hv : vls.find? (fun l => (("To" ++ ": ").data).isPrefixOf l)
        = none := by
      apply List.find?_eq_none.mpr
      intro l hl
      show ¬ ((("To" ++ ": ").data).isPrefixOf l = true)
      rw [via_line_not_pref (p := ("To" ++ ": ").data)
        (hviaOK.2 l hl).2 (by decide) (by decide)]
      decide
    have h1 : (("To" ++ ": ").data).isPrefixOf
        ("SIP/2.0 486 Busy Here".data) = false := by decide
    have h2 : (("To" ++ ": ").data).isPrefixOf fl = false := by
      rw [hfl]
      exact isPrefixOf_lit_append_false _ (by decide) (by decide)
    have hlit : ("To" ++ ": ").data = "To: ".data := by decide
    have h3 : (("To" ++ ": ").data).isPrefixOf tl = true := by
      rw [htl, hlit]
      exact isPrefixOf_append_self _ _
    simp only [headerLineVal, hlines, hls, List.find?_cons,
      List.find?_append, hv, h1, h2, h3, Option.none_or,
      List.find?_nil, Option.map_some]
    rw [htl, hlit]
    rw [show Option.map (fun l => List.drop "To: ".data.length l)
        (some ("To: ".data ++ (traw.data ++ (";tag=".data ++ tag.data))))
      = some (("To: ".data ++ (traw.data ++ (";tag=".data
          ++ tag.data))).drop "To: ".data.length) from rfl,
      drop_lit_append]

/-- A concrete parsed INVITE used by the C9 witness. -/
def reqC9 : SIPMsg Unit :=
  { mtype := .message, status := 491, version := "SIP/2.0",
    method := some "INVITE",
    headers := [
      ("Via", HVal.via [[("address", ViaVal.vaddr "h1" (PortV.int 5060))]]),
      ("To", HVal.addr toC8),
      ("From", HVal.addr fromC8),
      ("Call-ID", HVal.str "cid9"),
      ("CSeq", HVal.cseq "7" "INVITE"),
      ("Contact", HVal.str "<sip:w@h1>")],
    authentication := [], body := none, raw := "" }

/-- The client state after gen_tag has issued the busy reply's tag. -/
def c2W : Client := { cEx with tags := ["tagA"], tagCands := ["tagB"] }

theorem invite_no_callback_busy_witness :
    ∃ resp, parse_message v6Ex cEx reqC9 = .ok (c2W, [Act.sent resp])
      ∧ (msgLines resp).headD [] = "SIP/2.0 486 Busy Here".data
      ∧ headerLineVal "Call-ID" resp
          = some ((HVal.str "cid9").render).data
      ∧ headerLineVal "To" resp
          = some (("<sip:u@sv>" : String).data
              ++ (";tag=".data ++ ("tagA" : String).data))
      ∧ "tagA" ∉ cEx.tags :=
  invite_no_callback_busy v6Ex cEx reqC9
    "Via: SIP/2.0/UDP h1:5060\r\n" ["Via: SIP/2.0/UDP h1:5060".data]
    (HVal.addr fromC8) (HVal.addr toC8) (HVal.cseq "7" "INVITE")
    (HVal.str "cid9") (HVal.str "<sip:w@h1>")
    "<sip:w@sv>" "t2" "<sip:u@sv>" "tagA" "7" "INVITE" c2W
    rfl rfl rfl rfl (by decide) rfl rfl rfl rfl rfl rfl rfl rfl rfl rfl
    rfl (by decide) (by decide) (by decide) (by decide) (by decide)
    (by decide) (by decide) (by decide)

theorem pyLookup_cons (q : String × α) (t : List (String × α))
    (k : String) :
    pyLookup (q :: t) k
      = if (q.1 == k) = true then some q.2 else pyLookup t k := by
  unfold pyLookup
  simp only [List.find?]
  cases h : (q.1 == k) <;> simp [h]

theorem hasKey_cons (q : String × α) (t : List (String × α))
    (k : String) :
    hasKey (q :: t) k = ((q.1 == k) || hasKey t k) := by
  simp [hasKey, List.any_cons]

theorem hasKey_eq_isSome (m : List (String × α)) (k : String) :
    hasKey m k = (pyLookup m k).isSome := by
  induction m with
  | nil => rfl
  | cons q t ih =>
    rw [hasKey_cons, pyLookup_cons]
    cases h : (q.1 == k) <;> simp [h, ih]

theorem pyLookup_append_left {m m2 : List (String × α)} {k : String}
    {r : α} (h : pyLookup m k = some r) :
    pyLookup (m ++ m2) k = some r := by
  unfold pyLookup at h ⊢
  cases hf : m.find? (fun p => p.1 == k) with
  | none => rw [hf] at h; cases h
  | some q =>
    rw [hf] at h
    rw [List.find?_append, hf]
    simpa using h

theorem pyLookup_append_right {m m2 : List (String × α)} {k : String}
    (h : pyLookup m k = none) :
    pyLookup (m ++ m2) k = pyLookup m2 k := by
  unfold pyLookup at h ⊢
  cases hf : m.find? (fun p => p.1 == k) with
  | none => rw [List.find?_append, hf]; rfl
  | some q => rw [hf] at h; cases h

theorem pyDictSet_lookup_ne {m : List (String × α)} {j k : String}
    (h : j ≠ k) (v : α) :
    pyLookup (pyDictSet m j v) k = pyLookup m k := by
  induction m with
  | nil =>
    show pyLookup [(j, v)] k = pyLookup [] k
    rw [pyLookup_cons]
    simp [h]
  | cons q t ih =>
    obtain ⟨k0, v0⟩ := q
    show pyLookup (if k0 == j then (k0, v) :: t
      else (k0, v0) :: pyDictSet t j v) k = _
    cases hq : (k0 == j) with
    | true =>
      have hqe : k0 = j := by simpa using hq
      have hk : (k0 == k) = false := by simp [hqe, h]
      rw [if_pos rfl, pyLookup_cons, pyLookup_cons]
      simp [hk]
    | false =>
      rw [if_neg (by simp), pyLookup_cons, pyLookup_cons]
      cases hk : ((k0, v0).1 == k) <;> simp [hk, ih]

theorem viaAppend_cons (q : String × RawV) (t : List (String × RawV))
    (v : String) :
    viaAppend (q :: t) v
      = (if q.1 = "Via" then
          (q.1, match q.2 with
                | RawV.many xs => RawV.many (xs ++ [v])
                | o => o)
        else q) :: viaAppend t v := rfl

theorem viaAppend_lookup_ne {m : List (String × RawV)} {k : String}
    (v : String) (h : k ≠ "Via") :
    pyLookup (viaAppend m v) k = pyLookup m k := by
  induction m with
  | nil => rfl
  | cons q t ih =>
    rw [viaAppend_cons]
    by_cases hq : q.1 = "Via"
    · have hk : (q.1 == k) = false := by simp [hq, Ne.symm h]
      rw [if_pos hq, pyLookup_cons, pyLookup_cons]
      simp [hk, ih]
    · rw [if_neg hq, pyLookup_cons, pyLookup_cons]
      cases hk : (q.1 == k) <;> simp [hk, ih]

theorem viaAppend_lookup_via {m : List (String × RawV)} {vs : List String}
    (v : String) (h : pyLookup m "Via" = some (.many vs)) :
    pyLookup (viaAppend m v) "Via" = some (.many (vs ++ [v])) := by
  induction m with
  | nil => cases h
  | cons q t ih =>
    rw [viaAppend_cons]
    rw [pyLookup_cons] at h
    by_cases hq : q.1 = "Via"
    · rw [if_pos hq, pyLookup_cons]
      have hb : (q.1 == "Via") = true := by simp [hq]
      rw [if_pos hb] at h
      have h2 : q.2 = RawV.many vs := by simpa using h
      simp [hb, h2]
    · have hb : (q.1 == "Via") = false := by simp [hq]
      rw [if_neg (by simp [hb])] at h
      rw [if_neg hq, pyLookup_cons]
      simp [hb, ih h]

/-- One pure step of parse_raw_header, extracted from its fold body for
the lines that split cleanly into `name ": " value`. -/
def rawStep (acc : List (String × RawV)) (nv : String × String) :
    List (String × RawV) :=
  let acc1 := if nv.1 = "Via" then viaAppend acc nv.2 else acc
  if hasKey acc1 nv.1 then acc1 else acc1 ++ [(nv.1, RawV.one nv.2)]

/-- The raw header dict parse_raw_header builds from well-formed
`name ": " value` lines. -/
def rawModel (nvs : List (String × String)) : List (String × RawV) :=
  nvs.foldl rawStep [("Via", RawV.many [])]

/-- parse_raw_header with an explicit accumulator, for the fold
induction. -/
def parse_raw_header_from (acc : List (String × RawV))
    (headers_raw : List String) : Except PyErr (List (String × RawV)) :=
  headers_raw.foldlM (fun acc line => do
    let i := pySplit line ": "
    let i0 := i.headD ""
    let acc1 ←
      if i0 = "Via" then
        match i.get? 1 with
        | some v => pure (viaAppend acc v)
        | none => Except.error .indexError
      else
        pure acc
    if hasKey acc1 i0 then
      pure acc1
    else
      match i.get? 1 with
      | some v => pure (acc1 ++ [(i0, RawV.one v)])
      | none => Except.error .indexError)
    acc

theorem parse_raw_header_eq_from (headers_raw : List String) :
    parse_raw_header headers_raw
      = parse_raw_header_from [("Via", RawV.many [])] headers_raw := rfl

theorem prhf_cons (acc : List (String × RawV)) (line : String)
    (rest : List String) (p : String × String)
    (hp : pySplit line ": " = [p.1, p.2]) :
    parse_raw_header_from acc (line :: rest)
      = parse_raw_header_from (rawStep acc p) rest := by
  show List.foldlM _ acc (line :: rest) = _
  rw [List.foldlM_cons]
  by_cases hv : p.1 = "Via"
  · by_cases hk : hasKey (viaAppend acc p.2) "Via" = true
    · simp [hp, rawStep, hv, hk, bind, Except.bind, pure, Except.pure,
        parse_raw_header_from]
    · simp [hp, rawStep, hv, hk, bind, Except.bind, pure, Except.pure,
        parse_raw_header_from]
  · by_cases hk : hasKey acc p.1 = true
    · simp [hp, rawStep, hv, hk, bind, Except.bind, pure, Except.pure,
        parse_raw_header_from]
    · simp [hp, rawStep, hv, hk, bind, Except.bind, pure, Except.pure,
        parse_raw_header_from]

theorem parse_raw_header_from_model :
    ∀ (nvs : List (String × String)) (acc : List (String × RawV)),
      (∀ p ∈ nvs, pySplit (p.1 ++ ": " ++ p.2) ": " = [p.1, p.2]) →
      parse_raw_header_from acc
          (nvs.map (fun p => p.1 ++ ": " ++ p.2))
        = .ok (nvs.foldl rawStep acc) := by
  intro nvs
  induction nvs with
  | nil => intro acc _; rfl
  | cons p t ih =>
    intro acc hw
    rw [List.map_cons,
      prhf_cons acc _ _ p (hw p (List.mem_cons_self _ _)),
      List.foldl_cons]
    exact ih (rawStep acc p) (fun q hq => hw q (List.mem_cons_of_mem _ hq))

theorem foldl_rawStep_via :
    ∀ (nvs : List (String × String)) (acc : List (String × RawV))
      (vs : List String),
      pyLookup acc "Via" = some (.many vs) →
      pyLookup (nvs.foldl rawStep acc) "Via"
        = some (.many (vs ++ nvs.filterMap (fun p =>
            if p.1 = "Via" then some p.2 else none))) := by
  intro nvs
  induction nvs with
  | nil => intro acc vs h; simpa using h
  | cons p t ih =>
    intro acc vs h
    rw [List.foldl_cons]
    by_cases hv : p.1 = "Via"
    · have happ := viaAppend_lookup_via p.2 h
      have hkey : hasKey (viaAppend acc p.2) "Via" = true := by
        rw [hasKey_eq_isSome, happ]; rfl
      have hstep : rawStep acc p = viaAppend acc p.2 := by
        simp [rawStep, hv, hkey]
      rw [hstep]
      have := ih (viaAppend acc p.2) (vs ++ [p.2]) happ
      simpa [hv, List.append_assoc] using this
    · by_cases hkk : hasKey acc p.1 = true
      · have hstep : rawStep acc p = acc := by simp [rawStep, hv, hkk]
        rw [hstep]
        simpa [hv] using ih acc vs h
      · have hstep : rawStep acc p = acc ++ [(p.1, RawV.one p.2)] := by
          simp [rawStep, hv, hkk]
        rw [hstep]
        have hl : pyLookup (acc ++ [(p.1, RawV.one p.2)]) "Via"
            = some (.many vs) := pyLookup_append_left h
        simpa [hv] using ih _ vs hl

theorem foldl_rawStep_other_some :
    ∀ (nvs : List (String × String)) (acc : List (String × RawV))
      (k : String) (r : RawV), k ≠ "Via" →
      pyLookup acc k = some r →
      pyLookup (nvs.foldl rawStep acc) k = some r := by
  intro nvs
  induction nvs with
  | nil => intro acc k r _ h; simpa using h
  | cons p t ih =>
    intro acc k r hk h
    rw [List.foldl_cons]
    refine ih (rawStep acc p) k r hk ?_
    by_cases hv : p.1 = "Via"
    · have h1 : pyLookup (viaAppend acc p.2) k = some r := by
        rw [viaAppend_lookup_ne p.2 hk]; exact h
      by_cases hkk : hasKey (viaAppend acc p.2) "Via" = true
      · have hstep : rawStep acc p = viaAppend acc p.2 := by
          simp [rawStep, hv, hkk]
        rw [hstep]; exact h1
      · have hstep : rawStep acc p
            = viaAppend acc p.2 ++ [("Via", RawV.one p.2)] := by
          simp [rawStep, hv, hkk]
        rw [hstep]; exact pyLookup_append_left h1
    · by_cases hkk : hasKey acc p.1 = true
      · have hstep : rawStep acc p = acc := by simp [rawStep, hv, hkk]
        rw [hstep]; exact h
      · have hstep : rawStep acc p = acc ++ [(p.1, RawV.one p.2)] := by
          simp [rawStep, hv, hkk]
        rw [hstep]; exact pyLookup_append_left h

theorem foldl_rawStep_other_none :
    ∀ (nvs : List (String × String)) (acc : List (String × RawV))
      (k : String), k ≠ "Via" →
      pyLookup acc k = none →
      pyLookup (nvs.foldl rawStep acc) k
        = ((nvs.find? (fun p => p.1 == k)).map (fun p => RawV.one p.2)) := by
  intro nvs
  induction nvs with
  | nil => intro acc k _ h; simpa using h
  | cons p t ih =>
    intro acc k hk h
    rw [List.foldl_cons]
    by_cases hpk : p.1 = k
    · have hpv : p.1 ≠ "Via" := by rw [hpk]; exact hk
      have hkk : hasKey acc p.1 = false := by
        rw [hasKey_eq_isSome, hpk, h]; rfl
      have hstep : rawStep acc p = acc ++ [(p.1, RawV.one p.2)] := by
        simp [rawStep, hpv, hkk]
      have hlook : pyLookup (rawStep acc p) k = some (RawV.one p.2) := by
        rw [hstep, hpk]
        rw [pyLookup_append_right h, pyLookup_cons]
        simp
      rw [foldl_rawStep_other_some t (rawStep acc p) k _ hk hlook]
      rw [List.find?_cons_of_pos _ (by simp [hpk])]
      rfl
    · have hstep : pyLookup (rawStep acc p) k = none := by
        by_cases hv : p.1 = "Via"
        · have h1 : pyLookup (viaAppend acc p.2) k = none := by
            rw [viaAppend_lookup_ne p.2 hk]; exact h
          by_cases hkk : hasKey (viaAppend acc p.2) "Via" = true
          · have hs2 : rawStep acc p = viaAppend acc p.2 := by
              simp [rawStep, hv, hkk]
            rw [hs2]; exact h1
          · have hs2 : rawStep acc p
                = viaAppend acc p.2 ++ [("Via", RawV.one p.2)] := by
              simp [rawStep, hv, hkk]
            rw [hs2, pyLookup_append_right h1, pyLookup_cons]
            simp [Ne.symm hk, pyLookup]
        · by_cases hkk : hasKey acc p.1 = true
          · have hs2 : rawStep acc p = acc := by simp [rawStep, hv, hkk]
            rw [hs2]; exact h
          · have hs2 : rawStep acc p = acc ++ [(p.1, RawV.one p.2)] := by
              simp [rawStep, hv, hkk]
            rw [hs2, pyLookup_append_right h, pyLookup_cons]
            simp [hpk, pyLookup]
      rw [ih (rawStep acc p) k hk hstep]
      rw [List.find?_cons_of_neg _ (by simp [hpk])]

/-- C7: over any list of well-formed `name ": " value` header lines,
parse_raw_header succeeds and builds the raw dict in which Via holds
every Via line's value in arrival order, while every other name maps to
its first occurrence's value only (later duplicates are dropped). -/
theorem parse_raw_header_via_order_first_wins
    (nvs : List (String × String))
    (hw : ∀ p ∈ nvs, pySplit (p.1 ++ ": " ++ p.2) ": " = [p.1, p.2]) :
    parse_raw_header (nvs.map (fun p => p.1 ++ ": " ++ p.2))
        = .ok (rawModel nvs)
      ∧ pyLookup (rawModel nvs) "Via"
          = some (.many (nvs.filterMap (fun p =>
              if p.1 = "Via" then some p.2 else none)))
      ∧ ∀ k, k ≠ "Via" →
          pyLookup (rawModel nvs) k
            = ((nvs.find? (fun p => p.1 == k)).map
                (fun p => RawV.one p.2)) := by
  refine ⟨?_, ?_, ?_⟩
  · rw [parse_raw_header_eq_from]
    exact parse_raw_header_from_model nvs _ hw
  · unfold rawModel
    have := foldl_rawStep_via nvs [("Via", RawV.many [])] []
      (by rw [pyLookup_cons]; simp)
    simpa using this
  · intro k hk
    unfold rawModel
    refine foldl_rawStep_other_none nvs _ k hk ?_
    rw [pyLookup_cons]
    simp [Ne.symm hk, pyLookup]

theorem parse_raw_header_via_order_first_wins_witness :
    parse_raw_header (([("Via", "a"), ("From", "f1"), ("Via", "b"),
          ("From", "f2")] : List (String × String)).map
        (fun p => p.1 ++ ": " ++ p.2))
        = .ok (rawModel [("Via", "a"), ("From", "f1"), ("Via", "b"),
            ("From", "f2")])
      ∧ pyLookup (rawModel [("Via", "a"), ("From", "f1"), ("Via", "b"),
            ("From", "f2")]) "Via"
          = some (.many ([("Via", "a"), ("From", "f1"), ("Via", "b"),
              ("From", "f2")].filterMap (fun p =>
                if p.1 = "Via" then some p.2 else none)))
      ∧ ∀ k, k ≠ "Via" →
          pyLookup (rawModel [("Via", "a"), ("From", "f1"), ("Via", "b"),
              ("From", "f2")]) k
            = (([("Via", "a"), ("From", "f1"), ("Via", "b"),
                ("From", "f2")].find? (fun p => p.1 == k)).map
                  (fun p => RawV.one p.2)) :=
  parse_raw_header_via_order_first_wins
    [("Via", "a"), ("From", "f1"), ("Via", "b"), ("From", "f2")]
    (by decide)

/-- A headers-only 200 OK datagram assembled from `name ": " value`
pairs: the status line, the header lines joined by CRLF, and the
terminating blank line. -/
def responseDatagram (nvs : List (String × String)) : String :=
  String.mk (joinSep crlfL ("SIP/2.0 200 OK".data
    :: nvs.map (fun p => (p.1 ++ ": " ++ p.2).data))) ++ "\r\n\r\n"

/-- processHeaders with an explicit starting state, for the fold
induction. -/
def processHeaders_from
    (st : List (String × HVal) × List (String × String))
    (raw : List (String × RawV)) :
    Except PyErr (List (String × HVal) × List (String × String)) :=
  raw.foldlM (fun (st : List (String × HVal) × List (String × String))
      (p : String × RawV) => do
    let v ← parse_header p.1 p.2
    let typed := pyDictSet st.1 p.1 v
    let auth :=
      if p.1 = "WWW-Authenticate" ∨ p.1 = "Authorization" then
        match v with
        | .auth kvs => kvs
        | _ => st.2
      else st.2
    pure (typed, auth)) st

theorem processHeaders_eq_from (raw : List (String × RawV)) :
    processHeaders raw
      = processHeaders_from ([("Via", HVal.via [])], []) raw := rfl

theorem keys_ne_of_lookup_none {m : List (String × α)} {k : String}
    (h : pyLookup m k = none) : ∀ p ∈ m, p.1 ≠ k := by
  intro p hp he
  rw [pyLookup] at h
  have hf : m.find? (fun p => p.1 == k) = none := by
    cases hf : m.find? (fun p => p.1 == k) with
    | none => rfl
    | some q => rw [hf] at h; cases h
  exact absurd (by simp [he]) (List.find?_eq_none.mp hf p hp)

theorem processHeaders_from_absent :
    ∀ (raw : List (String × RawV))
      (st out : List (String × HVal) × List (String × String))
      (k : String),
      (∀ p ∈ raw, p.1 ≠ k) →
      pyLookup st.1 k = none →
      processHeaders_from st raw = .ok out →
      pyLookup out.1 k = none := by
  intro raw
  induction raw with
  | nil =>
    intro st out k _ hst h
    obtain rfl : st = out := by
      simpa [processHeaders_from, pure, Except.pure] using h
    exact hst
  | cons q t ih =>
    intro st out k hk hst h
    simp only [processHeaders_from, List.foldlM_cons] at h
    cases hv : parse_header q.1 q.2 with
    | error e =>
      rw [hv] at h
      simp [bind, Except.bind] at h
    | ok v =>
      rw [hv] at h
      simp only [bind, Except.bind, pure, Except.pure] at h
      refine ih _ out k (fun p hp => hk p (List.mem_cons_of_mem _ hp))
        ?_ h
      show pyLookup (pyDictSet st.1 q.1 v) k = none
      rw [pyDictSet_lookup_ne (hk q (List.mem_cons_self _ _)) v]
      exact hst

/-- C1 (amended): the codec performs no primary-header completeness
check.  For every list of well-formed header lines, the assembled 200 OK
datagram parses successfully whatever headers it carries, and every
header name absent from the lines (other than the seeded Via list) is
simply absent from the resulting header map - in particular a message
missing From, To, Call-ID or CSeq is still returned, not rejected. -/
theorem parse_has_no_primary_header_check {β : Type}
    (bodyEval : String → List (String × HVal) → Except PyErr β)
    (nvs : List (String × String))
    (typed : List (String × HVal)) (auth : List (String × String))
    (hok : ∀ p ∈ nvs, lineOK (p.1 ++ ": " ++ p.2).data)
    (hw : ∀ p ∈ nvs, pySplit (p.1 ++ ": " ++ p.2) ": " = [p.1, p.2])
    (hph : processHeaders (rawModel nvs) = .ok (typed, auth)) :
    ∃ m, SIPMessage_parse bodyEval (responseDatagram nvs) = .ok m
      ∧ m.headers = typed
      ∧ ∀ k, k ≠ "Via" → (∀ p ∈ nvs, p.1 ≠ k) →
          pyLookup m.headers k = none := by
  set ls : List Chars := "SIP/2.0 200 OK".data
    :: nvs.map (fun p => (p.1 ++ ": " ++ p.2).data) with hls
  have hne : ls ≠ [] := by simp [hls]
  have hlsOK : ∀ l ∈ ls, lineOK l := by
    intro l hl
    rw [hls] at hl
    simp only [List.mem_cons, List.mem_map] at hl
    rcases hl with rfl | ⟨p, hp, rfl⟩
    · exact ⟨by decide, by decide⟩
    · exact hok p hp
  have hdata : (responseDatagram nvs).data
      = joinSep crlfL ls ++ blankL ++ ([] : Chars) := by
    show (String.mk (joinSep crlfL ls) ++ "\r\n\r\n").data = _
    rw [String.data_append, List.append_nil]
    rfl
  have hsplit : pySplit (responseDatagram nvs) "\r\n\r\n"
      = [String.mk (joinSep crlfL ls), ""] := by
    unfold pySplit
    rw [show ("\r\n\r\n" : String).data = blankL from rfl, hdata,
      pySplitL_blank_header ls hne hlsOK []]
    rfl
  have hlinesS : pySplit (String.mk (joinSep crlfL ls)) "\r\n"
      = "SIP/2.0 200 OK" :: nvs.map (fun p => p.1 ++ ": " ++ p.2) := by
    unfold pySplit
    rw [show ("\r\n" : String).data = crlfL from rfl]
    rw [show (String.mk (joinSep crlfL ls)).data = joinSep crlfL ls
      from rfl]
    rw [pySplitL_crlf_join ls hne (fun l hl => (hlsOK l hl).2), hls]
    rw [List.map_cons, List.map_map]
    exact congrArg₂ List.cons rfl
      (List.map_congr_left (fun a ha => rfl))
  have hraw : parse_raw_header (nvs.map (fun p => p.1 ++ ": " ++ p.2))
      = .ok (rawModel nvs) := by
    rw [parse_raw_header_eq_from]
    exact parse_raw_header_from_model nvs _ hw
  have hresp : parse_sip_response bodyEval (responseDatagram nvs)
      = .ok { mtype := .response, status := 200, version := "SIP/2.0",
              method := none, headers := typed, authentication := auth,
              body := none, raw := responseDatagram nvs } := by
    simp [parse_sip_response, hsplit, hlinesS, hraw, hph,
      bind, Except.bind, pure, Except.pure]
    rfl
  have hparse : SIPMessage_parse bodyEval (responseDatagram nvs)
      = .ok { mtype := .response, status := 200, version := "SIP/2.0",
              method := none, headers := typed, authentication := auth,
              body := none, raw := responseDatagram nvs } := by
    rw [SIPMessage_parse]
    simp only [hsplit, List.headD_cons, hlinesS]
    rw [if_pos (by decide)]
    exact hresp
  refine ⟨_, hparse, rfl, ?_⟩
  intro k hk hkeys
  show pyLookup typed k = none
  have hrawnone : pyLookup (rawModel nvs) k = none := by
    unfold rawModel
    rw [foldl_rawStep_other_none nvs [("Via", RawV.many [])] k hk
      (by rw [pyLookup_cons]; simp [Ne.symm hk, pyLookup])]
    rw [List.find?_eq_none.mpr (fun p hp => by simp [hkeys p hp])]
    rfl
  exact processHeaders_from_absent (rawModel nvs)
    ([("Via", HVal.via [])], []) (typed, auth) k
    (keys_ne_of_lookup_none hrawnone)
    (by rw [pyLookup_cons]; simp [Ne.symm hk, pyLookup])
    (by rw [← processHeaders_eq_from]; exact hph)

set_option maxRecDepth 40000 in
theorem parse_missing_primaries_still_ok :
    ∃ m, SIPMessage_parse beEx "SIP/2.0 200 OK\r\n\r\n" = .ok m
      ∧ pyLookup m.headers "Via" = some (HVal.via [])
      ∧ pyLookup m.headers "From" = none
      ∧ pyLookup m.headers "To" = none
      ∧ pyLookup m.headers "Call-ID" = none
      ∧ pyLookup m.headers "CSeq" = none := by
  refine ⟨_, rfl, ?_, ?_, ?_, ?_, ?_⟩ <;> rfl

theorem parse_has_no_primary_header_check_witness :
    ∃ m, SIPMessage_parse beEx
          (responseDatagram [("Subject", "hi")]) = .ok m
      ∧ m.headers = [("Via", HVal.via []), ("Subject", HVal.str "hi")]
      ∧ ∀ k, k ≠ "Via" → (∀ p ∈ [(("Subject" : String), ("hi" : String))],
            p.1 ≠ k) →
          pyLookup m.headers k = none :=
  parse_has_no_primary_header_check beEx [("Subject", "hi")]
    [("Via", HVal.via []), ("Subject", HVal.str "hi")] []
    (by decide) (by decide) rfl

/-- C5 (amended): every builder except gen_subscribe emits a
Content-Length header equal to the byte length of the body after the
blank line - 0 for the body-less 200 OK, 486, 505, ACK, BYE and both
REGISTER forms, and the SDP byte count for INVITE.  (gen_subscribe is
the exception the counterexample exhibits: its Accept and
Content-Length texts fuse into one line.) -/
theorem builders_content_length_correct :
    (∀ (β : Type) (v6 : String → Bool) (c : Client) (request : SIPMsg β)
      (viaStr : String) (vls : List Chars)
      (fromH toH cseqH cid : HVal) (fraw ftag traw tag chk mth : String)
      (c2 : Client),
      gen_response_via_header v6 request = .ok viaStr →
      viaOutOK viaStr vls →
      request.hget "From" = .ok fromH →
      fromH.item "raw" = .ok fraw →
      fromH.item "tag" = .ok ftag →
      request.hget "To" = .ok toH →
      toH.item "raw" = .ok traw →
      gen_tag c = .ok (tag, c2) →
      request.hget "Call-ID" = .ok cid →
      request.hget "CSeq" = .ok cseqH →
      cseqH.item "check" = .ok chk →
      cseqH.item "method" = .ok mth →
      strOK fraw → strOK ftag → strOK traw → strOK tag →
      strOK cid.render → strOK chk → strOK mth →
      ∃ resp, gen_ok v6 c request = .ok (resp, c2)
        ∧ bodySection resp = []
        ∧ headerLineVal "Content-Length" resp
            = some (Nat.repr (byteLength (String.mk
                (bodySection resp)))).data)
    ∧ (∀ (β : Type) (v6 : String → Bool) (c : Client)
      (request : SIPMsg β) (viaStr : String) (vls : List Chars)
      (fromH toH cseqH cid contact : HVal)
      (fraw ftag traw tag chk mth : String) (c2 : Client),
      gen_response_via_header v6 request = .ok viaStr →
      viaOutOK viaStr vls →
      request.hget "From" = .ok fromH →
      fromH.item "raw" = .ok fraw →
      fromH.item "tag" = .ok ftag →
      request.hget "To" = .ok toH →
      toH.item "raw" = .ok traw →
      gen_tag c = .ok (tag, c2) →
      request.hget "Call-ID" = .ok cid →
      request.hget "CSeq" = .ok cseqH →
      cseqH.item "check" = .ok chk →
      cseqH.item "method" = .ok mth →
      request.hget "Contact" = .ok contact →
      strOK fraw → strOK ftag → strOK traw → strOK tag →
      strOK cid.render → strOK chk → strOK mth →
      strOK contact.render →
      ∃ resp, gen_busy v6 c request = .ok (resp, c2)
        ∧ bodySection resp = []
        ∧ headerLineVal "Content-Length" resp
            = some (Nat.repr (byteLength (String.mk
                (bodySection resp)))).data)
    ∧ (∀ (β : Type) (v6 : String → Bool) (c : Client)
      (request : SIPMsg β) (viaStr : String) (vls : List Chars)
      (fromH toH cseqH cid contact : HVal)
      (fraw ftag traw tag chk mth : String) (c2 : Client),
      gen_response_via_header v6 request = .ok viaStr →
      viaOutOK viaStr vls →
      request.hget "From" = .ok fromH →
      fromH.item "raw" = .ok fraw →
      fromH.item "tag" = .ok ftag →
      request.hget "To" = .ok toH →
      toH.item "raw" = .ok traw →
      gen_tag c = .ok (tag, c2) →
      request.hget "Call-ID" = .ok cid →
      request.hget "CSeq" = .ok cseqH →
      cseqH.item "check" = .ok chk →
      cseqH.item "method" = .ok mth →
      request.hget "Contact" = .ok contact →
      strOK fraw → strOK ftag → strOK traw → strOK tag →
      strOK cid.render → strOK chk → strOK mth →
      strOK contact.render →
      ∃ resp, gen_sip_version_not_supported v6 c request = .ok (resp, c2)
        ∧ bodySection resp = []
        ∧ headerLineVal "Content-Length" resp
            = some (Nat.repr (byteLength (String.mk
                (bodySection resp)))).data)
    ∧ (∀ (β : Type) (v6 : String → Bool) (c : Client)
      (request : SIPMsg β) (viaStr : String) (vls : List Chars)
      (fromH toH cseqH cid : HVal) (fraw traw tag0 tag chk : String)
      (c2 : Client),
      request.hget "Call-ID" = .ok cid →
      pyDictGet c.tagLibrary cid.render = .ok tag0 →
      request.hget "To" = .ok toH →
      toH.item "raw" = .ok traw →
      gen_response_via_header v6 request = .ok viaStr →
      viaOutOK viaStr vls →
      gen_tag c = .ok (tag, c2) →
      request.hget "From" = .ok fromH →
      fromH.item "raw" = .ok fraw →
      request.hget "CSeq" = .ok cseqH →
      cseqH.item "check" = .ok chk →
      strOK fraw → strOK traw → strOK tag0 → strOK tag →
      strOK cid.render → strOK chk →
      ∃ resp, gen_ack v6 c request = .ok (resp, c2)
        ∧ bodySection resp = []
        ∧ headerLineVal "Content-Length" resp
            = some (Nat.repr (byteLength (String.mk
                (bodySection resp)))).data)
    ∧ (∀ (β : Type) (v6 : String → Bool) (c : Client)
      (request : SIPMsg β) (viaStr : String) (vls : List Chars)
      (fromH toH cseqH cid contact : HVal)
      (fraw ftag traw ttag tag0 chk : String) (n : Int),
      request.hget "Call-ID" = .ok cid →
      pyDictGet c.tagLibrary cid.render = .ok tag0 →
      request.hget "Contact" = .ok contact →
      gen_response_via_header v6 request = .ok viaStr →
      viaOutOK viaStr vls →
      request.hget "From" = .ok fromH →
      fromH.item "raw" = .ok fraw →
      fromH.item "tag" = .ok ftag →
      request.hget "To" = .ok toH →
      toH.item "raw" = .ok traw →
      toH.item "tag" = .ok ttag →
      request.hget "CSeq" = .ok cseqH →
      cseqH.item "check" = .ok chk →
      pyInt? chk = some n →
      strOK fraw → strOK ftag → strOK traw → strOK ttag →
      strOK tag0 → strOK cid.render → strOK contact.render →
      strOK c.username → strOK c.get_my_ip → strOK c.get_my_port →
      ∃ resp, gen_bye v6 c request = .ok (resp, c)
        ∧ bodySection resp = []
        ∧ headerLineVal "Content-Length" resp
            = some (Nat.repr (byteLength (String.mk
                (bodySection resp)))).data)
    ∧ (∀ (sha256hex : String → String) (c : Client) (dereg : Bool)
      (regTag : String),
      pyDictGet c.tagLibrary "register" = .ok regTag →
      strOK regTag → strOK c.username → strOK c.server →
      strOK c.myIP → strOK c.get_my_ip → strOK c.get_my_port →
      strOK c.urnUUID → strOK (c.branchSeeds c.branchIdx) →
      strOK (sha256hex (toString c.callID.x)) →
      ∃ resp c2, gen_first_response sha256hex c dereg = .ok (resp, c2)
        ∧ bodySection resp = []
        ∧ headerLineVal "Content-Length" resp
            = some (Nat.repr (byteLength (String.mk
                (bodySection resp)))).data)
    ∧ (∀ (β : Type) (md5 sha256hex : String → String) (c : Client)
      (request : SIPMsg β) (dereg : Bool)
      (regTag realm nonce mth : String) (cseqH : HVal),
      pyDictGet request.authentication "realm" = .ok realm →
      request.hget "CSeq" = .ok cseqH →
      cseqH.item "method" = .ok mth →
      pyDictGet request.authentication "nonce" = .ok nonce →
      pyDictGet c.tagLibrary "register" = .ok regTag →
      strOK regTag → strOK c.username → strOK c.server →
      strOK c.myIP → strOK c.get_my_ip → strOK c.get_my_port →
      strOK c.urnUUID → strOK realm → strOK nonce →
      (∀ t, strOK (md5 t)) →
      strOK (c.branchSeeds c.branchIdx) →
      strOK (sha256hex (toString c.callID.x)) →
      ∃ resp c2, gen_register md5 sha256hex c request dereg
          = .ok (resp, c2)
        ∧ bodySection resp = []
        ∧ headerLineVal "Content-Length" resp
            = some (Nat.repr (byteLength (String.mk
                (bodySection resp)))).data)
    ∧ (∀ (c ct : Client)
      (number sess_id sendtype branch call_id tag : String) (ms : MsMap)
      (body : String),
      invite_body c sess_id ms sendtype = .ok body →
      gen_tag c = .ok (tag, ct) →
      byteLength body = body.length →
      strOK number → strOK ct.server → strOK ct.username →
      strOK ct.myIP → strOK ct.get_my_ip → strOK ct.get_my_port →
      strOK branch → strOK call_id → strOK tag →
      ∃ resp c2, gen_invite c number sess_id ms sendtype branch call_id
          = .ok (resp, c2)
        ∧ bodySection resp = body.data
        ∧ headerLineVal "Content-Length" resp
            = some (Nat.repr (byteLength (String.mk
                (bodySection resp)))).data) :=
  ⟨@gen_ok_content_length, @gen_busy_content_length,
   @gen_sip_version_not_supported_content_length,
   @gen_ack_content_length, @gen_bye_content_length,
   gen_first_response_content_length, @gen_register_content_length,
   gen_invite_content_length⟩

set_option maxRecDepth 100000 in
theorem gen_subscribe_no_content_length_header :
    ∃ s c2, gen_subscribe cEx reqC8 = .ok (s, c2)
      ∧ headerLineVal "Content-Length" s = none
      ∧ pyContains s
          "Accept: application/simple-message-summaryContent-Length: 0"
        = true := by
  refine ⟨_, _, rfl, ?_, ?_⟩ <;> decide

theorem builders_content_length_correct_witness :
    ∃ resp, gen_ok v6Ex cEx reqC8 = .ok (resp, c2W)
      ∧ bodySection resp = []
      ∧ headerLineVal "Content-Length" resp
          = some (Nat.repr (byteLength (String.mk
              (bodySection resp)))).data :=
  builders_content_length_correct.1 Unit v6Ex cEx reqC8
    "Via: SIP/2.0/UDP h1:5060\r\n" ["Via: SIP/2.0/UDP h1:5060".data]
    (HVal.addr fromC8) (HVal.addr toC8) (HVal.cseq "3" "NOTIFY")
    (HVal.str "cid1") "<sip:w@sv>" "t2" "<sip:u@sv>" "tagA" "3" "NOTIFY"
    c2W rfl (by decide) rfl rfl rfl rfl rfl rfl rfl rfl rfl rfl
    (by decide) (by decide) (by decide) (by decide) (by decide)
    (by decide) (by decide)
